import Mathlib

set_option linter.unusedSectionVars false
set_option linter.unreachableTactic false
set_option linter.unusedTactic false
set_option linter.unusedVariables false

/-!
Verification development for the Inferno Drift repository.

The repository contains several near-duplicate front-end variants of one arcade
vehicle simulation.  This file gives a shallow embedding of the simulation cores
the claims refer to:

* namespace `Arena`  — the open-arena variant of `src/unnamed/part_001`
  (the code between its third document separator and its end: `CFG` at the line
  numbers near 2330, `update` near 2859, `applyHeat` near 2959, `bump` near 3085).
* namespace `App`    — `src/app.js` (the free-move arena racer with ramps).
* namespace `Spline` — `src/unnamed/part_000` (the spline-track variant).
* namespace `TickG`  — the frame-loop delta-time guards of `src/app.js`
  (`tick`) and of the second variant of `src/unnamed/part_001` (`loop`).

Numbers are embedded as elements of an arbitrary linear ordered field; the
transcendental library functions used by the source (`Math.sqrt`, `Math.sin`,
`Math.cos`, `Math.pow`, `Math.atan2`, and the constant `Math.PI`) are passed as
an explicit record `MathOps` of functions on the field, so every definition is
executable.  Theorems either hold for every interpretation of these operations
or state the hypotheses on them (for example that the square root is exact on
perfect squares) that the real functions satisfy; witnesses then instantiate
the field with `ℚ` or `ℝ`.
-/

namespace Drift

/-- JS helper `clamp(v, min, max) = Math.min(max, Math.max(min, v))`,
shared verbatim by all variants. -/
def clamp {α : Type} [LinearOrder α] (v lo hi : α) : α :=
  min hi (max lo v)

/-- JS helper `lerp(a, b, t) = a + (b - a) * clamp(t, 0, 1)`,
shared verbatim by all variants. -/
def lerp {α : Type} [LinearOrderedField α] (a b t : α) : α :=
  a + (b - a) * clamp t 0 1

/-- Record of the `Math` library operations the sources call.  `pi` stands for
`Math.PI`.  Definitions take this record as a parameter so that they stay
executable; theorems state exactly the properties of these operations they
need. -/
structure MathOps (α : Type) where
  sqrt : α → α
  sin : α → α
  cos : α → α
  pow : α → α → α
  atan2 : α → α → α
  pi : α

/-- A THREE.js `Vector3`. -/
structure Vec3 (α : Type) where
  x : α
  y : α
  z : α
  deriving DecidableEq, Repr

namespace Vec3

variable {α : Type} [LinearOrderedField α]

/-- Componentwise addition (`Vector3.add`). -/
def add (a b : Vec3 α) : Vec3 α := ⟨a.x + b.x, a.y + b.y, a.z + b.z⟩

/-- Componentwise subtraction (`Vector3.sub`). -/
def sub (a b : Vec3 α) : Vec3 α := ⟨a.x - b.x, a.y - b.y, a.z - b.z⟩

/-- `Vector3.multiplyScalar`. -/
def smul (a : Vec3 α) (k : α) : Vec3 α := ⟨a.x * k, a.y * k, a.z * k⟩

/-- `Vector3.addScaledVector(v, k)`. -/
def addScaled (a v : Vec3 α) (k : α) : Vec3 α := add a (smul v k)

/-- `Vector3.dot`. -/
def dot (a b : Vec3 α) : α := a.x * b.x + a.y * b.y + a.z * b.z

/-- `Vector3.lengthSq`. -/
def lengthSq (a : Vec3 α) : α := a.x * a.x + a.y * a.y + a.z * a.z

/-- `Vector3.length`, through the supplied `Math.sqrt`. -/
def length (F : MathOps α) (a : Vec3 α) : α := F.sqrt (lengthSq a)

/-- `Vector3.normalize`: THREE divides by `length() || 1`, so the zero vector
is returned unchanged. -/
def normalize (F : MathOps α) (a : Vec3 α) : Vec3 α :=
  let l := length F a
  if l = 0 then a else smul a (1 / l)

/-- `Vector3.setLength(k) = normalize().multiplyScalar(k)`. -/
def setLength (F : MathOps α) (a : Vec3 α) (k : α) : Vec3 α :=
  smul (normalize F a) k

/-- `Vector3.reflect(n) = this - n * (2 * this.dot(n))` (n assumed unit). -/
def reflect (a n : Vec3 α) : Vec3 α :=
  sub a (smul n (2 * dot a n))

/-- `Vector3.distanceToSquared`. -/
def distSq (a b : Vec3 α) : α := lengthSq (sub a b)

/-- The zero vector (`new THREE.Vector3()`). -/
def zero : Vec3 α := ⟨0, 0, 0⟩

end Vec3

/-- A `ControlIntent`: the per-tick input record produced by `readInput` /
`autoInput` in every variant (`steer ∈ [-1,1]`, four buttons). -/
structure Intent (α : Type) where
  steer : α
  accel : Bool
  brake : Bool
  drift : Bool
  boost : Bool
  deriving DecidableEq, Repr

/-- Rival archetypes used by the arena variants (`pick(['racer','blocker','hunter'])`). -/
inductive RType where
  | racer
  | blocker
  | hunter
  deriving DecidableEq, Repr

/-- Pickup types (`pick(['cool','cell','shield','coin'])`; `src/app.js` only
ever spawns `coin`). -/
inductive PType where
  | cool
  | cell
  | shield
  | coin
  deriving DecidableEq, Repr

/-- JS `arr[Math.floor(r * arr.length)] || arr[0]` (the `pick` helper). -/
def pickList {α : Type} [LinearOrderedField α] [FloorRing α] {β : Type}
    (L : List β) (d : β) (r : α) : β :=
  L.getD (Int.toNat ⌊r * (L.length : α)⌋) (L.getD 0 d)

/-- One fuelled run of the integer Newton iteration `x ← (x + n / x) / 2`,
stopping at the first non-decreasing step.  It is tail recursive, so the
kernel evaluates it in constant stack space. -/
def isqrtIter : Nat → Nat → Nat → Nat
  | 0, _, x => x
  | fuel + 1, n, x =>
    let x2 := (x + n / x) / 2
    if x2 < x then isqrtIter fuel n x2 else x

/-- Tail-recursive upper bound of the bit length of `n`, counted in 32-bit
chunks. -/
def bits32 : Nat → Nat → Nat → Nat
  | 0, _, acc => acc
  | fuel + 1, n, acc =>
    if n = 0 then acc else bits32 fuel (n / 4294967296) (acc + 32)

/-- Floor square root on `Nat`: Newton iteration seeded by the bit length,
exact for every `n` below `2 ^ 2048`. -/
def intSqrt (n : Nat) : Nat := isqrtIter 200 n (1 <<< (bits32 64 n 0 / 2 + 1))

/-- A rational square root: exact (equal to the real square root) whenever the
argument is a square of a rational; elsewhere its value is irrelevant — every
theorem that evaluates it does so only at perfect squares, checked site by
site. -/
def ratSqrt (q : ℚ) : ℚ := (intSqrt (Int.toNat q.num) : ℚ) / (intSqrt q.den : ℚ)

/-- A concrete `ℚ` interpretation of the `Math` operations, used to evaluate
the counterexample runs.  Its trigonometric values are chosen to agree with
the real functions at the finitely many arguments those runs reach (with `pi`
carried as the stand-in value 2, the spawn angles hit the arguments 0, 1 and 3,
standing for 0, π/2 and 3π/2). -/
def qOps : MathOps ℚ :=
  { sqrt := ratSqrt
    sin := fun x => if x = 1 then 1 else if x = 3 then -1 else 0
    cos := fun x => if x = 0 then 1 else 0
    pow := fun _ _ => 0
    atan2 := fun _ _ => 0
    pi := 2 }

end Drift

namespace Drift.Arena

/-! Embedding of the open-arena variant contained in `src/unnamed/part_001`
(from its third document separator to its end).  Rendering, DOM, audio and
particle code is omitted: it reads but never writes the simulation state. -/

variable {α : Type} [LinearOrderedField α] [FloorRing α]

/-- Circular hazard/boost zone `{x, z, r}` of an arena map. -/
structure Zone (α : Type) where
  x : α
  z : α
  r : α
  deriving DecidableEq, Repr

/-- An arena map `{size, hazards[], boosts[]}`. -/
structure MapDef (α : Type) where
  size : α
  hazards : List (Zone α)
  boosts : List (Zone α)
  deriving DecidableEq, Repr

/-- The `MAPS` table of the arena variant. -/
def MAPS : List (MapDef α) :=
  [ { size := 420
      hazards := [⟨0, 0, 90⟩, ⟨-160, 130, 60⟩]
      boosts := [⟨160, -140, 60⟩, ⟨-200, -120, 50⟩] },
    { size := 520
      hazards := [⟨-120, 40, 70⟩, ⟨140, 160, 80⟩, ⟨60, -200, 60⟩]
      boosts := [⟨-220, -180, 60⟩, ⟨230, 60, 60⟩] },
    { size := 360
      hazards := [⟨-60, 0, 60⟩, ⟨80, -100, 70⟩, ⟨90, 120, 60⟩]
      boosts := [⟨-180, -140, 50⟩, ⟨190, 100, 40⟩] },
    { size := 640
      hazards := [⟨-200, 80, 80⟩, ⟨220, -120, 90⟩, ⟨0, 220, 100⟩]
      boosts := [⟨-280, -260, 80⟩, ⟨280, 260, 80⟩] },
    { size := 420
      hazards := [⟨-140, -40, 70⟩, ⟨60, 140, 70⟩]
      boosts := [⟨160, -160, 60⟩, ⟨-200, 140, 50⟩] },
    { size := 760
      hazards := [⟨0, 0, 120⟩, ⟨260, -200, 120⟩, ⟨-260, 200, 120⟩]
      boosts := [⟨-360, -260, 90⟩, ⟨360, 260, 90⟩] } ]

/-- The perk-modifier record returned by `defaultMods()`. -/
structure Mods (α : Type) where
  coolRate : α
  grip : α
  boostGain : α
  boostDrain : α
  hazardResist : α
  offroadResist : α
  pickRange : α
  shield : Bool
  deriving DecidableEq, Repr

/-- `defaultMods()` of the arena variant. -/
def defaultMods : Mods α :=
  { coolRate := 1, grip := 1, boostGain := 1, boostDrain := 1,
    hazardResist := 1, offroadResist := 0, pickRange := 1, shield := false }

/-- One rival of `activeRivals`. -/
structure Rival (α : Type) where
  pos : Vec3 α
  vel : Vec3 α
  yaw : α
  speed : α
  rtype : RType
  deriving DecidableEq, Repr

/-- One pickup of `activePickups`. -/
structure Pickup (α : Type) where
  pos : Vec3 α
  ptype : PType
  deriving DecidableEq, Repr

/-- `game.state` as far as the simulation reads or writes it; `over` carries
the `endRun` reason. -/
inductive Mode where
  | playing
  | attract
  | over (reason : String)
  deriving DecidableEq, Repr

/-- The simulation-relevant fields of the arena variant `game` object. -/
structure GState (α : Type) where
  mode : Mode
  pos : Vec3 α
  vel : Vec3 α
  yaw : α
  yawVel : α
  speed : α
  drift : α
  boost : α
  boostPulse : α
  heat : α
  overheat : α
  combo : α
  comboTimer : α
  score : α
  runTime : α
  fps : α
  pickupTimer : α
  rivalTimer : α
  drifting : Bool
  mod : Mods α
  map : MapDef α
  rivals : List (Rival α)
  pickups : List (Pickup α)
  deriving DecidableEq, Repr

/-- `endRun(reason)`: no-op when the run is already over, otherwise the state
becomes `'over'` (the reason is what the game-over screen shows). -/
def endRun (reason : String) (m : Mode) : Mode :=
  match m with
  | .over r => .over r
  | _ => .over reason

/-- `clampToArena(map, pos, vel)` of the arena variant: it also adds a heat
penalty to `game.heat` and consumes `game.mod.shield` on a bounce.  Returns
the updated `(pos, vel, heat, shield)`. -/
def clampToArena (F : MathOps α) (map : MapDef α) (pos vel : Vec3 α)
    (heat : α) (shield : Bool) : Vec3 α × Vec3 α × α × Bool :=
  let limit := map.size
  if Vec3.length F pos > limit then
    let dir := Vec3.normalize F pos
    let pos2 := Vec3.smul dir (limit * (995 / 1000))
    let vel2 := Vec3.smul (Vec3.reflect vel dir) (45 / 100)
    (pos2, vel2, heat + 6, false)
  else
    (pos, vel, heat, shield)

/-- Lines `if (input.accel) ...` and `if (input.brake) ...` of `update`:
longitudinal forces. -/
def accelVel (i : Intent α) (dt : α) (fwd vel : Vec3 α) : Vec3 α :=
  let vel1 := if i.accel then Vec3.addScaled vel fwd (230 * dt) else vel
  if i.brake then Vec3.addScaled vel1 fwd (-(260 * dt)) else vel1

/-- The `steerRate` expression of `update` (drift widens it, an active
overheat timer multiplies grip down by 0.6). -/
def steerRateOf (i : Intent α) (overheat grip speed : α) : α :=
  (if i.drift then (30 : α) / 10 else 22 / 10) *
    (if overheat > 0 then (6 : α) / 10 else 1) * grip * (8 / 10 + speed / 360)

/-- The lateral-slip correction of `update`: decompose the velocity into
forward and lateral parts and damp the lateral part (this also zeroes the
vertical component, as `vel.copy(...).add(...)` does). -/
def lateralVel (dt : α) (fwd rgt vel : Vec3 α) : Vec3 α :=
  let fSpeed := Vec3.dot vel fwd
  let side := lerp (Vec3.dot vel rgt) 0 (dt * 7)
  Vec3.add (Vec3.smul fwd fSpeed) (Vec3.smul rgt side)

/-- The drag multiplication of `update` (`drag` 0.14 plus `coastDrag` 0.08
off throttle). -/
def dragVel (i : Intent α) (dt : α) (vel : Vec3 α) : Vec3 α :=
  Vec3.smul vel
    (max 0 (1 - ((14 : α) / 100 + (if i.accel then 0 else (8 : α) / 100)) * dt))

/-- The drift charge / release block of `update`: charging clamps the meter
into [0,100], damps the speed figure and heats; releasing with more than 5
charge converts the charge into boost (clamped to the 140 cap) and arms the
0.9 s boost pulse, and always resets the charge. -/
def driftBlock (i : Intent α) (dt : α) (s : GState α) : GState α :=
  if i.drift then
    { s with
      drift := clamp (s.drift + 30 * dt) 0 100
      speed := s.speed * (995 / 1000)
      heat := s.heat + 20 * dt
      drifting := true }
  else if s.drifting then
    let s1 := if s.drift > 5 then
      { s with
        boost := clamp (s.boost + s.drift * (75 / 100) * s.mod.boostGain) 0 140
        boostPulse := (9 : α) / 10 }
      else s
    { s1 with drift := 0, drifting := false }
  else s

/-- The boost burn block of `update`: while the boost key is held and fuel
remains, add forward force, drain fuel and heat up. -/
def boostBurn (i : Intent α) (dt : α) (fwd : Vec3 α) (s : GState α) : GState α :=
  if i.boost ∧ s.boost > 0 then
    { s with
      vel := Vec3.addScaled s.vel fwd (620 * dt)
      boost := clamp (s.boost - 40 * dt * s.mod.boostDrain) 0 140
      heat := s.heat + 28 * dt }
  else s

/-- The boost pulse block of `update`. -/
def pulseKick (dt : α) (fwd : Vec3 α) (s : GState α) : GState α :=
  if s.boostPulse > 0 then
    { s with
      vel := Vec3.addScaled s.vel fwd (140 * dt)
      boostPulse := s.boostPulse - dt }
  else s

/-- The body of `update` from the line computing `forward` through the
position integration (`game.pos.addScaledVector(game.vel, dt)`), in source
order.  `fwd` is the `forward` vector, computed by the caller from the
pre-tick yaw. -/
def integrate (F : MathOps α) (i : Intent α) (dt : α) (fwd : Vec3 α)
    (s : GState α) : GState α :=
  let rgt : Vec3 α := ⟨fwd.z, 0, -fwd.x⟩
  let s1 := { s with
    runTime := s.runTime + dt
    fps := if s.fps = 0 then 1 / dt else lerp s.fps (1 / dt) (8 / 100) }
  let vel2 := accelVel i dt fwd s.vel
  let yawVel1 := lerp s.yawVel
    (i.steer * steerRateOf i s.overheat s.mod.grip s.speed) (dt * 8)
  let yaw1 := s.yaw + yawVel1 * dt
  let vel4 := dragVel i dt (lateralVel dt fwd rgt vel2)
  let speed1 := clamp (Vec3.length F vel4) 0 (360 * (135 / 100))
  let s2 := driftBlock i dt
    { s1 with yawVel := yawVel1, yaw := yaw1, vel := vel4, speed := speed1 }
  let s3 := pulseKick dt fwd (boostBurn i dt fwd s2)
  { s3 with pos := Vec3.addScaled s3.pos s3.vel dt }

/-- `clampToArena` applied to the player. -/
def playerClamp (F : MathOps α) (s : GState α) : GState α :=
  let r := clampToArena F s.map s.pos s.vel s.heat s.mod.shield
  { s with
    pos := r.1
    vel := r.2.1
    heat := r.2.2.1
    mod := { s.mod with shield := r.2.2.2 } }

/-- `applyHazards(dt, pos)`: for each hazard circle containing the player,
accrue heat and damp the velocity. -/
def applyHazards (dt : α) (s : GState α) : GState α :=
  let hv := s.map.hazards.foldl
    (fun (hv : α × Vec3 α) h =>
      if (s.pos.x - h.x) ^ 2 + (s.pos.z - h.z) ^ 2 < h.r * h.r then
        (hv.1 + 55 * dt * s.mod.hazardResist, Vec3.smul hv.2 (1 - (6 / 10) * dt))
      else hv)
    (s.heat, s.vel)
  { s with heat := hv.1, vel := hv.2 }

/-- `applyBoostPads(dt, pos, forward)`. -/
def applyBoostPads (dt : α) (fwd : Vec3 α) (s : GState α) : GState α :=
  let bv := s.map.boosts.foldl
    (fun (bv : α × Vec3 α) b =>
      if (s.pos.x - b.x) ^ 2 + (s.pos.z - b.z) ^ 2 < b.r * b.r then
        (clamp (bv.1 + 16 * dt) 0 140, Vec3.addScaled bv.2 fwd (620 * (35 / 100) * dt))
      else bv)
    (s.boost, s.vel)
  { s with boost := bv.1, vel := bv.2 }

/-- `applyHeat(dt)` of the arena variant: cool and clamp the heat meter, and
when it reaches 100 with no overheat pending, arm the 2.8 s overheat timer
(the grip penalty read by `update`) and call `endRun('Overheated')`. -/
def applyHeat (dt : α) (s : GState α) : GState α :=
  let overheat1 := if s.overheat > 0 then max 0 (s.overheat - dt) else s.overheat
  let heat1 := clamp (s.heat - 16 * dt * s.mod.coolRate) 0 100
  if heat1 ≥ 100 ∧ overheat1 ≤ 0 then
    { s with
      heat := heat1
      overheat := (28 : α) / 10
      mode := endRun "Overheated" s.mode }
  else
    { s with heat := heat1, overheat := overheat1 }

/-- The combo decay and continuous score accrual lines of `update`. -/
def comboScore (i : Intent α) (dt : α) (s : GState α) : GState α :=
  let comboTimer1 := max 0 (s.comboTimer - dt)
  let combo1 := if comboTimer1 ≤ 0 then max 1 (s.combo - (2 / 10) * dt) else s.combo
  let score1 := s.score +
    (s.speed * (8 / 100) + (if i.drift then 4 else 0)) * dt * combo1
  { s with comboTimer := comboTimer1, combo := combo1, score := score1 }

/-- `addCombo(v)`. -/
def addCombo (v : α) (s : GState α) : GState α :=
  { s with combo := clamp (s.combo + v) 1 9, comboTimer := 3 }

/-- `collectPickup(p)`. -/
def collectPickup (p : Pickup α) (s : GState α) : GState α :=
  let s1 := if p.ptype = .cool then { s with heat := max 0 (s.heat - 28) } else s
  let s2 := if p.ptype = .cell then { s1 with boost := clamp (s1.boost + 45) 0 140 } else s1
  let s3 := if p.ptype = .shield then { s2 with mod := { s2.mod with shield := true } } else s2
  if p.ptype = .coin then addCombo (5 / 10) { s3 with score := s3.score + 180 * s3.combo }
  else s3

/-- `insideHazard(map, pos)`. -/
def insideHazard (map : MapDef α) (pos : Vec3 α) : Bool :=
  map.hazards.any fun h =>
    decide ((pos.x - h.x) ^ 2 + (pos.z - h.z) ^ 2 < h.r * h.r)

/-- The candidate-position loop of `spawnPickup`: up to ten random positions
are tried, the first one outside every hazard is kept, otherwise the last try
stands (`pos` retains the final loop value). -/
def pickupTries (F : MathOps α) (map : MapDef α) :
    List (α × α) → Vec3 α → Vec3 α
  | [], last => last
  | (aR, rR) :: rest, _ =>
    let ang := aR * F.pi * 2
    let r := rR * map.size * (8 / 10)
    let pos : Vec3 α := ⟨F.cos ang * r, 0, F.sin ang * r⟩
    if insideHazard map pos then pickupTries F map rest pos else pos

/-- `spawnPickup()`: random position outside hazards (ten tries), random type. -/
def spawnPickup (F : MathOps α) (map : MapDef α)
    (tries : List (α × α)) (typeR : α) : Pickup α :=
  { pos := pickupTries F map tries Vec3.zero,
    ptype := pickList [PType.cool, PType.cell, PType.shield, PType.coin] .cool typeR }

/-- The four random draws of one `spawnRival()` call. -/
structure RivalRands (α : Type) where
  angR : α
  distR : α
  yawR : α
  typeR : α
  deriving Repr

/-- `spawnRival()`: random ring position, zero velocity, random yaw and type. -/
def spawnRival (F : MathOps α) (map : MapDef α) (o : RivalRands α) : Rival α :=
  let ang := o.angR * F.pi * 2
  let r := map.size * (4 / 10 + o.distR * (4 / 10))
  { pos := ⟨F.cos ang * r, 0, F.sin ang * r⟩,
    vel := Vec3.zero,
    yaw := o.yawR * F.pi * 2,
    speed := 0,
    rtype := pickList [RType.racer, RType.blocker, RType.hunter] .racer o.typeR }

/-- The random draws one tick of `update` may consume. -/
structure TickRands (α : Type) where
  rivalSpawn : RivalRands α
  pickupTries : List (α × α)
  pickupTypeR : α
  rivalAccel : Nat → α

/-- The body of the `updatePickups` loop for the pickup of index `idx` (the
loop runs from the highest index down, so the list tail is processed first).
Removal by `splice` on collection drops the pickup from the result list. -/
def pickupLoop (F : MathOps α) (dt : α) :
    Nat → GState α → List (Pickup α) → GState α × List (Pickup α)
  | _, g, [] => (g, [])
  | idx, g, p :: rest =>
    let pr := pickupLoop F dt (idx + 1) g rest
    let g1 := pr.1
    let posY := (8 : α) / 10 + F.sin (g1.runTime * 4 + (idx : α)) * (2 / 10)
    let ppos : Vec3 α := ⟨p.pos.x, posY, p.pos.z⟩
    let dist2 := Vec3.lengthSq (Vec3.sub ppos g1.pos)
    let pullRange := (11 : α) * g1.mod.pickRange
    if dist2 < pullRange * pullRange then
      if dist2 < 9 then (collectPickup p g1, pr.2)
      else
        let dir := Vec3.smul (Vec3.sub g1.pos ppos) (5 / 100)
        (g1, { p with pos := Vec3.add ppos dir } :: pr.2)
    else
      (g1, { p with pos := ppos } :: pr.2)

/-- `updatePickups(dt)`: spawn timer, then the per-pickup loop. -/
def updatePickups (F : MathOps α) (dt : α) (o : TickRands α) (s : GState α) :
    GState α :=
  let pt := s.pickupTimer - dt
  let sp : α × List (Pickup α) :=
    if pt ≤ 0 ∧ s.pickups.length < 6 then
      (7, s.pickups ++ [spawnPickup F s.map o.pickupTries o.pickupTypeR])
    else (pt, s.pickups)
  let g1 := { s with pickupTimer := sp.1 }
  let r := pickupLoop F dt 0 g1 sp.2
  { r.1 with pickups := r.2 }

/-- `bump()` of the arena variant: damp the player velocity, add heat
(after `applyHeat` already ran this tick), shrink the combo. -/
def bump (s : GState α) : GState α :=
  addCombo (-(5 / 10)) { s with vel := Vec3.smul s.vel (7 / 10), heat := s.heat + 8 }

/-- The body of the `updateRivals` loop for one rival. -/
def rivalUpd (F : MathOps α) (dt : α) (accelR : α) (idx : Nat)
    (g : GState α) (r : Rival α) : GState α × Rival α :=
  let toPlayer := Vec3.sub g.pos r.pos
  let dir := Vec3.normalize F toPlayer
  let side : Vec3 α := ⟨dir.z, 0, -dir.x⟩
  let laneOffset : α :=
    match r.rtype with
    | .blocker => F.sin (g.runTime * (18 / 10) + (idx : α)) * (6 / 10)
    | .hunter => F.sin (g.runTime * 3 + (idx : α)) * (2 / 10)
    | .racer => 0
  let desired := Vec3.normalize F (Vec3.add dir (Vec3.smul side laneOffset))
  let vel1 := Vec3.addScaled r.vel desired ((120 + accelR * 30) * dt)
  let vel2 := Vec3.smul vel1 (max 0 (1 - (12 / 100) * dt))
  let speed1 := clamp (Vec3.length F vel2) 40 (360 * (9 / 10))
  let pos1 := Vec3.addScaled r.pos vel2 dt
  let cl := clampToArena F g.map pos1 vel2 g.heat g.mod.shield
  let pos2 := cl.1
  let vel3 := cl.2.1
  let g1 := { g with heat := cl.2.2.1, mod := { g.mod with shield := cl.2.2.2 } }
  let yaw1 := F.atan2 vel3.x vel3.z
  let dz := Vec3.length F (Vec3.sub g1.pos pos2)
  if dz < 3 then
    let g2 := if g1.mod.shield then { g1 with mod := { g1.mod with shield := false } }
      else bump g1
    (g2, { pos := pos2, vel := Vec3.smul vel3 (6 / 10), yaw := yaw1,
           speed := speed1, rtype := r.rtype })
  else
    (g1, { pos := pos2, vel := vel3, yaw := yaw1, speed := speed1, rtype := r.rtype })

/-- The `updateRivals` loop: indices run from the end of `activeRivals` down
to 0, so the list tail is processed before the head. -/
def rivalLoop (F : MathOps α) (dt : α) (o : TickRands α) :
    Nat → GState α → List (Rival α) → GState α × List (Rival α)
  | _, g, [] => (g, [])
  | idx, g, r :: rest =>
    let pr := rivalLoop F dt o (idx + 1) g rest
    let step := rivalUpd F dt (o.rivalAccel idx) idx pr.1 r
    (step.1, step.2 :: pr.2)

/-- `updateRivals(dt)`: spawn timer, then the per-rival loop. -/
def updateRivals (F : MathOps α) (dt : α) (o : TickRands α) (s : GState α) :
    GState α :=
  let rt := s.rivalTimer - dt
  let sp : α × List (Rival α) :=
    if rt ≤ 0 ∧ s.rivals.length < 6 then
      (5, s.rivals ++ [spawnRival F s.map o.rivalSpawn])
    else (rt, s.rivals)
  let g1 := { s with rivalTimer := sp.1 }
  let r := rivalLoop F dt o 0 g1 sp.2
  { r.1 with rivals := r.2 }

/-- One call of the arena variant `update(dt)`, with the `ControlIntent`
(`readInput()` or `autoInput(dt)`) passed explicitly and the `Math.random`
draws supplied by `o`.  The sub-updates run in source order. -/
def update (F : MathOps α) (i : Intent α) (dt : α) (o : TickRands α)
    (s : GState α) : GState α :=
  let fwd : Vec3 α := ⟨F.sin s.yaw, 0, F.cos s.yaw⟩
  let s1 := integrate F i dt fwd s
  let s2 := playerClamp F s1
  let s3 := applyHazards dt s2
  let s4 := applyBoostPads dt fwd s3
  let s5 := applyHeat dt s4
  let s6 := comboScore i dt s5
  let s7 := updatePickups F dt o s6
  updateRivals F dt o s7

/-- The random draws `startRun` consumes (two `spawnRival`, one `spawnPickup`). -/
structure StartRands (α : Type) where
  rival1 : RivalRands α
  rival2 : RivalRands α
  pickupTries : List (α × α)
  pickupTypeR : α

/-- The game state right after `startRun('player')` on a fresh session with no
stored perk: every meter reset, `defaultMods`, and `buildArena` spawning two
rivals and one pickup on the selected map. -/
def startState (F : MathOps α) (map : MapDef α) (o : StartRands α) : GState α :=
  { mode := .playing
    pos := Vec3.zero
    vel := Vec3.zero
    yaw := 0, yawVel := 0, speed := 0, drift := 0, boost := 0, boostPulse := 0
    heat := 0, overheat := 0, combo := 1, comboTimer := 0, score := 0
    runTime := 0, fps := 0
    pickupTimer := 7, rivalTimer := 5
    drifting := false
    mod := defaultMods
    map := map
    rivals := [spawnRival F map o.rival1, spawnRival F map o.rival2]
    pickups := [spawnPickup F map o.pickupTries o.pickupTypeR] }

/-- Run a list of ticks: each element is the intent, the frame delta and the
random draws of one `update` call. -/
def run (F : MathOps α) : GState α → List (Intent α × α × TickRands α) → GState α
  | s, [] => s
  | s, (i, dt, o) :: rest => run F (update F i dt o s) rest

/-- The all-buttons-released intent (no key held, steer 0). -/
def idleIntent : Intent α := ⟨0, false, false, false, false⟩

/-- The throttle-only intent (W held, nothing else). -/
def accelIntent : Intent α := ⟨0, true, false, false, false⟩

/-- Random draws for a tick in which neither spawn timer fires: the rival
acceleration jitter is drawn 0 and the spawn draws are never consumed. -/
def calmRands : TickRands α :=
  { rivalSpawn := ⟨0, 0, 0, 0⟩
    pickupTries := [(0, 1 / 2)]
    pickupTypeR := 0
    rivalAccel := fun _ => 0 }

/-- Start draws of the heat counterexample run, on map index 1 (size 520):
rival 1 spawns as a racer at (0, 0, 208), rival 2 as a racer at (312, 0, 0),
the pickup at (208, 0, 0). -/
def heatStartRands : StartRands α :=
  { rival1 := ⟨1 / 4, 0, 0, 0⟩
    rival2 := ⟨0, 1 / 2, 0, 0⟩
    pickupTries := [(0, 1 / 2)]
    pickupTypeR := 0 }

/-- Tick list of the heat counterexample run: the player idles while rival 1
closes in (37 frames of 50 ms, one of 48 ms), then bumps every frame during
12 short 2 ms frames. -/
def heatTicks : List (Intent α × α × TickRands α) :=
  List.replicate 37 (idleIntent, 1 / 20, calmRands) ++
    [(idleIntent, 6 / 125, calmRands)] ++
    List.replicate 12 (idleIntent, 1 / 500, calmRands)

/-- Start draws of the speed counterexample run, on map index 5 (size 760):
both rivals spawn as racers behind the player, at (0, 0, -304) and
(0, 0, -456); the pickup at (304, 0, 0). -/
def speedStartRands : StartRands α :=
  { rival1 := ⟨3 / 4, 0, 0, 0⟩
    rival2 := ⟨3 / 4, 1 / 2, 0, 0⟩
    pickupTries := [(0, 1 / 2)]
    pickupTypeR := 0 }

/-- Tick list of the speed counterexample run: 57 frames of 50 ms with the
throttle held. -/
def speedTicks : List (Intent α × α × TickRands α) :=
  List.replicate 57 (accelIntent, 1 / 20, calmRands)

end Drift.Arena

namespace Drift

/-! Casting the `ℚ`-evaluated structures into an arbitrary linear ordered
field, for transporting the concrete counterexample runs to every
interpretation of the `Math` operations. -/

variable {α : Type} [LinearOrderedField α] [FloorRing α]

/-- Componentwise rational cast of a vector. -/
def castVec (v : Vec3 ℚ) : Vec3 α := ⟨(v.x : α), (v.y : α), (v.z : α)⟩

/-- Rational cast of a `ControlIntent`. -/
def castIntent (i : Intent ℚ) : Intent α :=
  ⟨(i.steer : α), i.accel, i.brake, i.drift, i.boost⟩

theorem castVec_add (a b : Vec3 ℚ) :
    castVec (α := α) (Vec3.add a b) = Vec3.add (castVec a) (castVec b) := by
  simp [castVec, Vec3.add]

theorem castVec_sub (a b : Vec3 ℚ) :
    castVec (α := α) (Vec3.sub a b) = Vec3.sub (castVec a) (castVec b) := by
  simp [castVec, Vec3.sub]

theorem castVec_smul (a : Vec3 ℚ) (k : ℚ) :
    castVec (α := α) (Vec3.smul a k) = Vec3.smul (castVec a) (k : α) := by
  simp [castVec, Vec3.smul]

theorem castVec_addScaled (a v : Vec3 ℚ) (k : ℚ) :
    castVec (α := α) (Vec3.addScaled a v k) =
      Vec3.addScaled (castVec a) (castVec v) (k : α) := by
  simp [Vec3.addScaled, castVec_add, castVec_smul]

theorem castVec_dot (a b : Vec3 ℚ) :
    ((Vec3.dot a b : ℚ) : α) = Vec3.dot (castVec a) (castVec b) := by
  simp [castVec, Vec3.dot]

theorem castVec_lengthSq (a : Vec3 ℚ) :
    ((Vec3.lengthSq a : ℚ) : α) = Vec3.lengthSq (castVec a) := by
  simp [castVec, Vec3.lengthSq]

theorem castVec_reflect (a n : Vec3 ℚ) :
    castVec (α := α) (Vec3.reflect a n) = Vec3.reflect (castVec a) (castVec n) := by
  simp [Vec3.reflect, castVec_sub, castVec_smul, castVec_dot]

theorem castVec_zero : castVec (α := α) Vec3.zero = Vec3.zero := by
  simp [castVec, Vec3.zero]

theorem cast_clamp (v lo hi : ℚ) :
    ((clamp v lo hi : ℚ) : α) = clamp (v : α) (lo : α) (hi : α) := by
  simp [clamp, Rat.cast_min, Rat.cast_max]

theorem cast_lerp (a b t : ℚ) :
    ((lerp a b t : ℚ) : α) = lerp (a : α) (b : α) (t : α) := by
  simp [lerp, cast_clamp]

/-- `sqrtOK q` certifies that `q` is the square of the nonnegative rational
`ratSqrt q`; at such arguments every square-root interpretation that is exact
on squares agrees with the rational one. -/
def sqrtOK (q : ℚ) : Bool :=
  decide (ratSqrt q * ratSqrt q = q ∧ 0 ≤ ratSqrt q)

theorem sqrt_cast_of_ok {F : MathOps α}
    (hF : ∀ x : α, 0 ≤ x → F.sqrt (x * x) = x) {q : ℚ} (h : sqrtOK q = true) :
    F.sqrt (q : α) = (ratSqrt q : α) := by
  have h2 := of_decide_eq_true h
  have hx : ((q : ℚ) : α) = (ratSqrt q : α) * (ratSqrt q : α) := by
    rw [← Rat.cast_mul, h2.1]
  rw [hx, hF _ (by exact_mod_cast h2.2)]

theorem sqrt_rat_of_ok {q : ℚ} (h : sqrtOK q = true) :
    qOps.sqrt q = ratSqrt q := rfl

end Drift

namespace Drift.Arena

variable {α : Type} [LinearOrderedField α] [FloorRing α]

/-- Rational cast of a zone. -/
def castZone (z : Zone ℚ) : Zone α := ⟨(z.x : α), (z.z : α), (z.r : α)⟩

/-- Rational cast of a map. -/
def castMap (m : MapDef ℚ) : MapDef α :=
  ⟨(m.size : α), m.hazards.map castZone, m.boosts.map castZone⟩

/-- Rational cast of the perk modifiers. -/
def castMods (m : Mods ℚ) : Mods α :=
  { coolRate := (m.coolRate : α), grip := m.grip, boostGain := m.boostGain,
    boostDrain := m.boostDrain, hazardResist := m.hazardResist,
    offroadResist := m.offroadResist, pickRange := m.pickRange,
    shield := m.shield }

/-- Rational cast of one tick of random draws. -/
def castRands (o : TickRands ℚ) : TickRands α :=
  { rivalSpawn := ⟨(o.rivalSpawn.angR : α), o.rivalSpawn.distR,
      o.rivalSpawn.yawR, o.rivalSpawn.typeR⟩
    pickupTries := o.pickupTries.map fun p => ((p.1 : α), (p.2 : α))
    pickupTypeR := (o.pickupTypeR : α)
    rivalAccel := fun n => (o.rivalAccel n : α) }

/-- Rational cast of a tick list. -/
def castTicks (L : List (Intent ℚ × ℚ × TickRands ℚ)) :
    List (Intent α × α × TickRands α) :=
  L.map fun t => (castIntent t.1, (t.2.1 : α), castRands t.2.2)

/-- The transported-run relation on rivals: position, velocity and archetype
are casts of the rational run; the dead fields `yaw` (display heading, set
through `Math.atan2` and never read back) and `speed` (set through
`Math.sqrt` and never read back) are unconstrained. -/
def RelRival (r : Rival ℚ) (ra : Rival α) : Prop :=
  ra.pos = castVec r.pos ∧ ra.vel = castVec r.vel ∧ ra.rtype = r.rtype

/-- The transported-run relation on pickups: the horizontal position and type
are casts; the bob height `pos.y` (set through `Math.sin` each tick) is
unconstrained. -/
def RelPickup (p : Pickup ℚ) (pa : Pickup α) : Prop :=
  pa.pos.x = (p.pos.x : α) ∧ pa.pos.z = (p.pos.z : α) ∧ pa.ptype = p.ptype

/-- The transported-run relation on game states: every field the simulation
reads back is the cast of the rational run.  The fields `speed`, `score` and
`fps` are unconstrained: they are derived through `Math.sqrt` (or `1/dt`) and
feed only the HUD, the steering-rate factor (inert while the steer input is
0) and further score accrual. -/
structure Rel (s : GState ℚ) (sa : GState α) : Prop where
  mode : sa.mode = s.mode
  pos : sa.pos = castVec s.pos
  vel : sa.vel = castVec s.vel
  yaw : sa.yaw = (s.yaw : α)
  yawVel : sa.yawVel = (s.yawVel : α)
  drift : sa.drift = (s.drift : α)
  boost : sa.boost = (s.boost : α)
  boostPulse : sa.boostPulse = (s.boostPulse : α)
  heat : sa.heat = (s.heat : α)
  overheat : sa.overheat = (s.overheat : α)
  combo : sa.combo = (s.combo : α)
  comboTimer : sa.comboTimer = (s.comboTimer : α)
  runTime : sa.runTime = (s.runTime : α)
  pickupTimer : sa.pickupTimer = (s.pickupTimer : α)
  rivalTimer : sa.rivalTimer = (s.rivalTimer : α)
  drifting : sa.drifting = s.drifting
  mod : sa.mod = castMods s.mod
  map : sa.map = castMap s.map
  rivals : List.Forall₂ RelRival s.rivals sa.rivals
  pickups : List.Forall₂ RelPickup s.pickups sa.pickups

theorem cast_ite_rel {c : Prop} {d : Prop} [Decidable c] [Decidable d]
    (h : c ↔ d) (a b : ℚ) :
    (if d then (a : α) else (b : α)) = (((if c then a else b : ℚ)) : α) := by
  rcases iff_iff_and_or_not_and_not.mp h with ⟨h1, h2⟩ | ⟨h1, h2⟩
  · rw [if_pos h1, if_pos (h.mp h1)]
  · rw [if_neg h1, if_neg (fun hd => h1 (h.mpr hd))]

theorem accelVel_cast (i : Intent ℚ) (dt : ℚ) (fwd vel : Vec3 ℚ) :
    accelVel (castIntent i) (dt : α) (castVec fwd) (castVec vel) =
      castVec (accelVel i dt fwd vel) := by
  cases hacc : i.accel <;> cases hbrk : i.brake <;>
    simp [accelVel, castIntent, hacc, hbrk, castVec_addScaled]

theorem lateralVel_cast (dt : ℚ) (fwd rgt vel : Vec3 ℚ) :
    lateralVel (dt : α) (castVec fwd) (castVec rgt) (castVec vel) =
      castVec (lateralVel dt fwd rgt vel) := by
  simp [lateralVel, castVec_add, castVec_smul, castVec_dot, cast_lerp]

theorem dragVel_cast (i : Intent ℚ) (dt : ℚ) (vel : Vec3 ℚ) :
    dragVel (castIntent i) (dt : α) (castVec vel) = castVec (dragVel i dt vel) := by
  cases hacc : i.accel <;>
    simp [dragVel, castIntent, hacc, castVec_smul, Rat.cast_max]

theorem driftBlock_rel {i : Intent ℚ} {dt : ℚ} {s : GState ℚ}
    {sa : GState α} (R : Rel s sa) :
    Rel (driftBlock i dt s) (driftBlock (castIntent i) (dt : α) sa) := by
  obtain ⟨hmode, hpos, hvel, hyaw, hyawVel, hdrift, hboost, hpulse, hheat, hoverheat,
    hcombo, hcomboT, hrunT, hpickT, hrivT, hdrifting, hmod, hmap, hriv, hpick⟩ := R
  unfold driftBlock
  simp only [castIntent]
  rw [hdrifting, hdrift]
  cases hd : i.drift
  · cases hdr : s.drifting
    · simp only [hd, hdr, Bool.false_eq_true, if_false]
      exact ⟨hmode, hpos, hvel, hyaw, hyawVel, hdrift, hboost, hpulse, hheat, hoverheat,
        hcombo, hcomboT, hrunT, hpickT, hrivT, hdrifting, hmod, hmap, hriv, hpick⟩
    · simp only [hd, hdr, Bool.false_eq_true, eq_self_iff_true, if_true, if_false]
      rcases lt_or_le (5 : ℚ) s.drift with h5 | h5
      · rw [if_pos h5, if_pos (show (5 : α) < ((s.drift : ℚ) : α) by exact_mod_cast h5)]
        refine ⟨hmode, hpos, hvel, hyaw, hyawVel, by simp, ?_, by simp, hheat, hoverheat,
          hcombo, hcomboT, hrunT, hpickT, hrivT, by simp, hmod, hmap, hriv, hpick⟩
        show clamp (sa.boost + (s.drift : α) * (75 / 100) * sa.mod.boostGain) 0 140 = _
        rw [hboost, hmod]
        show clamp ((s.boost : α) + (s.drift : α) * (75 / 100) * (s.mod.boostGain : α))
          0 140 = ((clamp (s.boost + s.drift * (75 / 100) * s.mod.boostGain) 0 140 : ℚ) : α)
        rw [cast_clamp]
        push_cast
        ring_nf
      · rw [if_neg (not_lt.mpr h5),
          if_neg (not_lt.mpr (show ((s.drift : ℚ) : α) ≤ 5 by exact_mod_cast h5))]
        exact ⟨hmode, hpos, hvel, hyaw, hyawVel, by simp, hboost, hpulse, hheat, hoverheat,
          hcombo, hcomboT, hrunT, hpickT, hrivT, by simp, hmod, hmap, hriv, hpick⟩
  · simp only [hd, eq_self_iff_true, if_true]
    refine ⟨hmode, hpos, hvel, hyaw, hyawVel, ?_, hboost, hpulse, ?_, hoverheat,
      hcombo, hcomboT, hrunT, hpickT, hrivT, by simp, hmod, hmap, hriv, hpick⟩
    · show clamp (((s.drift : ℚ) : α) + 30 * (dt : α)) 0 100
          = ((clamp (s.drift + 30 * dt) 0 100 : ℚ) : α)
      rw [cast_clamp]
      push_cast
      ring_nf
    · show sa.heat + 20 * (dt : α) = ((s.heat + 20 * dt : ℚ) : α)
      rw [hheat]
      push_cast
      ring_nf

theorem boostBurn_rel {i : Intent ℚ} {dt : ℚ} {fwd : Vec3 ℚ} {s : GState ℚ}
    {sa : GState α} (R : Rel s sa) :
    Rel (boostBurn i dt fwd s) (boostBurn (castIntent i) (dt : α) (castVec fwd) sa) := by
  obtain ⟨hmode, hpos, hvel, hyaw, hyawVel, hdrift, hboost, hpulse, hheat, hoverheat,
    hcombo, hcomboT, hrunT, hpickT, hrivT, hdrifting, hmod, hmap, hriv, hpick⟩ := R
  unfold boostBurn
  simp only [castIntent]
  rw [hboost]
  simp only [gt_iff_lt, Rat.cast_pos]
  by_cases hc : i.boost = true ∧ 0 < s.boost
  · rw [if_pos hc, if_pos hc]
    refine ⟨hmode, hpos, ?_, hyaw, hyawVel, hdrift, ?_, hpulse, ?_, hoverheat,
      hcombo, hcomboT, hrunT, hpickT, hrivT, hdrifting, hmod, hmap, hriv, hpick⟩
    · show Vec3.addScaled sa.vel (castVec fwd) (620 * (dt : α))
          = castVec (Vec3.addScaled s.vel fwd (620 * dt))
      rw [hvel, castVec_addScaled]
      push_cast
      ring_nf
    · show clamp (((s.boost : ℚ) : α) - 40 * (dt : α) * sa.mod.boostDrain) 0 140
          = ((clamp (s.boost - 40 * dt * s.mod.boostDrain) 0 140 : ℚ) : α)
      rw [hmod, cast_clamp]
      show clamp (((s.boost : ℚ) : α) - 40 * (dt : α) * ((s.mod.boostDrain : ℚ) : α)) 0 140 = _
      push_cast
      ring_nf
    · show sa.heat + 28 * (dt : α) = ((s.heat + 28 * dt : ℚ) : α)
      rw [hheat]
      push_cast
      ring_nf
  · rw [if_neg hc, if_neg hc]
    exact ⟨hmode, hpos, hvel, hyaw, hyawVel, hdrift, hboost, hpulse, hheat, hoverheat,
      hcombo, hcomboT, hrunT, hpickT, hrivT, hdrifting, hmod, hmap, hriv, hpick⟩

theorem pulseKick_rel {dt : ℚ} {fwd : Vec3 ℚ} {s : GState ℚ}
    {sa : GState α} (R : Rel s sa) :
    Rel (pulseKick dt fwd s) (pulseKick (dt : α) (castVec fwd) sa) := by
  obtain ⟨hmode, hpos, hvel, hyaw, hyawVel, hdrift, hboost, hpulse, hheat, hoverheat,
    hcombo, hcomboT, hrunT, hpickT, hrivT, hdrifting, hmod, hmap, hriv, hpick⟩ := R
  unfold pulseKick
  rw [hpulse]
  simp only [gt_iff_lt, Rat.cast_pos]
  by_cases hc : 0 < s.boostPulse
  · rw [if_pos hc, if_pos hc]
    refine ⟨hmode, hpos, ?_, hyaw, hyawVel, hdrift, hboost, ?_, hheat, hoverheat,
      hcombo, hcomboT, hrunT, hpickT, hrivT, hdrifting, hmod, hmap, hriv, hpick⟩
    · show Vec3.addScaled sa.vel (castVec fwd) (140 * (dt : α))
          = castVec (Vec3.addScaled s.vel fwd (140 * dt))
      rw [hvel, castVec_addScaled]
      push_cast
      ring_nf
    · show ((s.boostPulse : ℚ) : α) - (dt : α) = ((s.boostPulse - dt : ℚ) : α)
      push_cast
      ring_nf
  · rw [if_neg hc, if_neg hc]
    exact ⟨hmode, hpos, hvel, hyaw, hyawVel, hdrift, hboost, hpulse, hheat, hoverheat,
      hcombo, hcomboT, hrunT, hpickT, hrivT, hdrifting, hmod, hmap, hriv, hpick⟩

theorem rel_setPos {dt : ℚ} {s : GState ℚ} {sa : GState α} (R : Rel s sa) :
    Rel { s with pos := Vec3.addScaled s.pos s.vel dt }
        { sa with pos := Vec3.addScaled sa.pos sa.vel (dt : α) } := by
  obtain ⟨hmode, hpos, hvel, hyaw, hyawVel, hdrift, hboost, hpulse, hheat, hoverheat,
    hcombo, hcomboT, hrunT, hpickT, hrivT, hdrifting, hmod, hmap, hriv, hpick⟩ := R
  refine ⟨hmode, ?_, hvel, hyaw, hyawVel, hdrift, hboost, hpulse, hheat, hoverheat,
    hcombo, hcomboT, hrunT, hpickT, hrivT, hdrifting, hmod, hmap, hriv, hpick⟩
  show Vec3.addScaled sa.pos sa.vel (dt : α) = castVec (Vec3.addScaled s.pos s.vel dt)
  rw [hpos, hvel, castVec_addScaled]

theorem integrate_rel {F : MathOps α} {i : Intent ℚ} {dt : ℚ} {fwd : Vec3 ℚ}
    {s : GState ℚ} {sa : GState α} (hsteer : i.steer = 0) (R : Rel s sa) :
    Rel (integrate qOps i dt fwd s)
      (integrate F (castIntent i) (dt : α) (castVec fwd) sa) := by
  obtain ⟨hmode, hpos, hvel, hyaw, hyawVel, hdrift, hboost, hpulse, hheat, hoverheat,
    hcombo, hcomboT, hrunT, hpickT, hrivT, hdrifting, hmod, hmap, hriv, hpick⟩ := R
  unfold integrate
  have hrgt : (⟨(castVec (α := α) fwd).z, 0, -(castVec fwd).x⟩ : Vec3 α)
      = castVec ⟨fwd.z, 0, -fwd.x⟩ := by
    simp [castVec]
  refine rel_setPos (pulseKick_rel (boostBurn_rel (driftBlock_rel ?_)))
  refine ⟨hmode, hpos, ?_, ?_, ?_, hdrift, hboost, hpulse, hheat, hoverheat,
    hcombo, hcomboT, ?_, hpickT, hrivT, hdrifting, hmod, hmap, hriv, hpick⟩
  · show dragVel (castIntent i) (dt : α)
        (lateralVel (dt : α) (castVec fwd) ⟨(castVec (α := α) fwd).z, 0, -(castVec fwd).x⟩
          (accelVel (castIntent i) (dt : α) (castVec fwd) sa.vel))
      = castVec (dragVel i dt
        (lateralVel dt fwd ⟨fwd.z, 0, -fwd.x⟩ (accelVel i dt fwd s.vel)))
    rw [hvel, hrgt, accelVel_cast, lateralVel_cast, dragVel_cast]
  · show sa.yaw +
        lerp sa.yawVel ((castIntent i).steer *
          steerRateOf (castIntent i) sa.overheat sa.mod.grip sa.speed) ((dt : α) * 8) * (dt : α)
      = ((s.yaw + lerp s.yawVel (i.steer * steerRateOf i s.overheat s.mod.grip s.speed)
          (dt * 8) * dt : ℚ) : α)
    simp only [castIntent, hsteer, Rat.cast_zero, zero_mul]
    rw [hyaw, hyawVel]
    push_cast [cast_lerp]
    ring_nf
  · show lerp sa.yawVel ((castIntent i).steer *
        steerRateOf (castIntent i) sa.overheat sa.mod.grip sa.speed) ((dt : α) * 8)
      = ((lerp s.yawVel (i.steer * steerRateOf i s.overheat s.mod.grip s.speed)
          (dt * 8) : ℚ) : α)
    simp only [castIntent, hsteer, Rat.cast_zero, zero_mul]
    rw [hyawVel]
    push_cast [cast_lerp]
    ring_nf
  · show sa.runTime + (dt : α) = ((s.runTime + dt : ℚ) : α)
    rw [hrunT]
    push_cast
    ring_nf

theorem normalize_cast {F : MathOps α} (hF : ∀ x : α, 0 ≤ x → F.sqrt (x * x) = x)
    {a : Vec3 ℚ} (hok : sqrtOK (Vec3.lengthSq a) = true) :
    Vec3.normalize F (castVec a) = castVec (Vec3.normalize qOps a) := by
  simp only [Vec3.normalize, Vec3.length, qOps]
  rw [← castVec_lengthSq, sqrt_cast_of_ok hF hok]
  simp only [Rat.cast_eq_zero]
  by_cases hz : ratSqrt (Vec3.lengthSq a) = 0
  · simp only [if_pos hz]
  · simp only [if_neg hz]
    rw [castVec_smul]
    congr 1
    push_cast
    ring_nf

theorem length_cast {F : MathOps α} (hF : ∀ x : α, 0 ≤ x → F.sqrt (x * x) = x)
    {v : Vec3 ℚ} (hok : sqrtOK (Vec3.lengthSq v) = true) :
    Vec3.length F (castVec v) = ((Vec3.length qOps v : ℚ) : α) := by
  simp only [Vec3.length, qOps]
  rw [← castVec_lengthSq, sqrt_cast_of_ok hF hok]

theorem clampToArena_cast {F : MathOps α}
    (hF : ∀ x : α, 0 ≤ x → F.sqrt (x * x) = x)
    (map : MapDef ℚ) {pos : Vec3 ℚ} (vel : Vec3 ℚ) (heat : ℚ) (sh : Bool)
    (hok : sqrtOK (Vec3.lengthSq pos) = true) :
    clampToArena F (castMap map) (castVec pos) (castVec vel) (heat : α) sh
      = (castVec (clampToArena qOps map pos vel heat sh).1,
         castVec (clampToArena qOps map pos vel heat sh).2.1,
         ((clampToArena qOps map pos vel heat sh).2.2.1 : α),
         (clampToArena qOps map pos vel heat sh).2.2.2) := by
  unfold clampToArena
  simp only [Vec3.length, castMap, qOps]
  rw [← castVec_lengthSq, sqrt_cast_of_ok hF hok]
  simp only [gt_iff_lt, Rat.cast_lt]
  by_cases hgt : map.size < ratSqrt (Vec3.lengthSq pos)
  · simp only [if_pos hgt, Prod.mk.injEq]
    refine ⟨?_, ?_, ?_, trivial⟩
    · rw [normalize_cast hF hok, castVec_smul]
      congr 1
      push_cast
      ring_nf
    · rw [normalize_cast hF hok, castVec_smul, castVec_reflect]
      congr 1
      push_cast
      ring_nf
    · push_cast
      ring_nf
  · simp only [if_neg hgt]

theorem playerClamp_rel {F : MathOps α}
    (hF : ∀ x : α, 0 ≤ x → F.sqrt (x * x) = x) {s : GState ℚ} {sa : GState α}
    (hok : sqrtOK (Vec3.lengthSq s.pos) = true) (R : Rel s sa) :
    Rel (playerClamp qOps s) (playerClamp F sa) := by
  obtain ⟨hmode, hpos, hvel, hyaw, hyawVel, hdrift, hboost, hpulse, hheat, hoverheat,
    hcombo, hcomboT, hrunT, hpickT, hrivT, hdrifting, hmod, hmap, hriv, hpick⟩ := R
  unfold playerClamp
  rw [hpos, hvel, hheat, hmap, hmod]
  have hsh : (castMods (α := α) s.mod).shield = s.mod.shield := rfl
  rw [hsh, clampToArena_cast hF s.map s.vel s.heat s.mod.shield hok]
  refine ⟨hmode, rfl, rfl, hyaw, hyawVel, hdrift, hboost, hpulse, rfl, hoverheat,
    hcombo, hcomboT, hrunT, hpickT, hrivT, hdrifting, ?_, rfl, hriv, hpick⟩
  show { castMods (α := α) s.mod with
           shield := (clampToArena qOps s.map s.pos s.vel s.heat s.mod.shield).2.2.2 }
      = castMods { s.mod with
           shield := (clampToArena qOps s.map s.pos s.vel s.heat s.mod.shield).2.2.2 }
  simp [castMods]

theorem hazardFold_cast (dt resist : ℚ) (pos : Vec3 ℚ) (L : List (Zone ℚ))
    (h : ℚ) (v : Vec3 ℚ) (ha : α) (va : Vec3 α)
    (hha : ha = (h : α)) (hva : va = castVec v) :
    (L.map castZone).foldl
      (fun (hv : α × Vec3 α) z =>
        if ((castVec (α := α) pos).x - z.x) ^ 2 + ((castVec pos).z - z.z) ^ 2
            < z.r * z.r then
          (hv.1 + 55 * (dt : α) * (resist : α), Vec3.smul hv.2 (1 - (6 / 10) * (dt : α)))
        else hv) (ha, va)
      = (((L.foldl
            (fun (hv : ℚ × Vec3 ℚ) z =>
              if (pos.x - z.x) ^ 2 + (pos.z - z.z) ^ 2 < z.r * z.r then
                (hv.1 + 55 * dt * resist, Vec3.smul hv.2 (1 - (6 / 10) * dt))
              else hv) (h, v)).1 : α),
         castVec (L.foldl
            (fun (hv : ℚ × Vec3 ℚ) z =>
              if (pos.x - z.x) ^ 2 + (pos.z - z.z) ^ 2 < z.r * z.r then
                (hv.1 + 55 * dt * resist, Vec3.smul hv.2 (1 - (6 / 10) * dt))
              else hv) (h, v)).2) := by
  induction L generalizing h v ha va with
  | nil =>
    subst hha hva
    rfl
  | cons z L ih =>
    simp only [List.map_cons, List.foldl_cons, castZone, castVec]
    have hcond : (((pos.x : α) - (z.x : α)) ^ 2 + ((pos.z : α) - (z.z : α)) ^ 2
        < (z.r : α) * (z.r : α)) ↔
        ((pos.x - z.x) ^ 2 + (pos.z - z.z) ^ 2 < z.r * z.r) := by
      constructor
      · intro hh
        exact_mod_cast hh
      · intro hh
        exact_mod_cast hh
    by_cases hc : (pos.x - z.x) ^ 2 + (pos.z - z.z) ^ 2 < z.r * z.r
    · rw [if_pos (hcond.mpr hc), if_pos hc]
      refine ih _ _ _ _ ?_ ?_
      · show ha + 55 * (dt : α) * (resist : α) = ((h + 55 * dt * resist : ℚ) : α)
        rw [hha]
        push_cast
        ring_nf
      · show Vec3.smul va (1 - (6 / 10) * (dt : α))
            = castVec (Vec3.smul v (1 - (6 / 10) * dt))
        rw [hva, castVec_smul]
        congr 1
        push_cast
        ring_nf
    · rw [if_neg (fun hh => hc (hcond.mp hh)), if_neg hc]
      exact ih _ _ _ _ hha hva

theorem applyHazards_rel {dt : ℚ} {s : GState ℚ} {sa : GState α} (R : Rel s sa) :
    Rel (applyHazards dt s) (applyHazards (dt : α) sa) := by
  obtain ⟨hmode, hpos, hvel, hyaw, hyawVel, hdrift, hboost, hpulse, hheat, hoverheat,
    hcombo, hcomboT, hrunT, hpickT, hrivT, hdrifting, hmod, hmap, hriv, hpick⟩ := R
  unfold applyHazards
  rw [hpos, hvel, hheat, hmap, hmod]
  have hres : (castMods (α := α) s.mod).hazardResist = (s.mod.hazardResist : α) := rfl
  have hhz : (castMap (α := α) s.map).hazards = s.map.hazards.map castZone := rfl
  rw [hres, hhz,
    hazardFold_cast dt s.mod.hazardResist s.pos s.map.hazards s.heat s.vel
      ((s.heat : ℚ) : α) (castVec s.vel) rfl rfl]
  exact ⟨hmode, rfl, rfl, hyaw, hyawVel, hdrift, hboost, hpulse, rfl, hoverheat,
    hcombo, hcomboT, hrunT, hpickT, hrivT, hdrifting, rfl, rfl, hriv, hpick⟩

theorem padFold_cast (dt : ℚ) (pos fwd : Vec3 ℚ) (L : List (Zone ℚ))
    (b : ℚ) (v : Vec3 ℚ) (ba : α) (va : Vec3 α)
    (hba : ba = (b : α)) (hva : va = castVec v) :
    (L.map castZone).foldl
      (fun (bv : α × Vec3 α) z =>
        if ((castVec (α := α) pos).x - z.x) ^ 2 + ((castVec pos).z - z.z) ^ 2
            < z.r * z.r then
          (clamp (bv.1 + 16 * (dt : α)) 0 140,
           Vec3.addScaled bv.2 (castVec fwd) (620 * (35 / 100) * (dt : α)))
        else bv) (ba, va)
      = (((L.foldl
            (fun (bv : ℚ × Vec3 ℚ) z =>
              if (pos.x - z.x) ^ 2 + (pos.z - z.z) ^ 2 < z.r * z.r then
                (clamp (bv.1 + 16 * dt) 0 140,
                 Vec3.addScaled bv.2 fwd (620 * (35 / 100) * dt))
              else bv) (b, v)).1 : α),
         castVec (L.foldl
            (fun (bv : ℚ × Vec3 ℚ) z =>
              if (pos.x - z.x) ^ 2 + (pos.z - z.z) ^ 2 < z.r * z.r then
                (clamp (bv.1 + 16 * dt) 0 140,
                 Vec3.addScaled bv.2 fwd (620 * (35 / 100) * dt))
              else bv) (b, v)).2) := by
  induction L generalizing b v ba va with
  | nil =>
    subst hba hva
    rfl
  | cons z L ih =>
    simp only [List.map_cons, List.foldl_cons, castZone, castVec]
    have hcond : (((pos.x : α) - (z.x : α)) ^ 2 + ((pos.z : α) - (z.z : α)) ^ 2
        < (z.r : α) * (z.r : α)) ↔
        ((pos.x - z.x) ^ 2 + (pos.z - z.z) ^ 2 < z.r * z.r) := by
      constructor
      · intro hh
        exact_mod_cast hh
      · intro hh
        exact_mod_cast hh
    by_cases hc : (pos.x - z.x) ^ 2 + (pos.z - z.z) ^ 2 < z.r * z.r
    · rw [if_pos (hcond.mpr hc), if_pos hc]
      refine ih _ _ _ _ ?_ ?_
      · show clamp (ba + 16 * (dt : α)) 0 140 = ((clamp (b + 16 * dt) 0 140 : ℚ) : α)
        rw [hba, cast_clamp]
        push_cast
        ring_nf
      · show Vec3.addScaled va ⟨(fwd.x : α), (fwd.y : α), (fwd.z : α)⟩
              (620 * (35 / 100) * (dt : α))
            = castVec (Vec3.addScaled v fwd (620 * (35 / 100) * dt))
        rw [hva, castVec_addScaled]
        show Vec3.addScaled (castVec v) (castVec fwd) _ = _
        congr 1
        push_cast
        ring_nf
    · rw [if_neg (fun hh => hc (hcond.mp hh)), if_neg hc]
      exact ih _ _ _ _ hba hva

theorem applyBoostPads_rel {dt : ℚ} {fwd : Vec3 ℚ} {s : GState ℚ} {sa : GState α}
    (R : Rel s sa) :
    Rel (applyBoostPads dt fwd s) (applyBoostPads (dt : α) (castVec fwd) sa) := by
  obtain ⟨hmode, hpos, hvel, hyaw, hyawVel, hdrift, hboost, hpulse, hheat, hoverheat,
    hcombo, hcomboT, hrunT, hpickT, hrivT, hdrifting, hmod, hmap, hriv, hpick⟩ := R
  unfold applyBoostPads
  rw [hpos, hvel, hboost, hmap]
  have hbz : (castMap (α := α) s.map).boosts = s.map.boosts.map castZone := rfl
  rw [hbz,
    padFold_cast dt s.pos fwd s.map.boosts s.boost s.vel
      ((s.boost : ℚ) : α) (castVec s.vel) rfl rfl]
  exact ⟨hmode, rfl, rfl, hyaw, hyawVel, hdrift, rfl, hpulse, hheat, hoverheat,
    hcombo, hcomboT, hrunT, hpickT, hrivT, hdrifting, hmod, rfl, hriv, hpick⟩

theorem applyHeat_rel {dt : ℚ} {s : GState ℚ} {sa : GState α} (R : Rel s sa) :
    Rel (applyHeat dt s) (applyHeat (dt : α) sa) := by
  obtain ⟨hmode, hpos, hvel, hyaw, hyawVel, hdrift, hboost, hpulse, hheat, hoverheat,
    hcombo, hcomboT, hrunT, hpickT, hrivT, hdrifting, hmod, hmap, hriv, hpick⟩ := R
  unfold applyHeat
  dsimp only
  rw [hheat, hoverheat, hmod, hmode]
  simp only [castMods, gt_iff_lt, ge_iff_le]
  have hov : (if (0 : α) < (s.overheat : ℚ) then max 0 ((s.overheat : α) - (dt : α))
        else ((s.overheat : ℚ) : α))
      = ((if 0 < s.overheat then max 0 (s.overheat - dt) else s.overheat : ℚ) : α) := by
    by_cases hc : 0 < s.overheat
    · rw [if_pos (by exact_mod_cast hc), if_pos hc]
      push_cast [Rat.cast_max]
      ring_nf
    · rw [if_neg (by exact_mod_cast hc), if_neg hc]
  have hht : clamp ((s.heat : α) - 16 * (dt : α) * (s.mod.coolRate : α)) 0 100
      = ((clamp (s.heat - 16 * dt * s.mod.coolRate) 0 100 : ℚ) : α) := by
    rw [cast_clamp]
    push_cast
    ring_nf
  rw [hov, hht]
  by_cases hc : (100 : ℚ) ≤ clamp (s.heat - 16 * dt * s.mod.coolRate) 0 100 ∧
      (if 0 < s.overheat then max 0 (s.overheat - dt) else s.overheat) ≤ 0
  · have hca : (100 : α) ≤ ((clamp (s.heat - 16 * dt * s.mod.coolRate) 0 100 : ℚ) : α) ∧
        ((if 0 < s.overheat then max 0 (s.overheat - dt) else s.overheat : ℚ) : α) ≤ 0 :=
      ⟨by exact_mod_cast hc.1, by exact_mod_cast hc.2⟩
    rw [if_pos hc, if_pos hca]
    refine ⟨rfl, hpos, hvel, hyaw, hyawVel, hdrift, hboost, hpulse, rfl, ?_,
      hcombo, hcomboT, hrunT, hpickT, hrivT, hdrifting, rfl, hmap, hriv, hpick⟩
    show ((28 : α) / 10) = (((28 : ℚ) / 10 : ℚ) : α)
    push_cast
    ring_nf
  · have hcn : ¬ ((100 : α) ≤ ((clamp (s.heat - 16 * dt * s.mod.coolRate) 0 100 : ℚ) : α) ∧
        ((if 0 < s.overheat then max 0 (s.overheat - dt) else s.overheat : ℚ) : α) ≤ 0) := by
      intro hh
      exact hc ⟨by exact_mod_cast hh.1, by exact_mod_cast hh.2⟩
    rw [if_neg hc, if_neg hcn]
    exact ⟨rfl, hpos, hvel, hyaw, hyawVel, hdrift, hboost, hpulse, rfl, rfl,
      hcombo, hcomboT, hrunT, hpickT, hrivT, hdrifting, rfl, hmap, hriv, hpick⟩

theorem comboScore_rel {i : Intent ℚ} {dt : ℚ} {s : GState ℚ} {sa : GState α}
    (R : Rel s sa) :
    Rel (comboScore i dt s) (comboScore (castIntent i) (dt : α) sa) := by
  obtain ⟨hmode, hpos, hvel, hyaw, hyawVel, hdrift, hboost, hpulse, hheat, hoverheat,
    hcombo, hcomboT, hrunT, hpickT, hrivT, hdrifting, hmod, hmap, hriv, hpick⟩ := R
  unfold comboScore
  dsimp only
  rw [hcomboT, hcombo]
  have hct : max 0 ((s.comboTimer : α) - (dt : α))
      = ((max 0 (s.comboTimer - dt) : ℚ) : α) := by
    push_cast [Rat.cast_max]
    ring_nf
  rw [hct]
  by_cases hc : max 0 (s.comboTimer - dt) ≤ 0
  · rw [if_pos (show ((max 0 (s.comboTimer - dt) : ℚ) : α) ≤ 0 by exact_mod_cast hc),
      if_pos hc]
    refine ⟨hmode, hpos, hvel, hyaw, hyawVel, hdrift, hboost, hpulse, hheat, hoverheat,
      ?_, rfl, hrunT, hpickT, hrivT, hdrifting, hmod, hmap, hriv, hpick⟩
    show max 1 ((s.combo : α) - 2 / 10 * (dt : α)) = ((max 1 (s.combo - 2 / 10 * dt) : ℚ) : α)
    push_cast [Rat.cast_max]
    ring_nf
  · rw [if_neg (show ¬ ((max 0 (s.comboTimer - dt) : ℚ) : α) ≤ 0 from
        fun hh => hc (by exact_mod_cast hh)),
      if_neg hc]
    exact ⟨hmode, hpos, hvel, hyaw, hyawVel, hdrift, hboost, hpulse, hheat, hoverheat,
      rfl, rfl, hrunT, hpickT, hrivT, hdrifting, hmod, hmap, hriv, hpick⟩

theorem addCombo_rel {v : ℚ} {s : GState ℚ} {sa : GState α} (R : Rel s sa) :
    Rel (addCombo v s) (addCombo (v : α) sa) := by
  obtain ⟨hmode, hpos, hvel, hyaw, hyawVel, hdrift, hboost, hpulse, hheat, hoverheat,
    hcombo, hcomboT, hrunT, hpickT, hrivT, hdrifting, hmod, hmap, hriv, hpick⟩ := R
  unfold addCombo
  refine ⟨hmode, hpos, hvel, hyaw, hyawVel, hdrift, hboost, hpulse, hheat, hoverheat,
    ?_, ?_, hrunT, hpickT, hrivT, hdrifting, hmod, hmap, hriv, hpick⟩
  · show clamp (sa.combo + (v : α)) 1 9 = ((clamp (s.combo + v) 1 9 : ℚ) : α)
    rw [hcombo, cast_clamp]
    push_cast
    ring_nf
  · show (3 : α) = ((3 : ℚ) : α)
    push_cast
    ring_nf

theorem bump_rel {s : GState ℚ} {sa : GState α} (R : Rel s sa) :
    Rel (bump s) (bump sa) := by
  obtain ⟨hmode, hpos, hvel, hyaw, hyawVel, hdrift, hboost, hpulse, hheat, hoverheat,
    hcombo, hcomboT, hrunT, hpickT, hrivT, hdrifting, hmod, hmap, hriv, hpick⟩ := R
  unfold bump
  have hv : -((5 : α) / 10) = ((-(5 / 10) : ℚ) : α) := by
    push_cast
    ring_nf
  rw [hv]
  refine addCombo_rel ⟨hmode, hpos, ?_, hyaw, hyawVel, hdrift, hboost, hpulse, ?_,
    hoverheat, hcombo, hcomboT, hrunT, hpickT, hrivT, hdrifting, hmod, hmap, hriv, hpick⟩
  · show Vec3.smul sa.vel (7 / 10) = castVec (Vec3.smul s.vel (7 / 10))
    rw [hvel, castVec_smul]
    congr 1
    push_cast
    ring_nf
  · show sa.heat + 8 = ((s.heat + 8 : ℚ) : α)
    rw [hheat]
    push_cast
    ring_nf

theorem pickupLoop_far {F : MathOps α} {dt : ℚ} {g : GState ℚ} {ga : GState α}
    (Rg : Rel g ga) {ps : List (Pickup ℚ)} {psa : List (Pickup α)}
    (hps : List.Forall₂ RelPickup ps psa)
    (hfar : ∀ p ∈ ps, (11 * g.mod.pickRange) * (11 * g.mod.pickRange) ≤
      (p.pos.x - g.pos.x) * (p.pos.x - g.pos.x) +
        (p.pos.z - g.pos.z) * (p.pos.z - g.pos.z)) :
    ∀ idx : Nat,
      (pickupLoop qOps dt idx g ps).1 = g ∧
      (pickupLoop F (dt : α) idx ga psa).1 = ga ∧
      List.Forall₂ RelPickup (pickupLoop qOps dt idx g ps).2
        (pickupLoop F (dt : α) idx ga psa).2 := by
  induction hps with
  | nil =>
    intro idx
    exact ⟨rfl, rfl, List.Forall₂.nil⟩
  | @cons p pa ps psa hp hps ih =>
    intro idx
    obtain ⟨ih1, ih2, ih3⟩ := ih (fun q hq => hfar q (List.mem_cons_of_mem _ hq)) (idx + 1)
    obtain ⟨hpx, hpz, hpt⟩ := hp
    obtain ⟨hmode, hpos, hvel, hyaw, hyawVel, hdrift, hboost, hpulse, hheat, hoverheat,
      hcombo, hcomboT, hrunT, hpickT, hrivT, hdrifting, hmod, hmap, hriv, hpick⟩ := Rg
    have hf := hfar p (List.mem_cons_self _ _)
    dsimp only [pickupLoop]
    rw [ih1, ih2]
    have hcq : ¬ (Vec3.lengthSq (Vec3.sub
          ⟨p.pos.x, 8 / 10 + qOps.sin (g.runTime * 4 + (idx : ℚ)) * (2 / 10), p.pos.z⟩
          g.pos) < 11 * g.mod.pickRange * (11 * g.mod.pickRange)) := by
      simp only [Vec3.lengthSq, Vec3.sub, not_lt]
      nlinarith [mul_self_nonneg
        (8 / 10 + qOps.sin (g.runTime * 4 + (idx : ℚ)) * (2 / 10) - g.pos.y)]
    have hca : ¬ (Vec3.lengthSq (Vec3.sub
          ⟨pa.pos.x, 8 / 10 + F.sin (ga.runTime * 4 + (idx : α)) * (2 / 10), pa.pos.z⟩
          ga.pos) < 11 * ga.mod.pickRange * (11 * ga.mod.pickRange)) := by
      simp only [Vec3.lengthSq, Vec3.sub, not_lt, hpx, hpz, hpos, hmod, castMods, castVec]
      have hc : ((11 * g.mod.pickRange) * (11 * g.mod.pickRange) : α) ≤
          (((p.pos.x - g.pos.x) * (p.pos.x - g.pos.x) +
            (p.pos.z - g.pos.z) * (p.pos.z - g.pos.z) : ℚ) : α) := by
        exact_mod_cast hf
      push_cast at hc
      nlinarith [mul_self_nonneg
        (8 / 10 + F.sin (ga.runTime * 4 + (idx : α)) * (2 / 10) - (g.pos.y : α))]
    rw [if_neg hcq, if_neg hca]
    refine ⟨rfl, rfl, List.Forall₂.cons ⟨?_, ?_, hpt⟩ ih3⟩
    · exact hpx
    · exact hpz

theorem updatePickups_rel {F : MathOps α} {dt : ℚ} {o : TickRands ℚ} {s : GState ℚ}
    {sa : GState α}
    (hpt : 0 < s.pickupTimer - dt)
    (hfar : ∀ p ∈ s.pickups, (11 * s.mod.pickRange) * (11 * s.mod.pickRange) ≤
      (p.pos.x - s.pos.x) * (p.pos.x - s.pos.x) +
        (p.pos.z - s.pos.z) * (p.pos.z - s.pos.z))
    (R : Rel s sa) :
    Rel (updatePickups qOps dt o s) (updatePickups F (dt : α) (castRands o) sa) := by
  obtain ⟨hmode, hpos, hvel, hyaw, hyawVel, hdrift, hboost, hpulse, hheat, hoverheat,
    hcombo, hcomboT, hrunT, hpickT, hrivT, hdrifting, hmod, hmap, hriv, hpick⟩ := R
  unfold updatePickups
  dsimp only
  rw [hpickT]
  have hnq : ¬ (s.pickupTimer - dt ≤ 0 ∧ s.pickups.length < 6) :=
    fun hh => absurd hh.1 (not_le.mpr hpt)
  have hna : ¬ ((s.pickupTimer : α) - (dt : α) ≤ 0 ∧ sa.pickups.length < 6) := by
    intro hh
    have : (s.pickupTimer : α) - (dt : α) = ((s.pickupTimer - dt : ℚ) : α) := by
      push_cast
      ring_nf
    rw [this] at hh
    exact absurd (by exact_mod_cast hh.1) (not_le.mpr hpt)
  rw [if_neg hnq, if_neg hna]
  have Rg : Rel { s with pickupTimer := s.pickupTimer - dt }
      { sa with pickupTimer := (s.pickupTimer : α) - (dt : α) } := by
    refine ⟨hmode, hpos, hvel, hyaw, hyawVel, hdrift, hboost, hpulse, hheat, hoverheat,
      hcombo, hcomboT, hrunT, ?_, hrivT, hdrifting, hmod, hmap, hriv, hpick⟩
    show (s.pickupTimer : α) - (dt : α) = ((s.pickupTimer - dt : ℚ) : α)
    push_cast
    ring_nf
  obtain ⟨hl1, hl2, hl3⟩ := @pickupLoop_far _ _ _ F dt _ _ Rg _ _ hpick hfar 0
  rw [hl1, hl2] at *
  obtain ⟨gmode, gpos, gvel, gyaw, gyawVel, gdrift, gboost, gpulse, gheat, goverheat,
    gcombo, gcomboT, grunT, gpickT, grivT, gdrifting, gmod, gmap, griv, gpick⟩ := Rg
  exact ⟨gmode, gpos, gvel, gyaw, gyawVel, gdrift, gboost, gpulse, gheat, goverheat,
    gcombo, gcomboT, grunT, gpickT, grivT, gdrifting, gmod, gmap, griv, hl3⟩

/-- The square-root certificates one `updateRivals` loop body needs: every
`Math.sqrt` argument that feeds back into the simulation state must be a
perfect rational square (the rival archetype must also be `racer`, so that no
`Math.sin` lane offset feeds the chase direction). -/
def rivalSafeQ (dt accelR : ℚ) (g : GState ℚ) (r : Rival ℚ) : Bool :=
  let toPlayer := Vec3.sub g.pos r.pos
  let dir := Vec3.normalize qOps toPlayer
  let side : Vec3 ℚ := ⟨dir.z, 0, -dir.x⟩
  let desired := Vec3.normalize qOps (Vec3.add dir (Vec3.smul side 0))
  let vel1 := Vec3.addScaled r.vel desired ((120 + accelR * 30) * dt)
  let vel2 := Vec3.smul vel1 (max 0 (1 - (12 / 100) * dt))
  let pos1 := Vec3.addScaled r.pos vel2 dt
  let cl := clampToArena qOps g.map pos1 vel2 g.heat g.mod.shield
  decide (r.rtype = RType.racer) &&
    sqrtOK (Vec3.lengthSq toPlayer) &&
    sqrtOK (Vec3.lengthSq (Vec3.add dir (Vec3.smul side 0))) &&
    sqrtOK (Vec3.lengthSq pos1) &&
    sqrtOK (Vec3.lengthSq (Vec3.sub g.pos cl.1))

theorem cast_lt_three (q : ℚ) : ((q : α) < 3) ↔ q < 3 := by
  constructor
  · intro hh
    exact_mod_cast hh
  · intro hh
    exact_mod_cast hh

theorem rivalUpd_rel {F : MathOps α}
    (hF : ∀ x : α, 0 ≤ x → F.sqrt (x * x) = x)
    {dt accelR : ℚ} {idx : Nat} {g : GState ℚ} {ga : GState α}
    {r : Rival ℚ} {ra : Rival α}
    (hsafe : rivalSafeQ dt accelR g r = true)
    (Rg : Rel g ga) (hr : RelRival r ra) :
    Rel (rivalUpd qOps dt accelR idx g r).1
        (rivalUpd F (dt : α) (accelR : α) idx ga ra).1 ∧
      RelRival (rivalUpd qOps dt accelR idx g r).2
        (rivalUpd F (dt : α) (accelR : α) idx ga ra).2 := by
  obtain ⟨hrpos, hrvel, hrrt⟩ := hr
  obtain ⟨gmode, gpos, gvel, gyaw, gyawVel, gdrift, gboost, gpulse, gheat, goverheat,
    gcombo, gcomboT, grunT, gpickT, grivT, gdrifting, gmod, gmap, griv, gpick⟩ := Rg
  unfold rivalSafeQ at hsafe
  dsimp only at hsafe
  simp only [Bool.and_eq_true, decide_eq_true_eq] at hsafe
  obtain ⟨⟨⟨⟨hrt, h1⟩, h2⟩, h3⟩, h4⟩ := hsafe
  unfold rivalUpd
  dsimp only
  rw [hrrt, hrt]
  dsimp only
  rw [hrpos, gpos, ← castVec_sub, normalize_cast hF h1]
  have eside : (⟨(castVec (α := α) (Vec3.normalize qOps (Vec3.sub g.pos r.pos))).z, 0,
        -(castVec (Vec3.normalize qOps (Vec3.sub g.pos r.pos))).x⟩ : Vec3 α)
      = castVec ⟨(Vec3.normalize qOps (Vec3.sub g.pos r.pos)).z, 0,
        -(Vec3.normalize qOps (Vec3.sub g.pos r.pos)).x⟩ := by
    simp [castVec]
  rw [eside]
  have esm : Vec3.smul (castVec (α := α)
        ⟨(Vec3.normalize qOps (Vec3.sub g.pos r.pos)).z, 0,
         -(Vec3.normalize qOps (Vec3.sub g.pos r.pos)).x⟩) (0 : α)
      = castVec (Vec3.smul
        ⟨(Vec3.normalize qOps (Vec3.sub g.pos r.pos)).z, 0,
         -(Vec3.normalize qOps (Vec3.sub g.pos r.pos)).x⟩ (0 : ℚ)) := by
    rw [castVec_smul]
    norm_num
  rw [esm, ← castVec_add, normalize_cast hF h2, hrvel]
  have esc : (120 + (accelR : α) * 30) * (dt : α) = (((120 + accelR * 30) * dt : ℚ) : α) := by
    push_cast
    ring_nf
  rw [esc, ← castVec_addScaled]
  have esc2 : max 0 (1 - 12 / 100 * (dt : α)) = ((max 0 (1 - 12 / 100 * dt) : ℚ) : α) := by
    push_cast [Rat.cast_max]
    ring_nf
  rw [esc2, ← castVec_smul, ← castVec_addScaled, gmap, gheat, gmod]
  have esh : (castMods (α := α) g.mod).shield = g.mod.shield := rfl
  rw [esh, clampToArena_cast hF g.map _ g.heat g.mod.shield h3]
  dsimp only
  rw [← castVec_sub, length_cast hF h4]
  rw [if_congr (cast_lt_three _) rfl rfl]
  split_ifs with hdz hsh
  · refine ⟨⟨gmode, rfl, gvel, gyaw, gyawVel, gdrift, gboost, gpulse, rfl, goverheat,
      gcombo, gcomboT, grunT, gpickT, grivT, gdrifting, ?_, rfl, griv, gpick⟩,
      rfl, ?_, rfl⟩
    · simp [castMods]
    · show Vec3.smul (castVec _) ((6 : α) / 10) = castVec (Vec3.smul _ (6 / 10))
      rw [castVec_smul]
      congr 1
      norm_num
  · refine ⟨bump_rel ⟨gmode, rfl, gvel, gyaw, gyawVel, gdrift, gboost, gpulse, rfl,
      goverheat, gcombo, gcomboT, grunT, gpickT, grivT, gdrifting, ?_, rfl, griv, gpick⟩,
      rfl, ?_, rfl⟩
    · simp [castMods]
    · show Vec3.smul (castVec _) ((6 : α) / 10) = castVec (Vec3.smul _ (6 / 10))
      rw [castVec_smul]
      congr 1
      norm_num
  · refine ⟨⟨gmode, rfl, gvel, gyaw, gyawVel, gdrift, gboost, gpulse, rfl, goverheat,
      gcombo, gcomboT, grunT, gpickT, grivT, gdrifting, ?_, rfl, griv, gpick⟩,
      rfl, rfl, rfl⟩
    simp [castMods]

/-- `rivalSafeQ` for every rival of the `updateRivals` loop, each checked
against the player state the loop has threaded up to it (the loop processes
the list tail first). -/
def rivalLoopSafe (dt : ℚ) (o : TickRands ℚ) :
    Nat → GState ℚ → List (Rival ℚ) → Bool
  | _, _, [] => true
  | idx, g, r :: rest =>
    rivalLoopSafe dt o (idx + 1) g rest &&
      rivalSafeQ dt (o.rivalAccel idx) (rivalLoop qOps dt o (idx + 1) g rest).1 r

theorem rivalLoop_rel {F : MathOps α}
    (hF : ∀ x : α, 0 ≤ x → F.sqrt (x * x) = x) {dt : ℚ} {o : TickRands ℚ}
    {rs : List (Rival ℚ)} {rsa : List (Rival α)}
    (hrs : List.Forall₂ RelRival rs rsa) :
    ∀ {g : GState ℚ} {ga : GState α}, Rel g ga → ∀ idx : Nat,
      rivalLoopSafe dt o idx g rs = true →
      Rel (rivalLoop qOps dt o idx g rs).1
          (rivalLoop F (dt : α) (castRands o) idx ga rsa).1 ∧
        List.Forall₂ RelRival (rivalLoop qOps dt o idx g rs).2
          (rivalLoop F (dt : α) (castRands o) idx ga rsa).2 := by
  induction hrs with
  | nil =>
    intro g ga Rg idx hsafe
    exact ⟨Rg, List.Forall₂.nil⟩
  | @cons r ra rs rsa hr hrs ih =>
    intro g ga Rg idx hsafe
    unfold rivalLoopSafe at hsafe
    simp only [Bool.and_eq_true] at hsafe
    obtain ⟨hsTail, hsHead⟩ := hsafe
    obtain ⟨ihRel, ihRiv⟩ := ih Rg (idx + 1) hsTail
    obtain ⟨sRel, sRiv⟩ := rivalUpd_rel hF hsHead ihRel hr
    exact ⟨sRel, List.Forall₂.cons sRiv ihRiv⟩

theorem updateRivals_rel {F : MathOps α}
    (hF : ∀ x : α, 0 ≤ x → F.sqrt (x * x) = x) {dt : ℚ} {o : TickRands ℚ}
    {s : GState ℚ} {sa : GState α}
    (hrt : 0 < s.rivalTimer - dt)
    (hsafe : rivalLoopSafe dt o 0 { s with rivalTimer := s.rivalTimer - dt }
      s.rivals = true)
    (R : Rel s sa) :
    Rel (updateRivals qOps dt o s) (updateRivals F (dt : α) (castRands o) sa) := by
  obtain ⟨hmode, hpos, hvel, hyaw, hyawVel, hdrift, hboost, hpulse, hheat, hoverheat,
    hcombo, hcomboT, hrunT, hpickT, hrivT, hdrifting, hmod, hmap, hriv, hpick⟩ := R
  unfold updateRivals
  dsimp only
  rw [hrivT]
  have hnq : ¬ (s.rivalTimer - dt ≤ 0 ∧ s.rivals.length < 6) :=
    fun hh => absurd hh.1 (not_le.mpr hrt)
  have hna : ¬ ((s.rivalTimer : α) - (dt : α) ≤ 0 ∧ sa.rivals.length < 6) := by
    intro hh
    have he : (s.rivalTimer : α) - (dt : α) = ((s.rivalTimer - dt : ℚ) : α) := by
      push_cast
      ring_nf
    rw [he] at hh
    exact absurd (by exact_mod_cast hh.1) (not_le.mpr hrt)
  rw [if_neg hnq, if_neg hna]
  have Rg : Rel { s with rivalTimer := s.rivalTimer - dt }
      { sa with rivalTimer := (s.rivalTimer : α) - (dt : α) } := by
    refine ⟨hmode, hpos, hvel, hyaw, hyawVel, hdrift, hboost, hpulse, hheat, hoverheat,
      hcombo, hcomboT, hrunT, hpickT, ?_, hdrifting, hmod, hmap, hriv, hpick⟩
    show (s.rivalTimer : α) - (dt : α) = ((s.rivalTimer - dt : ℚ) : α)
    push_cast
    ring_nf
  obtain ⟨hl1, hl2⟩ := rivalLoop_rel hF hriv Rg 0 hsafe
  obtain ⟨gmode, gpos, gvel, gyaw, gyawVel, gdrift, gboost, gpulse, gheat, goverheat,
    gcombo, gcomboT, grunT, gpickT, grivT, gdrifting, gmod, gmap, griv, gpick⟩ := hl1
  exact ⟨gmode, gpos, gvel, gyaw, gyawVel, gdrift, gboost, gpulse, gheat, goverheat,
    gcombo, gcomboT, grunT, gpickT, grivT, gdrifting, gmod, gmap, hl2, gpick⟩

/-- The per-tick side conditions under which one arena `update` transports
from the rational evaluation to every interpretation of the `Math`
operations: no steering and zero heading (so the trigonometric forward vector
is pinned), a perfect-square argument at every live `Math.sqrt` site, spawn
timers that do not fire (their positions would consume `Math.random` angles),
and every pickup horizontally outside its pull range (its bob height is a
live `Math.sin`). -/
def tickSafe (i : Intent ℚ) (dt : ℚ) (o : TickRands ℚ) (s : GState ℚ) : Bool :=
  decide (i.steer = 0) && decide (s.yaw = 0) &&
  (let fwd : Vec3 ℚ := ⟨qOps.sin s.yaw, 0, qOps.cos s.yaw⟩
   let s1 := integrate qOps i dt fwd s
   sqrtOK (Vec3.lengthSq s1.pos) &&
   (let s2 := playerClamp qOps s1
    let s3 := applyHazards dt s2
    let s4 := applyBoostPads dt fwd s3
    let s5 := applyHeat dt s4
    let s6 := comboScore i dt s5
    decide (0 < s6.pickupTimer - dt) &&
    decide (∀ p ∈ s6.pickups,
      (11 * s6.mod.pickRange) * (11 * s6.mod.pickRange) ≤
        (p.pos.x - s6.pos.x) * (p.pos.x - s6.pos.x) +
          (p.pos.z - s6.pos.z) * (p.pos.z - s6.pos.z)) &&
    (let s7 := updatePickups qOps dt o s6
     decide (0 < s7.rivalTimer - dt) &&
     rivalLoopSafe dt o 0 { s7 with rivalTimer := s7.rivalTimer - dt } s7.rivals)))

theorem update_rel {F : MathOps α}
    (hF : ∀ x : α, 0 ≤ x → F.sqrt (x * x) = x)
    (hsin0 : F.sin 0 = 0) (hcos0 : F.cos 0 = 1)
    {i : Intent ℚ} {dt : ℚ} {o : TickRands ℚ} {s : GState ℚ} {sa : GState α}
    (hsafe : tickSafe i dt o s = true) (R : Rel s sa) :
    Rel (update qOps i dt o s) (update F (castIntent i) (dt : α) (castRands o) sa) := by
  unfold tickSafe at hsafe
  simp only [Bool.and_eq_true, decide_eq_true_eq] at hsafe
  obtain ⟨⟨hsteer, hyaw0⟩, hok, ⟨hpt, hfar⟩, hrt, hloop⟩ := hsafe
  unfold update
  dsimp only
  have efwd : (⟨F.sin sa.yaw, 0, F.cos sa.yaw⟩ : Vec3 α)
      = castVec ⟨qOps.sin s.yaw, 0, qOps.cos s.yaw⟩ := by
    rw [R.yaw, hyaw0]
    norm_num [castVec, qOps, hsin0, hcos0]
  rw [efwd]
  exact updateRivals_rel hF hrt hloop
    (updatePickups_rel hpt hfar
      (comboScore_rel (applyHeat_rel (applyBoostPads_rel (applyHazards_rel
        (playerClamp_rel hF hok (integrate_rel hsteer R)))))))

/-- `tickSafe` along a whole tick list. -/
def allSafe : GState ℚ → List (Intent ℚ × ℚ × TickRands ℚ) → Bool
  | _, [] => true
  | s, (i, dt, o) :: rest => tickSafe i dt o s && allSafe (update qOps i dt o s) rest

theorem run_rel {F : MathOps α}
    (hF : ∀ x : α, 0 ≤ x → F.sqrt (x * x) = x)
    (hsin0 : F.sin 0 = 0) (hcos0 : F.cos 0 = 1) :
    ∀ (L : List (Intent ℚ × ℚ × TickRands ℚ)) {s : GState ℚ} {sa : GState α},
      allSafe s L = true → Rel s sa →
      Rel (run qOps s L) (run F sa (castTicks L)) := by
  intro L
  induction L with
  | nil =>
    intro s sa _ R
    exact R
  | cons t rest ih =>
    intro s sa hsafe R
    obtain ⟨i, dt, o⟩ := t
    unfold allSafe at hsafe
    simp only [Bool.and_eq_true] at hsafe
    exact ih hsafe.2 (update_rel hF hsin0 hcos0 hsafe.1 R)

theorem run_append (F : MathOps α) (s : GState α)
    (L1 L2 : List (Intent α × α × TickRands α)) :
    run F s (L1 ++ L2) = run F (run F s L1) L2 := by
  induction L1 generalizing s with
  | nil => rfl
  | cons t rest ih =>
    obtain ⟨i, dt, o⟩ := t
    exact ih (update F i dt o s)

theorem allSafe_append (s : GState ℚ) (L1 L2 : List (Intent ℚ × ℚ × TickRands ℚ)) :
    allSafe s (L1 ++ L2) = (allSafe s L1 && allSafe (run qOps s L1) L2) := by
  induction L1 generalizing s with
  | nil => simp [allSafe, run]
  | cons t rest ih =>
    obtain ⟨i, dt, o⟩ := t
    show (tickSafe i dt o s && allSafe (update qOps i dt o s) (rest ++ L2)) = _
    rw [ih (update qOps i dt o s), ← Bool.and_assoc]
    rfl

theorem heat_start_rel {F : MathOps α}
    (hsin0 : F.sin 0 = 0) (hcos0 : F.cos 0 = 1)
    (hsinh : F.sin (F.pi / 2) = 1) (hcosh : F.cos (F.pi / 2) = 0) :
    Rel (startState qOps ((MAPS (α := ℚ)).getD 1 ⟨0, [], []⟩) heatStartRands)
        (startState F ((MAPS (α := α)).getD 1 ⟨0, [], []⟩) heatStartRands) := by
  have ea : (1 / 4 : α) * F.pi * 2 = F.pi / 2 := by ring
  have e0 : (0 : α) * F.pi * 2 = 0 := by ring
  unfold startState
  refine ⟨rfl, castVec_zero.symm, castVec_zero.symm, by norm_num, by norm_num,
    by norm_num, by norm_num, by norm_num, by norm_num, by norm_num, by norm_num,
    by norm_num, by norm_num, by norm_num, by norm_num, rfl, ?_, ?_, ?_, ?_⟩
  · norm_num [defaultMods, castMods]
  · norm_num [MAPS, castMap, castZone]
  · refine List.Forall₂.cons ⟨?_, castVec_zero.symm, ?_⟩
      (List.Forall₂.cons ⟨?_, castVec_zero.symm, ?_⟩ List.Forall₂.nil)
    · show (⟨F.cos ((1 / 4 : α) * F.pi * 2) * _, 0, F.sin ((1 / 4 : α) * F.pi * 2) * _⟩ :
          Vec3 α) = castVec ⟨qOps.cos ((1 / 4 : ℚ) * qOps.pi * 2) * _, 0,
            qOps.sin ((1 / 4 : ℚ) * qOps.pi * 2) * _⟩
      rw [ea, hsinh, hcosh]
      norm_num [castVec, qOps, MAPS, heatStartRands]
    · norm_num [spawnRival, pickList, heatStartRands, List.getD]
    · show (⟨F.cos ((0 : α) * F.pi * 2) * _, 0, F.sin ((0 : α) * F.pi * 2) * _⟩ :
          Vec3 α) = castVec ⟨qOps.cos ((0 : ℚ) * qOps.pi * 2) * _, 0,
            qOps.sin ((0 : ℚ) * qOps.pi * 2) * _⟩
      rw [e0, hsin0, hcos0]
      norm_num [castVec, qOps, MAPS, heatStartRands]
    · norm_num [spawnRival, pickList, heatStartRands, List.getD]
  · refine List.Forall₂.cons ⟨?_, ?_, ?_⟩ List.Forall₂.nil
    · show (pickupTries F _ [((0 : α), 1 / 2)] Vec3.zero).x = _
      simp only [pickupTries, ite_self]
      show F.cos ((0 : α) * F.pi * 2) * _ = _
      rw [e0, hcos0]
      norm_num [spawnPickup, pickupTries, ite_self, qOps, MAPS, heatStartRands]
    · show (pickupTries F _ [((0 : α), 1 / 2)] Vec3.zero).z = _
      simp only [pickupTries, ite_self]
      show F.sin ((0 : α) * F.pi * 2) * _ = _
      rw [e0, hsin0]
      norm_num [spawnPickup, pickupTries, ite_self, qOps, MAPS, heatStartRands]
    · norm_num [spawnPickup, pickList, heatStartRands]

theorem speed_start_rel {F : MathOps α}
    (hsin0 : F.sin 0 = 0) (hcos0 : F.cos 0 = 1)
    (hsin3 : F.sin (F.pi + F.pi / 2) = -1) (hcos3 : F.cos (F.pi + F.pi / 2) = 0) :
    Rel (startState qOps ((MAPS (α := ℚ)).getD 5 ⟨0, [], []⟩) speedStartRands)
        (startState F ((MAPS (α := α)).getD 5 ⟨0, [], []⟩) speedStartRands) := by
  have ea : (3 / 4 : α) * F.pi * 2 = F.pi + F.pi / 2 := by ring
  have e0 : (0 : α) * F.pi * 2 = 0 := by ring
  unfold startState
  refine ⟨rfl, castVec_zero.symm, castVec_zero.symm, by norm_num, by norm_num,
    by norm_num, by norm_num, by norm_num, by norm_num, by norm_num, by norm_num,
    by norm_num, by norm_num, by norm_num, by norm_num, rfl, ?_, ?_, ?_, ?_⟩
  · norm_num [defaultMods, castMods]
  · norm_num [MAPS, castMap, castZone]
  · refine List.Forall₂.cons ⟨?_, castVec_zero.symm, ?_⟩
      (List.Forall₂.cons ⟨?_, castVec_zero.symm, ?_⟩ List.Forall₂.nil)
    · show (⟨F.cos ((3 / 4 : α) * F.pi * 2) * _, 0, F.sin ((3 / 4 : α) * F.pi * 2) * _⟩ :
          Vec3 α) = castVec ⟨qOps.cos ((3 / 4 : ℚ) * qOps.pi * 2) * _, 0,
            qOps.sin ((3 / 4 : ℚ) * qOps.pi * 2) * _⟩
      rw [ea, hsin3, hcos3]
      norm_num [castVec, qOps, MAPS, speedStartRands]
    · norm_num [spawnRival, pickList, speedStartRands, List.getD]
    · show (⟨F.cos ((3 / 4 : α) * F.pi * 2) * _, 0, F.sin ((3 / 4 : α) * F.pi * 2) * _⟩ :
          Vec3 α) = castVec ⟨qOps.cos ((3 / 4 : ℚ) * qOps.pi * 2) * _, 0,
            qOps.sin ((3 / 4 : ℚ) * qOps.pi * 2) * _⟩
      rw [ea, hsin3, hcos3]
      norm_num [castVec, qOps, MAPS, speedStartRands]
    · norm_num [spawnRival, pickList, speedStartRands, List.getD]
  · refine List.Forall₂.cons ⟨?_, ?_, ?_⟩ List.Forall₂.nil
    · show (pickupTries F _ [((0 : α), 1 / 2)] Vec3.zero).x = _
      simp only [pickupTries, ite_self]
      show F.cos ((0 : α) * F.pi * 2) * _ = _
      rw [e0, hcos0]
      norm_num [spawnPickup, pickupTries, ite_self, qOps, MAPS, speedStartRands]
    · show (pickupTries F _ [((0 : α), 1 / 2)] Vec3.zero).z = _
      simp only [pickupTries, ite_self]
      show F.sin ((0 : α) * F.pi * 2) * _ = _
      rw [e0, hsin0]
      norm_num [spawnPickup, pickupTries, ite_self, qOps, MAPS, speedStartRands]
    · norm_num [spawnPickup, pickList, speedStartRands]

/-- The start state of the heat counterexample run. -/
def heatStart : GState ℚ :=
  startState qOps ((MAPS (α := ℚ)).getD 1 ⟨0, [], []⟩) heatStartRands

/-- The start state of the speed counterexample run. -/
def speedStart : GState ℚ :=
  startState qOps ((MAPS (α := ℚ)).getD 5 ⟨0, [], []⟩) speedStartRands

/-- A 50 ms idle frame. -/
def hTickA : Intent ℚ × ℚ × TickRands ℚ := (idleIntent, 1 / 20, calmRands)

/-- The 48 ms idle frame of the heat run. -/
def hTickB : Intent ℚ × ℚ × TickRands ℚ := (idleIntent, 6 / 125, calmRands)

/-- A 2 ms idle frame. -/
def hTickC : Intent ℚ × ℚ × TickRands ℚ := (idleIntent, 1 / 500, calmRands)

/-- A 50 ms full-throttle frame. -/
def sTickA : Intent ℚ × ℚ × TickRands ℚ := (accelIntent, 1 / 20, calmRands)

/-! Intermediate states of the two counterexample runs, every ten ticks, so
that each of the evaluation theorems below stays within the kernel's
evaluation depth.  Each literal is pinned to the run by the corresponding
`run qOps … = …` theorem. -/

def hq10 : GState ℚ :=
  { mode := Mode.playing
    pos := ⟨0, 0, 0⟩
    vel := ⟨0, 0, 0⟩
    yaw := 0, yawVel := 0
    speed := 0
    drift := 0, boost := 0, boostPulse := 0
    heat := 0, overheat := 0
    combo := 1, comboTimer := 0
    score := 0
    runTime := (1/2)
    fps := 20
    pickupTimer := (13/2), rivalTimer := (9/2)
    drifting := false
    mod := { coolRate := 1, grip := 1, boostGain := 1, boostDrain := 1, hazardResist := 1, offroadResist := 0, pickRange := 1, shield := false }
    map := { size := 520, hazards := [⟨(-120), 40, 70⟩, ⟨140, 160, 80⟩, ⟨60, (-200), 60⟩], boosts := [⟨(-220), (-180), 60⟩, ⟨230, 60, 60⟩] }
    rivals := [{ pos := ⟨0, 0, (1873932665665912769790584616853/9765625000000000000000000000)⟩, vel := ⟨0, 0, (-28347273384301284324691657647/488281250000000000000000000)⟩, yaw := 0, speed := (28347273384301284324691657647/488281250000000000000000000), rtype := RType.racer }, { pos := ⟨(2889557665665912769790584616853/9765625000000000000000000000), 0, 0⟩, vel := ⟨(-28347273384301284324691657647/488281250000000000000000000), 0, 0⟩, yaw := 0, speed := (28347273384301284324691657647/488281250000000000000000000), rtype := RType.racer }]
    pickups := [{ pos := ⟨208, (4/5), 0⟩, ptype := PType.cool }] }

def hq20 : GState ℚ :=
  { mode := Mode.playing
    pos := ⟨0, 0, 0⟩
    vel := ⟨0, 0, 0⟩
    yaw := 0, yawVel := 0
    speed := 0
    drift := 0, boost := 0, boostPulse := 0
    heat := 0, overheat := 0
    combo := 1, comboTimer := 0
    score := 0
    runTime := 1
    fps := 20
    pickupTimer := 6, rivalTimer := 4
    drifting := false
    mod := { coolRate := 1, grip := 1, boostGain := 1, boostDrain := 1, hazardResist := 1, offroadResist := 0, pickRange := 1, shield := false }
    map := { size := 520, hazards := [⟨(-120), 40, 70⟩, ⟨140, 160, 80⟩, ⟨60, (-200), 60⟩], boosts := [⟨(-220), (-180), 60⟩, ⟨230, 60, 60⟩] }
    rivals := [{ pos := ⟨0, 0, (1408526190062297215266306495160485210638096652814448807797/9536743164062500000000000000000000000000000000000000000)⟩, vel := ⟨0, 0, (-53748931491038765886919355101572345335843641767491642703/476837158203125000000000000000000000000000000000000000)⟩, yaw := 0, speed := (53748931491038765886919355101572345335843641767491642703/476837158203125000000000000000000000000000000000000000), rtype := RType.racer }, { pos := ⟨(2400347479124797215266306495160485210638096652814448807797/9536743164062500000000000000000000000000000000000000000), 0, 0⟩, vel := ⟨(-53748931491038765886919355101572345335843641767491642703/476837158203125000000000000000000000000000000000000000), 0, 0⟩, yaw := 0, speed := (53748931491038765886919355101572345335843641767491642703/476837158203125000000000000000000000000000000000000000), rtype := RType.racer }]
    pickups := [{ pos := ⟨208, (4/5), 0⟩, ptype := PType.cool }] }

def hq30 : GState ℚ :=
  { mode := Mode.playing
    pos := ⟨0, 0, 0⟩
    vel := ⟨0, 0, 0⟩
    yaw := 0, yawVel := 0
    speed := 0
    drift := 0, boost := 0, boostPulse := 0
    heat := 0, overheat := 0
    combo := 1, comboTimer := 0
    score := 0
    runTime := (3/2)
    fps := 20
    pickupTimer := (11/2), rivalTimer := (7/2)
    drifting := false
    mod := { coolRate := 1, grip := 1, boostGain := 1, boostDrain := 1, hazardResist := 1, offroadResist := 0, pickRange := 1, shield := false }
    map := { size := 520, hazards := [⟨(-120), 40, 70⟩, ⟨140, 160, 80⟩, ⟨60, (-200), 60⟩], boosts := [⟨(-220), (-180), 60⟩, ⟨230, 60, 60⟩] }
    rivals := [{ pos := ⟨0, 0, (717605804505945884700763422209280788580750615150389584333568599258587640514626100053/9313225746154785156250000000000000000000000000000000000000000000000000000000000000)⟩, vel := ⟨0, 0, (-76457592173979085956757626291001694900889842747386657450705645468361696019202974447/465661287307739257812500000000000000000000000000000000000000000000000000000000000)⟩, yaw := 0, speed := (76457592173979085956757626291001694900889842747386657450705645468361696019202974447/465661287307739257812500000000000000000000000000000000000000000000000000000000000), rtype := RType.racer }, { pos := ⟨(1686181282106043540950763422209280788580750615150389584333568599258587640514626100053/9313225746154785156250000000000000000000000000000000000000000000000000000000000000), 0, 0⟩, vel := ⟨(-76457592173979085956757626291001694900889842747386657450705645468361696019202974447/465661287307739257812500000000000000000000000000000000000000000000000000000000000), 0, 0⟩, yaw := 0, speed := (76457592173979085956757626291001694900889842747386657450705645468361696019202974447/465661287307739257812500000000000000000000000000000000000000000000000000000000000), rtype := RType.racer }]
    pickups := [{ pos := ⟨208, (4/5), 0⟩, ptype := PType.cool }] }

def hq40 : GState ℚ :=
  { mode := Mode.playing
    pos := ⟨0, 0, 0⟩
    vel := ⟨0, 0, 0⟩
    yaw := 0, yawVel := 0
    speed := 0
    drift := 0, boost := 0, boostPulse := 0
    heat := (2992/125), overheat := 0
    combo := 1, comboTimer := 3
    score := 0
    runTime := (951/500)
    fps := (879229/9375)
    pickupTimer := (2549/500), rivalTimer := (1549/500)
    drifting := false
    mod := { coolRate := 1, grip := 1, boostGain := 1, boostDrain := 1, hazardResist := 1, offroadResist := 0, pickRange := 1, shield := false }
    map := { size := 520, hazards := [⟨(-120), 40, 70⟩, ⟨140, 160, 80⟩, ⟨60, (-200), 60⟩], boosts := [⟨(-220), (-180), 60⟩, ⟨230, 60, 60⟩] }
    rivals := [{ pos := ⟨0, 0, (56905064826845480579861212454115274277010488283918900181578163699986311687741187759396599833170002490796567573550863/22204460492503130808472633361816406250000000000000000000000000000000000000000000000000000000000000000000000000000000)⟩, vel := ⟨0, 0, (-9782978408032709405881959693681171810414898571294095930060145126125947329303546394035040312513819957151944396784911/222044604925031308084726333618164062500000000000000000000000000000000000000000000000000000000000000000000000000000)⟩, yaw := 0, speed := (3260992802677569801960653231227057270138299523764698643353381708708649109767848798011680104171273319050648132261637/44408920985006261616945266723632812500000000000000000000000000000000000000000000000000000000000000000000000000000), rtype := RType.racer }, { pos := ⟨(94271697269715776054832394411285228415470863431013958587951836516433372449899276309247951881722890323037605872636207/888178419700125232338905334472656250000000000000000000000000000000000000000000000000000000000000000000000000000000), 0, 0⟩, vel := ⟨(-361290722591834324727098827636204063001477724862744293705931300967627678863094310890186678241252591005627570251293/1776356839400250464677810668945312500000000000000000000000000000000000000000000000000000000000000000000000000000), 0, 0⟩, yaw := 0, speed := (361290722591834324727098827636204063001477724862744293705931300967627678863094310890186678241252591005627570251293/1776356839400250464677810668945312500000000000000000000000000000000000000000000000000000000000000000000000000000), rtype := RType.racer }]
    pickups := [{ pos := ⟨208, (4/5), 0⟩, ptype := PType.cool }] }

def hq50 : GState ℚ :=
  { mode := Mode.playing
    pos := ⟨0, 0, 0⟩
    vel := ⟨0, 0, 0⟩
    yaw := 0, yawVel := 0
    speed := 0
    drift := 0, boost := 0, boostPulse := 0
    heat := (12952/125), overheat := 0
    combo := 1, comboTimer := 3
    score := 0
    runTime := (961/500)
    fps := (289271454529315396621/894069671630859375)
    pickupTimer := (2539/500), rivalTimer := (1539/500)
    drifting := false
    mod := { coolRate := 1, grip := 1, boostGain := 1, boostDrain := 1, hazardResist := 1, offroadResist := 0, pickRange := 1, shield := false }
    map := { size := 520, hazards := [⟨(-120), 40, 70⟩, ⟨140, 160, 80⟩, ⟨60, (-200), 60⟩], boosts := [⟨(-220), (-180), 60⟩, ⟨230, 60, 60⟩] }
    rivals := [{ pos := ⟨0, 0, (47129454655257797331741766963989925765833246658527197140366758138133153419904549170702711514959100226440516028602763053485552442365601408788145465422460173692113063/20194839173657902218540251271239327479634084738790988922119140625000000000000000000000000000000000000000000000000000000000000000000000000000000000000000000000000000)⟩, vel := ⟨0, 0, (-125890739420495211594041344748545783844770590072612657567924552868089733054018240492778612087557314309936142078603360198969253772110380519443061914884090891098311/201948391736579022185402512712393274796340847387909889221191406250000000000000000000000000000000000000000000000000000000000000000000000000000000000000000000000000)⟩, yaw := 0, speed := 40, rtype := RType.racer }, { pos := ⟨(8441519945565545789522277200366541711503472444413281371616295076518284973527998331346726141216081790564408493643801973792854625587342664719329092516904012143/82718061255302767487140869206996285356581211090087890625000000000000000000000000000000000000000000000000000000000000000000000000000000000000000000000000000), 0, 0⟩, vel := ⟨(-33963675954381808947361315664887850518603978315807352708433538502343448148488300525303600391863702844364750479421898949566213227878152996251739399659975357/165436122510605534974281738413992570713162422180175781250000000000000000000000000000000000000000000000000000000000000000000000000000000000000000000000000), 0, 0⟩, yaw := 0, speed := (33963675954381808947361315664887850518603978315807352708433538502343448148488300525303600391863702844364750479421898949566213227878152996251739399659975357/165436122510605534974281738413992570713162422180175781250000000000000000000000000000000000000000000000000000000000000000000000000000000000000000000000000), rtype := RType.racer }]
    pickups := [{ pos := ⟨208, (4/5), 0⟩, ptype := PType.cool }] }

def sq10 : GState ℚ :=
  { mode := Mode.playing
    pos := ⟨0, 0, (1127198870131221953404535942533084975863167668152759/40000000000000000000000000000000000000000000000000)⟩
    vel := ⟨0, 0, (18823801970581303558333043572427774797381073664517623/200000000000000000000000000000000000000000000000000)⟩
    yaw := 0, yawVel := 0
    speed := (194059814129704160395186016210595616467846120252759/2000000000000000000000000000000000000000000000000)
    drift := 0, boost := 0, boostPulse := 0
    heat := (39/2), overheat := 0
    combo := 1, comboTimer := 0
    score := (1127198870131221953404535942533084975863167668152759/500000000000000000000000000000000000000000000000000)
    runTime := (1/2)
    fps := 20
    pickupTimer := (13/2), rivalTimer := (9/2)
    drifting := false
    mod := { coolRate := 1, grip := 1, boostGain := 1, boostDrain := 1, hazardResist := 1, offroadResist := 0, pickRange := 1, shield := false }
    map := { size := 760, hazards := [⟨0, 0, 120⟩, ⟨260, (-200), 120⟩, ⟨(-260), 200, 120⟩], boosts := [⟨(-360), (-260), 90⟩, ⟨360, 260, 90⟩] }
    rivals := [{ pos := ⟨0, 0, (-2811432665665912769790584616853/9765625000000000000000000000)⟩, vel := ⟨0, 0, (28347273384301284324691657647/488281250000000000000000000)⟩, yaw := 0, speed := (28347273384301284324691657647/488281250000000000000000000), rtype := RType.racer }, { pos := ⟨0, 0, (-4295807665665912769790584616853/9765625000000000000000000000)⟩, vel := ⟨0, 0, (28347273384301284324691657647/488281250000000000000000000)⟩, yaw := 0, speed := (28347273384301284324691657647/488281250000000000000000000), rtype := RType.racer }]
    pickups := [{ pos := ⟨304, (4/5), 0⟩, ptype := PType.cool }] }

def sq20 : GState ℚ :=
  { mode := Mode.playing
    pos := ⟨0, 0, (384263404966477724178609127034834936911167787763380150846063977822201633469227285388294016980111733559/4000000000000000000000000000000000000000000000000000000000000000000000000000000000000000000000000000)⟩
    vel := ⟨0, 0, (3176329237792878602967670716655430279057214208276459642535076158703041480832540601265323576566131855223/20000000000000000000000000000000000000000000000000000000000000000000000000000000000000000000000000000)⟩
    yaw := 0, yawVel := 0
    speed := (32745662245287408278017223883045672979971280497695460232320372770134448256005573208920861614083833559/200000000000000000000000000000000000000000000000000000000000000000000000000000000000000000000000000)
    drift := 0, boost := 0, boostPulse := 0
    heat := 39, overheat := 0
    combo := 1, comboTimer := 0
    score := (384263404966477724178609127034834936911167787763380150846063977822201633469227285388294016980111733559/50000000000000000000000000000000000000000000000000000000000000000000000000000000000000000000000000000)
    runTime := 1
    fps := 20
    pickupTimer := 6, rivalTimer := 4
    drifting := false
    mod := { coolRate := 1, grip := 1, boostGain := 1, boostDrain := 1, hazardResist := 1, offroadResist := 0, pickRange := 1, shield := false }
    map := { size := 760, hazards := [⟨0, 0, 120⟩, ⟨260, (-200), 120⟩, ⟨(-260), 200, 120⟩], boosts := [⟨(-360), (-260), 90⟩, ⟨360, 260, 90⟩] }
    rivals := [{ pos := ⟨0, 0, (-2324053533812297215266306495160485210638096652814448807797/9536743164062500000000000000000000000000000000000000000)⟩, vel := ⟨0, 0, (53748931491038765886919355101572345335843641767491642703/476837158203125000000000000000000000000000000000000000)⟩, yaw := 0, speed := (53748931491038765886919355101572345335843641767491642703/476837158203125000000000000000000000000000000000000000), rtype := RType.racer }, { pos := ⟨0, 0, (-3773638494749797215266306495160485210638096652814448807797/9536743164062500000000000000000000000000000000000000000)⟩, vel := ⟨0, 0, (53748931491038765886919355101572345335843641767491642703/476837158203125000000000000000000000000000000000000000)⟩, yaw := 0, speed := (53748931491038765886919355101572345335843641767491642703/476837158203125000000000000000000000000000000000000000), rtype := RType.racer }]
    pickups := [{ pos := ⟨304, (4/5), 0⟩, ptype := PType.cool }] }

def sq30 : GState ℚ :=
  { mode := Mode.playing
    pos := ⟨0, 0, (796006789397592600067808227132106749973114268676255406329087047013982867189977726536249611002879674295226325752844965753523178043330694543/4000000000000000000000000000000000000000000000000000000000000000000000000000000000000000000000000000000000000000000000000000000000000000)⟩
    vel := ⟨0, 0, (49800095563858117929207464249875056257453544947071441141244195613130720713061624801332377222439310224136851244443488660347772158808343543/200000000000000000000000000000000000000000000000000000000000000000000000000000000000000000000000000000000000000000000000000000000000000)⟩
    yaw := 0, yawVel := 0
    speed := (49800095563858117929207464249875056257453544947071441141244195613130720713061624801332377222439310224136851244443488660347772158808343543/200000000000000000000000000000000000000000000000000000000000000000000000000000000000000000000000000000000000000000000000000000000000000)
    drift := 0, boost := 0, boostPulse := 0
    heat := (73/2), overheat := 0
    combo := 1, comboTimer := 0
    score := (796006789397592600067808227132106749973114268676255406329087047013982867189977726536249611002879674295226325752844965753523178043330694543/50000000000000000000000000000000000000000000000000000000000000000000000000000000000000000000000000000000000000000000000000000000000000000)
    runTime := (3/2)
    fps := 20
    pickupTimer := (11/2), rivalTimer := (7/2)
    drifting := false
    mod := { coolRate := 1, grip := 1, boostGain := 1, boostDrain := 1, hazardResist := 1, offroadResist := 0, pickRange := 1, shield := false }
    map := { size := 760, hazards := [⟨0, 0, 120⟩, ⟨260, (-200), 120⟩, ⟨(-260), 200, 120⟩], boosts := [⟨(-360), (-260), 90⟩, ⟨360, 260, 90⟩] }
    rivals := [{ pos := ⟨0, 0, (-1611675476136805259700763422209280788580750615150389584333568599258587640514626100053/9313225746154785156250000000000000000000000000000000000000000000000000000000000000)⟩, vel := ⟨0, 0, (76457592173979085956757626291001694900889842747386657450705645468361696019202974447/465661287307739257812500000000000000000000000000000000000000000000000000000000000)⟩, yaw := 0, speed := (76457592173979085956757626291001694900889842747386657450705645468361696019202974447/465661287307739257812500000000000000000000000000000000000000000000000000000000000), rtype := RType.racer }, { pos := ⟨0, 0, (-3027285789552332603450763422209280788580750615150389584333568599258587640514626100053/9313225746154785156250000000000000000000000000000000000000000000000000000000000000)⟩, vel := ⟨0, 0, (76457592173979085956757626291001694900889842747386657450705645468361696019202974447/465661287307739257812500000000000000000000000000000000000000000000000000000000000)⟩, yaw := 0, speed := (76457592173979085956757626291001694900889842747386657450705645468361696019202974447/465661287307739257812500000000000000000000000000000000000000000000000000000000000), rtype := RType.racer }]
    pickups := [{ pos := ⟨304, (4/5), 0⟩, ptype := PType.cool }] }

def sq40 : GState ℚ :=
  { mode := Mode.playing
    pos := ⟨0, 0, (1398244926763819246284941213399642562685360121578105892629210147207735590156312714797592868317007825636913106726218878181740497254960265611525938788587508800740145856207/4000000000000000000000000000000000000000000000000000000000000000000000000000000000000000000000000000000000000000000000000000000000000000000000000000000000000000000000)⟩
    vel := ⟨0, 0, (68554710909715533313376718123114985070156746386836845568131545360002554488726937069379302900990269882352553694782242550581889747447410010794882606726976272300925457207/200000000000000000000000000000000000000000000000000000000000000000000000000000000000000000000000000000000000000000000000000000000000000000000000000000000000000000000)⟩
    yaw := 0, yawVel := 0
    speed := (68554710909715533313376718123114985070156746386836845568131545360002554488726937069379302900990269882352553694782242550581889747447410010794882606726976272300925457207/200000000000000000000000000000000000000000000000000000000000000000000000000000000000000000000000000000000000000000000000000000000000000000000000000000000000000000000)
    drift := 0, boost := 0, boostPulse := 0
    heat := (57/2), overheat := 0
    combo := 1, comboTimer := 0
    score := (1398244926763819246284941213399642562685360121578105892629210147207735590156312714797592868317007825636913106726218878181740497254960265611525938788587508800740145856207/50000000000000000000000000000000000000000000000000000000000000000000000000000000000000000000000000000000000000000000000000000000000000000000000000000000000000000000000)
    runTime := 2
    fps := 20
    pickupTimer := 5, rivalTimer := 3
    drifting := false
    mod := { coolRate := 1, grip := 1, boostGain := 1, boostDrain := 1, hazardResist := 1, offroadResist := 0, pickRange := 1, shield := false }
    map := { size := 760, hazards := [⟨0, 0, 120⟩, ⟨260, (-200), 120⟩, ⟨(-260), 200, 120⟩], boosts := [⟨(-360), (-260), 90⟩, ⟨360, 260, 90⟩] }
    rivals := [{ pos := ⟨0, 0, (-704933891434116246915893932112068342318075086866011447401454753713016957936824439952348632021125045016862284597/9094947017729282379150390625000000000000000000000000000000000000000000000000000000000000000000000000000000000)⟩, vel := ⟨0, 0, (96705179090283065030614598056008460818821378793959827650310592074726460510685056981603714076586267877365365903/454747350886464118957519531250000000000000000000000000000000000000000000000000000000000000000000000000000000)⟩, yaw := 0, speed := (96705179090283065030614598056008460818821378793959827650310592074726460510685056981603714076586267877365365903/454747350886464118957519531250000000000000000000000000000000000000000000000000000000000000000000000000000000), rtype := RType.racer }, { pos := ⟨0, 0, (-2087365838128967168546753307112068342318075086866011447401454753713016957936824439952348632021125045016862284597/9094947017729282379150390625000000000000000000000000000000000000000000000000000000000000000000000000000000000)⟩, vel := ⟨0, 0, (96705179090283065030614598056008460818821378793959827650310592074726460510685056981603714076586267877365365903/454747350886464118957519531250000000000000000000000000000000000000000000000000000000000000000000000000000000)⟩, yaw := 0, speed := (96705179090283065030614598056008460818821378793959827650310592074726460510685056981603714076586267877365365903/454747350886464118957519531250000000000000000000000000000000000000000000000000000000000000000000000000000000), rtype := RType.racer }]
    pickups := [{ pos := ⟨304, (4/5), 0⟩, ptype := PType.cool }] }

def sq50 : GState ℚ :=
  { mode := Mode.playing
    pos := ⟨0, 0, (2180958219569506443754704369265439709665316143123269542004257805005312991769959981996985651148045952971811758172342635583900906392359604973956615205657778617588408648895134057083649054664991819030543/4000000000000000000000000000000000000000000000000000000000000000000000000000000000000000000000000000000000000000000000000000000000000000000000000000000000000000000000000000000000000000000000000000)⟩
    vel := ⟨0, 0, (86037094545526398990830552875319839018938526698200243810200695808559410670705254420440985197246798692680559173006949195279651213749730881351766055952059969463123000460960787110185756915755344679543/200000000000000000000000000000000000000000000000000000000000000000000000000000000000000000000000000000000000000000000000000000000000000000000000000000000000000000000000000000000000000000000000000)⟩
    yaw := 0, yawVel := 0
    speed := (86037094545526398990830552875319839018938526698200243810200695808559410670705254420440985197246798692680559173006949195279651213749730881351766055952059969463123000460960787110185756915755344679543/200000000000000000000000000000000000000000000000000000000000000000000000000000000000000000000000000000000000000000000000000000000000000000000000000000000000000000000000000000000000000000000000000)
    drift := 0, boost := 0, boostPulse := 0
    heat := (41/2), overheat := 0
    combo := 1, comboTimer := 0
    score := (2180958219569506443754704369265439709665316143123269542004257805005312991769959981996985651148045952971811758172342635583900906392359604973956615205657778617588408648895134057083649054664991819030543/50000000000000000000000000000000000000000000000000000000000000000000000000000000000000000000000000000000000000000000000000000000000000000000000000000000000000000000000000000000000000000000000000000)
    runTime := (5/2)
    fps := 20
    pickupTimer := (9/2), rivalTimer := (5/2)
    drifting := false
    mod := { coolRate := 1, grip := 1, boostGain := 1, boostDrain := 1, hazardResist := 1, offroadResist := 0, pickRange := 1, shield := false }
    map := { size := 760, hazards := [⟨0, 0, 120⟩, ⟨260, (-200), 120⟩, ⟨(-260), 200, 120⟩], boosts := [⟨(-360), (-260), 90⟩, ⟨360, 260, 90⟩] }
    rivals := [{ pos := ⟨0, 0, (368443328503620301170326223000475719472887222838502580293050347470425550495980764677232850939811022986168404536682321083889406037254336747/8881784197001252323389053344726562500000000000000000000000000000000000000000000000000000000000000000000000000000000000000000000000000000)⟩, vel := ⟨0, 0, (114704595604564050399242650634898332553483578131759541768854826876436063075476977275590143756902549157025140415271535285207911029956211247/444089209850062616169452667236328125000000000000000000000000000000000000000000000000000000000000000000000000000000000000000000000000000)⟩, yaw := 0, speed := (114704595604564050399242650634898332553483578131759541768854826876436063075476977275590143756902549157025140415271535285207911029956211247/444089209850062616169452667236328125000000000000000000000000000000000000000000000000000000000000000000000000000000000000000000000000000), rtype := RType.racer }, { pos := ⟨0, 0, (-981587869440570051984809885397961780527112777161497419706949652529574449504019235322767149060188977013831595463317678916110593962745663253/8881784197001252323389053344726562500000000000000000000000000000000000000000000000000000000000000000000000000000000000000000000000000000)⟩, vel := ⟨0, 0, (114704595604564050399242650634898332553483578131759541768854826876436063075476977275590143756902549157025140415271535285207911029956211247/444089209850062616169452667236328125000000000000000000000000000000000000000000000000000000000000000000000000000000000000000000000000000)⟩, yaw := 0, speed := (114704595604564050399242650634898332553483578131759541768854826876436063075476977275590143756902549157025140415271535285207911029956211247/444089209850062616169452667236328125000000000000000000000000000000000000000000000000000000000000000000000000000000000000000000000000000), rtype := RType.racer }]
    pickups := [{ pos := ⟨304, (4/5), 0⟩, ptype := PType.cool }] }

def sq57 : GState ℚ :=
  { mode := Mode.playing
    pos := ⟨0, 0, (2829650343682940740916851121452326931786353082978899717009299426753531916704985862755396888586212232926427892337838294456190722427101664391817418481315626823955457799005188883861046751977087935882616550144855195382375151/4000000000000000000000000000000000000000000000000000000000000000000000000000000000000000000000000000000000000000000000000000000000000000000000000000000000000000000000000000000000000000000000000000000000000000000000000)⟩
    vel := ⟨0, 0, (97564239692763015224330021893136343998951357937888651438563947216175188641958848413080583724873018270039760644146456131728766307160411227852243777070282590364865856401776110587082248475488806091461917571989943234968151/200000000000000000000000000000000000000000000000000000000000000000000000000000000000000000000000000000000000000000000000000000000000000000000000000000000000000000000000000000000000000000000000000000000000000000000000)⟩
    yaw := 0, yawVel := 0
    speed := 486
    drift := 0, boost := 0, boostPulse := 0
    heat := (149/10), overheat := 0
    combo := 1, comboTimer := 0
    score := (2829286103990177725692521099559190587787401725041011065570735479537356728063027014342316304861339214656388131693691838324461956119941253163965174704245344233590591942603412773273964503501599129791154632572865252147407/50000000000000000000000000000000000000000000000000000000000000000000000000000000000000000000000000000000000000000000000000000000000000000000000000000000000000000000000000000000000000000000000000000000000000000000000)
    runTime := (57/20)
    fps := 20
    pickupTimer := (83/20), rivalTimer := (43/20)
    drifting := false
    mod := { coolRate := 1, grip := 1, boostGain := 1, boostDrain := 1, hazardResist := 1, offroadResist := 0, pickRange := 1, shield := false }
    map := { size := 760, hazards := [⟨0, 0, 120⟩, ⟨260, (-200), 120⟩, ⟨(-260), 200, 120⟩], boosts := [⟨(-360), (-260), 90⟩, ⟨360, 260, 90⟩] }
    rivals := [{ pos := ⟨0, 0, (9575083747598586298219949838240812716079415110123297965839854280746898479499016687097973358381806104148066369879399532554547164094984572736327389640615254811/69388939039072283776476979255676269531250000000000000000000000000000000000000000000000000000000000000000000000000000000000000000000000000000000000000000000)⟩, vel := ⟨0, 0, (1001424170150772507912148991960395806648885572775915706443622609975370834127772535087939798641558514461882899175778272439308568425986008615273677728527473311/3469446951953614188823848962783813476562500000000000000000000000000000000000000000000000000000000000000000000000000000000000000000000000000000000000000000)⟩, yaw := 0, speed := (1001424170150772507912148991960395806648885572775915706443622609975370834127772535087939798641558514461882899175778272439308568425986008615273677728527473311/3469446951953614188823848962783813476562500000000000000000000000000000000000000000000000000000000000000000000000000000000000000000000000000000000000000000), rtype := RType.racer }, { pos := ⟨0, 0, (-972034986340400835804551008621980252670584889876702034160145719253101520500983312902026641618193895851933630120600467445452835905015427263672610359384745189/69388939039072283776476979255676269531250000000000000000000000000000000000000000000000000000000000000000000000000000000000000000000000000000000000000000000)⟩, vel := ⟨0, 0, (1001424170150772507912148991960395806648885572775915706443622609975370834127772535087939798641558514461882899175778272439308568425986008615273677728527473311/3469446951953614188823848962783813476562500000000000000000000000000000000000000000000000000000000000000000000000000000000000000000000000000000000000000000)⟩, yaw := 0, speed := (1001424170150772507912148991960395806648885572775915706443622609975370834127772535087939798641558514461882899175778272439308568425986008615273677728527473311/3469446951953614188823848962783813476562500000000000000000000000000000000000000000000000000000000000000000000000000000000000000000000000000000000000000000), rtype := RType.racer }]
    pickups := [{ pos := ⟨304, (4/5), 0⟩, ptype := PType.cool }] }


attribute [local semireducible] Rat.add Rat.mul Rat.inv Rat.sub in
set_option maxRecDepth 100000 in
set_option maxHeartbeats 2000000 in
theorem heat_step1 : run qOps heatStart (List.replicate 10 hTickA) = hq10 ∧ allSafe heatStart (List.replicate 10 hTickA) = true := by decide

attribute [local semireducible] Rat.add Rat.mul Rat.inv Rat.sub in
set_option maxRecDepth 100000 in
set_option maxHeartbeats 2000000 in
theorem heat_step2 : run qOps hq10 (List.replicate 10 hTickA) = hq20 ∧ allSafe hq10 (List.replicate 10 hTickA) = true := by decide

attribute [local semireducible] Rat.add Rat.mul Rat.inv Rat.sub in
set_option maxRecDepth 100000 in
set_option maxHeartbeats 2000000 in
theorem heat_step3 : run qOps hq20 (List.replicate 10 hTickA) = hq30 ∧ allSafe hq20 (List.replicate 10 hTickA) = true := by decide

attribute [local semireducible] Rat.add Rat.mul Rat.inv Rat.sub in
set_option maxRecDepth 100000 in
set_option maxHeartbeats 2000000 in
theorem heat_step4 : run qOps hq30 (List.replicate 7 hTickA ++ [hTickB] ++ List.replicate 2 hTickC) = hq40 ∧ allSafe hq30 (List.replicate 7 hTickA ++ [hTickB] ++ List.replicate 2 hTickC) = true := by decide

attribute [local semireducible] Rat.add Rat.mul Rat.inv Rat.sub in
set_option maxRecDepth 100000 in
set_option maxHeartbeats 2000000 in
theorem heat_step5 : run qOps hq40 (List.replicate 10 hTickC) = hq50 ∧ allSafe hq40 (List.replicate 10 hTickC) = true := by decide

attribute [local semireducible] Rat.add Rat.mul Rat.inv Rat.sub in
set_option maxRecDepth 100000 in
set_option maxHeartbeats 2000000 in
theorem speed_step1 : run qOps speedStart (List.replicate 10 sTickA) = sq10 ∧ allSafe speedStart (List.replicate 10 sTickA) = true := by decide

attribute [local semireducible] Rat.add Rat.mul Rat.inv Rat.sub in
set_option maxRecDepth 100000 in
set_option maxHeartbeats 2000000 in
theorem speed_step2 : run qOps sq10 (List.replicate 10 sTickA) = sq20 ∧ allSafe sq10 (List.replicate 10 sTickA) = true := by decide

attribute [local semireducible] Rat.add Rat.mul Rat.inv Rat.sub in
set_option maxRecDepth 100000 in
set_option maxHeartbeats 2000000 in
theorem speed_step3 : run qOps sq20 (List.replicate 10 sTickA) = sq30 ∧ allSafe sq20 (List.replicate 10 sTickA) = true := by decide

attribute [local semireducible] Rat.add Rat.mul Rat.inv Rat.sub in
set_option maxRecDepth 100000 in
set_option maxHeartbeats 2000000 in
theorem speed_step4 : run qOps sq30 (List.replicate 10 sTickA) = sq40 ∧ allSafe sq30 (List.replicate 10 sTickA) = true := by decide

attribute [local semireducible] Rat.add Rat.mul Rat.inv Rat.sub in
set_option maxRecDepth 100000 in
set_option maxHeartbeats 2000000 in
theorem speed_step5 : run qOps sq40 (List.replicate 10 sTickA) = sq50 ∧ allSafe sq40 (List.replicate 10 sTickA) = true := by decide

attribute [local semireducible] Rat.add Rat.mul Rat.inv Rat.sub in
set_option maxRecDepth 100000 in
set_option maxHeartbeats 2000000 in
theorem speed_step6 : run qOps sq50 (List.replicate 7 sTickA) = sq57 ∧ allSafe sq50 (List.replicate 7 sTickA) = true := by decide

theorem heat_split : heatTicks (α := ℚ) =
    List.replicate 10 hTickA ++ (List.replicate 10 hTickA ++ (List.replicate 10 hTickA ++
      ((List.replicate 7 hTickA ++ [hTickB] ++ List.replicate 2 hTickC) ++
        List.replicate 10 hTickC))) := by rfl

theorem speed_split : speedTicks (α := ℚ) =
    List.replicate 10 sTickA ++ (List.replicate 10 sTickA ++ (List.replicate 10 sTickA ++
      (List.replicate 10 sTickA ++ (List.replicate 10 sTickA ++
        List.replicate 7 sTickA)))) := by rfl

theorem heat_run_eq : run qOps heatStart (heatTicks (α := ℚ)) = hq50 := by
  rw [heat_split, run_append, heat_step1.1, run_append, heat_step2.1, run_append,
    heat_step3.1, run_append, heat_step4.1, heat_step5.1]

theorem speed_run_eq : run qOps speedStart (speedTicks (α := ℚ)) = sq57 := by
  rw [speed_split, run_append, speed_step1.1, run_append, speed_step2.1, run_append,
    speed_step3.1, run_append, speed_step4.1, run_append, speed_step5.1,
    speed_step6.1]

theorem heat_safe_all : allSafe heatStart (heatTicks (α := ℚ)) = true := by
  rw [heat_split, allSafe_append, heat_step1.1, allSafe_append, heat_step2.1,
    allSafe_append, heat_step3.1, allSafe_append, heat_step4.1, heat_step1.2,
    heat_step2.2, heat_step3.2, heat_step4.2, heat_step5.2]
  rfl

theorem speed_safe_all : allSafe speedStart (speedTicks (α := ℚ)) = true := by
  rw [speed_split, allSafe_append, speed_step1.1, allSafe_append, speed_step2.1,
    allSafe_append, speed_step3.1, allSafe_append, speed_step4.1, allSafe_append,
    speed_step5.1, speed_step1.2, speed_step2.2, speed_step3.2, speed_step4.2,
    speed_step5.2, speed_step6.2]
  rfl

theorem castIntent_idle : castIntent (α := α) idleIntent = idleIntent := by
  unfold castIntent idleIntent
  norm_num

theorem castIntent_accel : castIntent (α := α) accelIntent = accelIntent := by
  unfold castIntent accelIntent
  norm_num

theorem castRands_calm : castRands (α := α) calmRands = calmRands := by
  unfold castRands calmRands
  congr 1
  · norm_num
  · norm_num
  · norm_num
  · funext n
    norm_num

theorem castTicks_heat : castTicks (heatTicks (α := ℚ)) = heatTicks (α := α) := by
  unfold castTicks heatTicks
  simp only [List.map_append, List.map_replicate, List.map_cons, List.map_nil,
    castIntent_idle, castRands_calm]
  norm_num

theorem castTicks_speed : castTicks (speedTicks (α := ℚ)) = speedTicks (α := α) := by
  unfold castTicks speedTicks
  simp only [List.map_replicate, castIntent_accel, castRands_calm]
  norm_num

/-- The real-number interpretation of the `Math` operations (the fields the
counterexample runs never read are stubbed with 0). -/
noncomputable def realOps : MathOps ℝ :=
  { sqrt := Real.sqrt
    sin := Real.sin
    cos := Real.cos
    pow := fun x y => 0 * x * y
    atan2 := fun y x => 0 * y * x
    pi := Real.pi }

/-- **C1** — counterexample.  The claim says every meter stays in its closed
range at the end of every tick, in particular `heat ≤ 100`.  In the arena
variant, `bump()` adds 8 heat
after `applyHeat` has already clamped the meter this tick, so a reachable
50-tick run (player idling at the arena centre while a rival repeatedly
rams it during short frames) ends a tick with `heat > 100` and the run still
playing.  The run is evaluated exactly over `ℚ` and transported to every
interpretation `F` of the `Math` operations that is exact on the finitely
many arguments the run reaches. -/
theorem heat_run_exceeds {α : Type} [LinearOrderedField α] [FloorRing α]
    (F : MathOps α)
    (hF : ∀ x : α, 0 ≤ x → F.sqrt (x * x) = x)
    (hsin0 : F.sin 0 = 0) (hcos0 : F.cos 0 = 1)
    (hsinh : F.sin (F.pi / 2) = 1) (hcosh : F.cos (F.pi / 2) = 0) :
    100 < (run F (startState F ((MAPS (α := α)).getD 1 ⟨0, [], []⟩) heatStartRands)
        (heatTicks (α := α))).heat ∧
      (run F (startState F ((MAPS (α := α)).getD 1 ⟨0, [], []⟩) heatStartRands)
        (heatTicks (α := α))).mode = Mode.playing := by
  have R0 := heat_start_rel (F := F) hsin0 hcos0 hsinh hcosh
  have hsafe : allSafe (startState qOps ((MAPS (α := ℚ)).getD 1 ⟨0, [], []⟩)
      heatStartRands) (heatTicks (α := ℚ)) = true := heat_safe_all
  have Rfin := run_rel hF hsin0 hcos0 (heatTicks (α := ℚ)) hsafe R0
  rw [castTicks_heat] at Rfin
  have e : run qOps (startState qOps ((MAPS (α := ℚ)).getD 1 ⟨0, [], []⟩)
      heatStartRands) (heatTicks (α := ℚ)) = hq50 := heat_run_eq
  rw [e] at Rfin
  constructor
  · rw [Rfin.heat]
    have h1 : (100 : ℚ) < hq50.heat := by norm_num [hq50]
    exact_mod_cast h1
  · rw [Rfin.mode]
    rfl

/-- **C1** — the counterexample, closed: at the real `Math` operations, the
50-tick heat run ends with `heat > 100` while the run is still `playing`. -/
theorem C1_counterexample :
    100 < (run realOps (startState realOps ((MAPS (α := ℝ)).getD 1 ⟨0, [], []⟩)
        heatStartRands) (heatTicks (α := ℝ))).heat ∧
      (run realOps (startState realOps ((MAPS (α := ℝ)).getD 1 ⟨0, [], []⟩)
        heatStartRands) (heatTicks (α := ℝ))).mode = Mode.playing :=
  heat_run_exceeds realOps (fun x hx => Real.sqrt_mul_self hx)
    Real.sin_zero Real.cos_zero Real.sin_pi_div_two Real.cos_pi_div_two

/-- **C3** — counterexample.  The claim says the speed never exceeds
`maxSpeed × overdriveFactor` (= 360 × 1.35 = 486) under sustained throttle.
The arena variant clamps only the HUD scalar `game.speed`; the velocity
vector itself is unbounded, and 57 throttle-only ticks push its `z`
component (hence the actual speed) beyond 486 with the run still playing. -/
theorem speed_run_exceeds {α : Type} [LinearOrderedField α] [FloorRing α]
    (F : MathOps α)
    (hF : ∀ x : α, 0 ≤ x → F.sqrt (x * x) = x)
    (hsin0 : F.sin 0 = 0) (hcos0 : F.cos 0 = 1)
    (hsin3 : F.sin (F.pi + F.pi / 2) = -1) (hcos3 : F.cos (F.pi + F.pi / 2) = 0) :
    360 * (135 / 100) <
      (run F (startState F ((MAPS (α := α)).getD 5 ⟨0, [], []⟩) speedStartRands)
        (speedTicks (α := α))).vel.z ∧
      (run F (startState F ((MAPS (α := α)).getD 5 ⟨0, [], []⟩) speedStartRands)
        (speedTicks (α := α))).mode = Mode.playing := by
  have R0 := speed_start_rel (F := F) hsin0 hcos0 hsin3 hcos3
  have hsafe : allSafe (startState qOps ((MAPS (α := ℚ)).getD 5 ⟨0, [], []⟩)
      speedStartRands) (speedTicks (α := ℚ)) = true := speed_safe_all
  have Rfin := run_rel hF hsin0 hcos0 (speedTicks (α := ℚ)) hsafe R0
  rw [castTicks_speed] at Rfin
  have e : run qOps (startState qOps ((MAPS (α := ℚ)).getD 5 ⟨0, [], []⟩)
      speedStartRands) (speedTicks (α := ℚ)) = sq57 := speed_run_eq
  rw [e] at Rfin
  constructor
  · rw [Rfin.vel]
    show (360 : α) * (135 / 100) < ((sq57.vel.z : ℚ) : α)
    have h1 : (360 : ℚ) * (135 / 100) < sq57.vel.z := by norm_num [sq57]
    have e2 : (360 : α) * (135 / 100) = ((360 * (135 / 100) : ℚ) : α) := by
      push_cast
      norm_num
    rw [e2]
    exact_mod_cast h1
  · rw [Rfin.mode]
    rfl

/-- **C3** — the counterexample, closed: at the real `Math` operations, 57
full-throttle ticks end with the velocity's `z` component above
`maxSpeed × overdriveFactor = 486` while the run is still `playing`. -/
theorem C3_counterexample :
    360 * (135 / 100) <
      (run realOps (startState realOps ((MAPS (α := ℝ)).getD 5 ⟨0, [], []⟩)
        speedStartRands) (speedTicks (α := ℝ))).vel.z ∧
      (run realOps (startState realOps ((MAPS (α := ℝ)).getD 5 ⟨0, [], []⟩)
        speedStartRands) (speedTicks (α := ℝ))).mode = Mode.playing :=
  speed_run_exceeds realOps (fun x hx => Real.sqrt_mul_self hx)
    Real.sin_zero Real.cos_zero
    (by show Real.sin (Real.pi + Real.pi / 2) = -1
        rw [Real.sin_add]
        simp)
    (by show Real.cos (Real.pi + Real.pi / 2) = 0
        rw [Real.cos_add]
        simp)

/-- The meter ranges of the claim, as an invariant on the arena game state
(with the heat ceiling dropped — the counterexample above refutes it), plus
nonnegativity of the hazard-heat perk factor it depends on. -/
def MetersOK (s : GState α) : Prop :=
  0 ≤ s.drift ∧ s.drift ≤ 100 ∧ 0 ≤ s.boost ∧ s.boost ≤ 140 ∧
    1 ≤ s.combo ∧ s.combo ≤ 9 ∧ 0 ≤ s.heat ∧ 0 ≤ s.mod.hazardResist

theorem le_clamp (v : α) {lo hi : α} (h : lo ≤ hi) : lo ≤ clamp v lo hi := by
  unfold clamp
  exact le_min h (le_max_left _ _)

theorem clamp_le (v lo hi : α) : clamp v lo hi ≤ hi := by
  unfold clamp
  exact min_le_left _ _

theorem driftBlock_meters {i : Intent α} {dt : α} {s : GState α}
    (hdt : 0 ≤ dt) (h : MetersOK s) : MetersOK (driftBlock i dt s) := by
  obtain ⟨d1, d2, b1, b2, c1, c2, h0, r0⟩ := h
  have h20 : (0 : α) ≤ 20 * dt := by
    have := mul_nonneg (by norm_num : (0 : α) ≤ 20) hdt
    linarith
  unfold driftBlock
  split_ifs
  · exact ⟨le_clamp _ (by norm_num), clamp_le _ _ _, b1, b2, c1, c2,
      add_nonneg h0 h20, r0⟩
  · exact ⟨le_refl 0, by norm_num, le_clamp _ (by norm_num), clamp_le _ _ _,
      c1, c2, h0, r0⟩
  · exact ⟨le_refl 0, by norm_num, b1, b2, c1, c2, h0, r0⟩
  · exact ⟨d1, d2, b1, b2, c1, c2, h0, r0⟩

theorem boostBurn_meters {i : Intent α} {dt : α} {fwd : Vec3 α} {s : GState α}
    (hdt : 0 ≤ dt) (h : MetersOK s) : MetersOK (boostBurn i dt fwd s) := by
  obtain ⟨d1, d2, b1, b2, c1, c2, h0, r0⟩ := h
  have h28 : (0 : α) ≤ 28 * dt := by
    have := mul_nonneg (by norm_num : (0 : α) ≤ 28) hdt
    linarith
  unfold boostBurn
  split_ifs
  · exact ⟨d1, d2, le_clamp _ (by norm_num), clamp_le _ _ _, c1, c2,
      add_nonneg h0 h28, r0⟩
  · exact ⟨d1, d2, b1, b2, c1, c2, h0, r0⟩

theorem pulseKick_meters {dt : α} {fwd : Vec3 α} {s : GState α}
    (h : MetersOK s) : MetersOK (pulseKick dt fwd s) := by
  obtain ⟨d1, d2, b1, b2, c1, c2, h0, r0⟩ := h
  unfold pulseKick
  split_ifs
  · exact ⟨d1, d2, b1, b2, c1, c2, h0, r0⟩
  · exact ⟨d1, d2, b1, b2, c1, c2, h0, r0⟩

theorem integrate_meters {F : MathOps α} {i : Intent α} {dt : α} {fwd : Vec3 α}
    {s : GState α} (hdt : 0 ≤ dt) (h : MetersOK s) :
    MetersOK (integrate F i dt fwd s) := by
  obtain ⟨d1, d2, b1, b2, c1, c2, h0, r0⟩ := h
  unfold integrate
  dsimp only
  exact pulseKick_meters (boostBurn_meters hdt
    (driftBlock_meters hdt ⟨d1, d2, b1, b2, c1, c2, h0, r0⟩))

theorem playerClamp_meters {F : MathOps α} {s : GState α}
    (h : MetersOK s) : MetersOK (playerClamp F s) := by
  obtain ⟨d1, d2, b1, b2, c1, c2, h0, r0⟩ := h
  unfold playerClamp clampToArena
  dsimp only
  split_ifs
  · exact ⟨d1, d2, b1, b2, c1, c2, add_nonneg h0 (by norm_num), r0⟩
  · exact ⟨d1, d2, b1, b2, c1, c2, h0, r0⟩

theorem hazardFold_heat {dt resist : α} {pos : Vec3 α} (L : List (Zone α))
    (hdt : 0 ≤ dt) (hres : 0 ≤ resist) :
    ∀ h v, 0 ≤ h →
      0 ≤ (L.foldl (fun (hv : α × Vec3 α) z =>
        if (pos.x - z.x) ^ 2 + (pos.z - z.z) ^ 2 < z.r * z.r then
          (hv.1 + 55 * dt * resist, Vec3.smul hv.2 (1 - (6 / 10) * dt))
        else hv) (h, v)).1 := by
  induction L with
  | nil =>
    intro h v h0
    exact h0
  | cons z L ih =>
    intro h v h0
    simp only [List.foldl_cons]
    split_ifs
    · refine ih _ _ ?_
      have : 0 ≤ 55 * dt * resist := by
        have := mul_nonneg (mul_nonneg (by norm_num : (0 : α) ≤ 55) hdt) hres
        linarith
      linarith
    · exact ih _ _ h0

theorem applyHazards_meters {dt : α} {s : GState α}
    (hdt : 0 ≤ dt) (h : MetersOK s) : MetersOK (applyHazards dt s) := by
  obtain ⟨d1, d2, b1, b2, c1, c2, h0, r0⟩ := h
  unfold applyHazards
  dsimp only
  exact ⟨d1, d2, b1, b2, c1, c2, hazardFold_heat _ hdt r0 _ _ h0, r0⟩

theorem padFold_boost {dt : α} {pos fwd : Vec3 α} (L : List (Zone α)) :
    ∀ b v, 0 ≤ b → b ≤ 140 →
      0 ≤ (L.foldl (fun (bv : α × Vec3 α) z =>
        if (pos.x - z.x) ^ 2 + (pos.z - z.z) ^ 2 < z.r * z.r then
          (clamp (bv.1 + 16 * dt) 0 140,
           Vec3.addScaled bv.2 fwd (620 * (35 / 100) * dt))
        else bv) (b, v)).1 ∧
      (L.foldl (fun (bv : α × Vec3 α) z =>
        if (pos.x - z.x) ^ 2 + (pos.z - z.z) ^ 2 < z.r * z.r then
          (clamp (bv.1 + 16 * dt) 0 140,
           Vec3.addScaled bv.2 fwd (620 * (35 / 100) * dt))
        else bv) (b, v)).1 ≤ 140 := by
  induction L with
  | nil =>
    intro b v hb1 hb2
    exact ⟨hb1, hb2⟩
  | cons z L ih =>
    intro b v hb1 hb2
    simp only [List.foldl_cons]
    split_ifs
    · exact ih _ _ (le_clamp _ (by norm_num)) (clamp_le _ _ _)
    · exact ih _ _ hb1 hb2

theorem applyBoostPads_meters {dt : α} {fwd : Vec3 α} {s : GState α}
    (h : MetersOK s) : MetersOK (applyBoostPads dt fwd s) := by
  obtain ⟨d1, d2, b1, b2, c1, c2, h0, r0⟩ := h
  unfold applyBoostPads
  dsimp only
  exact ⟨d1, d2, (padFold_boost _ _ _ b1 b2).1, (padFold_boost _ _ _ b1 b2).2,
    c1, c2, h0, r0⟩

theorem applyHeat_meters {dt : α} {s : GState α}
    (h : MetersOK s) : MetersOK (applyHeat dt s) := by
  obtain ⟨d1, d2, b1, b2, c1, c2, h0, r0⟩ := h
  unfold applyHeat
  dsimp only
  split_ifs <;>
    exact ⟨d1, d2, b1, b2, c1, c2, le_clamp _ (by norm_num), r0⟩

theorem comboScore_meters {i : Intent α} {dt : α} {s : GState α}
    (hdt : 0 ≤ dt) (h : MetersOK s) : MetersOK (comboScore i dt s) := by
  obtain ⟨d1, d2, b1, b2, c1, c2, h0, r0⟩ := h
  have h02 : (0 : α) ≤ 2 / 10 * dt := by
    have := mul_nonneg (by norm_num : (0 : α) ≤ 2 / 10) hdt
    linarith
  unfold comboScore
  dsimp only
  split_ifs <;>
    first
      | exact ⟨d1, d2, b1, b2, le_max_left _ _,
          max_le (by norm_num) (by linarith), h0, r0⟩
      | exact ⟨d1, d2, b1, b2, c1, c2, h0, r0⟩

theorem addCombo_meters {v : α} {s : GState α}
    (h : MetersOK s) : MetersOK (addCombo v s) := by
  obtain ⟨d1, d2, b1, b2, c1, c2, h0, r0⟩ := h
  exact ⟨d1, d2, b1, b2, le_clamp _ (by norm_num), clamp_le _ _ _, h0, r0⟩

theorem collectPickup_meters {p : Pickup α} {s : GState α}
    (h : MetersOK s) : MetersOK (collectPickup p s) := by
  obtain ⟨d1, d2, b1, b2, c1, c2, h0, r0⟩ := h
  unfold collectPickup
  dsimp only
  split_ifs <;>
    first
      | exact addCombo_meters ⟨d1, d2, b1, b2, c1, c2, le_max_left _ _, r0⟩
      | exact addCombo_meters ⟨d1, d2, le_clamp _ (by norm_num), clamp_le _ _ _,
          c1, c2, le_max_left _ _, r0⟩
      | exact addCombo_meters ⟨d1, d2, le_clamp _ (by norm_num), clamp_le _ _ _,
          c1, c2, h0, r0⟩
      | exact addCombo_meters ⟨d1, d2, b1, b2, c1, c2, h0, r0⟩
      | exact ⟨d1, d2, b1, b2, c1, c2, le_max_left _ _, r0⟩
      | exact ⟨d1, d2, le_clamp _ (by norm_num), clamp_le _ _ _, c1, c2,
          le_max_left _ _, r0⟩
      | exact ⟨d1, d2, le_clamp _ (by norm_num), clamp_le _ _ _, c1, c2, h0, r0⟩
      | exact ⟨d1, d2, b1, b2, c1, c2, h0, r0⟩

theorem pickupLoop_meters {F : MathOps α} {dt : α} (ps : List (Pickup α)) :
    ∀ (idx : Nat) (g : GState α), MetersOK g →
      MetersOK (pickupLoop F dt idx g ps).1 := by
  induction ps with
  | nil =>
    intro idx g h
    exact h
  | cons p rest ih =>
    intro idx g h
    dsimp only [pickupLoop]
    split_ifs
    · exact collectPickup_meters (ih _ _ h)
    · exact ih _ _ h
    · exact ih _ _ h

theorem updatePickups_meters {F : MathOps α} {dt : α} {o : TickRands α}
    {s : GState α} (h : MetersOK s) : MetersOK (updatePickups F dt o s) := by
  obtain ⟨d1, d2, b1, b2, c1, c2, h0, r0⟩ := h
  unfold updatePickups
  dsimp only
  split_ifs <;>
    exact pickupLoop_meters _ _ _ ⟨d1, d2, b1, b2, c1, c2, h0, r0⟩

theorem bump_meters {s : GState α} (h : MetersOK s) : MetersOK (bump s) := by
  obtain ⟨d1, d2, b1, b2, c1, c2, h0, r0⟩ := h
  exact addCombo_meters ⟨d1, d2, b1, b2, c1, c2, add_nonneg h0 (by norm_num), r0⟩

theorem rivalUpd_meters {F : MathOps α} {dt accelR : α} {idx : Nat}
    {g : GState α} {r : Rival α} (h : MetersOK g) :
    MetersOK (rivalUpd F dt accelR idx g r).1 := by
  obtain ⟨d1, d2, b1, b2, c1, c2, h0, r0⟩ := h
  unfold rivalUpd clampToArena
  dsimp only
  split_ifs <;>
    first
      | exact ⟨d1, d2, b1, b2, c1, c2, add_nonneg h0 (by norm_num), r0⟩
      | exact bump_meters ⟨d1, d2, b1, b2, c1, c2, add_nonneg h0 (by norm_num), r0⟩
      | exact ⟨d1, d2, b1, b2, c1, c2, h0, r0⟩
      | exact bump_meters ⟨d1, d2, b1, b2, c1, c2, h0, r0⟩

theorem rivalLoop_meters {F : MathOps α} {dt : α} {o : TickRands α}
    (rs : List (Rival α)) :
    ∀ (idx : Nat) (g : GState α), MetersOK g →
      MetersOK (rivalLoop F dt o idx g rs).1 := by
  induction rs with
  | nil =>
    intro idx g h
    exact h
  | cons r rest ih =>
    intro idx g h
    dsimp only [rivalLoop]
    exact rivalUpd_meters (ih _ _ h)

theorem updateRivals_meters {F : MathOps α} {dt : α} {o : TickRands α}
    {s : GState α} (h : MetersOK s) : MetersOK (updateRivals F dt o s) := by
  obtain ⟨d1, d2, b1, b2, c1, c2, h0, r0⟩ := h
  unfold updateRivals
  dsimp only
  split_ifs <;>
    exact rivalLoop_meters _ _ _ ⟨d1, d2, b1, b2, c1, c2, h0, r0⟩

/-- **C1** — amended.  With the heat ceiling weakened to a lower bound, the
meter ranges are preserved by every arena tick: for every interpretation of
the `Math` operations, every input, every random draw and every nonnegative
frame delta, a state with `drift ∈ [0,100]`, `boost ∈ [0,140]`,
`combo ∈ [1,9]`, `heat ≥ 0` (and a nonnegative hazard-resist perk) steps to
a state satisfying the same bounds.  The heat ceiling itself is false:
`bump()` and the arena-wall penalty add heat after `applyHeat` has clamped
the meter (see the counterexample). -/
theorem C1_amended {α : Type} [LinearOrderedField α] [FloorRing α]
    (F : MathOps α) (i : Intent α) (dt : α) (o : TickRands α) (s : GState α)
    (hdt : 0 ≤ dt) (h : MetersOK s) : MetersOK (update F i dt o s) := by
  unfold update
  dsimp only
  exact updateRivals_meters (updatePickups_meters (comboScore_meters hdt
    (applyHeat_meters (applyBoostPads_meters (applyHazards_meters hdt
      (playerClamp_meters (integrate_meters hdt h)))))))

/-- Witness: the amended meter invariant applied to the tick-10 state of the
heat run at a 50 ms frame. -/
theorem C1_amended_witness : MetersOK (update qOps idleIntent (1 / 20) calmRands hq10) :=
  C1_amended qOps idleIntent (1 / 20) calmRands hq10 (by norm_num)
    (by norm_num [MetersOK, hq10])

theorem playerClamp_speed {F : MathOps α} (s : GState α) :
    (playerClamp F s).speed = s.speed := rfl

theorem applyHazards_speed (dt : α) (s : GState α) :
    (applyHazards dt s).speed = s.speed := rfl

theorem applyBoostPads_speed (dt : α) (fwd : Vec3 α) (s : GState α) :
    (applyBoostPads dt fwd s).speed = s.speed := rfl

theorem applyHeat_speed (dt : α) (s : GState α) :
    (applyHeat dt s).speed = s.speed := by
  unfold applyHeat
  dsimp only
  split_ifs <;> rfl

theorem comboScore_speed (i : Intent α) (dt : α) (s : GState α) :
    (comboScore i dt s).speed = s.speed := rfl

theorem collectPickup_speed (p : Pickup α) (s : GState α) :
    (collectPickup p s).speed = s.speed := by
  unfold collectPickup addCombo
  dsimp only
  split_ifs <;> rfl

theorem pickupLoop_speed {F : MathOps α} {dt : α} (ps : List (Pickup α)) :
    ∀ (idx : Nat) (g : GState α), (pickupLoop F dt idx g ps).1.speed = g.speed := by
  induction ps with
  | nil =>
    intro idx g
    rfl
  | cons p rest ih =>
    intro idx g
    dsimp only [pickupLoop]
    split_ifs
    · rw [collectPickup_speed]
      exact ih _ _
    · exact ih _ _
    · exact ih _ _

theorem updatePickups_speed {F : MathOps α} (dt : α) (o : TickRands α)
    (s : GState α) : (updatePickups F dt o s).speed = s.speed := by
  unfold updatePickups
  dsimp only
  split_ifs <;> exact pickupLoop_speed _ _ _

theorem rivalUpd_speed {F : MathOps α} (dt accelR : α) (idx : Nat)
    (g : GState α) (r : Rival α) : (rivalUpd F dt accelR idx g r).1.speed = g.speed := by
  unfold rivalUpd clampToArena bump addCombo
  dsimp only
  split_ifs <;> rfl

theorem rivalLoop_speed {F : MathOps α} {dt : α} {o : TickRands α}
    (rs : List (Rival α)) :
    ∀ (idx : Nat) (g : GState α), (rivalLoop F dt o idx g rs).1.speed = g.speed := by
  induction rs with
  | nil =>
    intro idx g
    rfl
  | cons r rest ih =>
    intro idx g
    dsimp only [rivalLoop]
    rw [rivalUpd_speed]
    exact ih _ _

theorem updateRivals_speed {F : MathOps α} (dt : α) (o : TickRands α)
    (s : GState α) : (updateRivals F dt o s).speed = s.speed := by
  unfold updateRivals
  dsimp only
  split_ifs <;> exact rivalLoop_speed _ _ _

theorem boostBurn_speed (i : Intent α) (dt : α) (fwd : Vec3 α) (s : GState α) :
    (boostBurn i dt fwd s).speed = s.speed := by
  unfold boostBurn
  split_ifs <;> rfl

theorem pulseKick_speed (dt : α) (fwd : Vec3 α) (s : GState α) :
    (pulseKick dt fwd s).speed = s.speed := by
  unfold pulseKick
  split_ifs <;> rfl

theorem driftBlock_speed_le (i : Intent α) (dt : α) (s : GState α)
    (h0 : 0 ≤ s.speed) (h1 : s.speed ≤ 360 * (135 / 100)) :
    0 ≤ (driftBlock i dt s).speed ∧
      (driftBlock i dt s).speed ≤ 360 * (135 / 100) := by
  unfold driftBlock
  dsimp only
  split_ifs <;> constructor <;>
    first
      | exact h0
      | exact h1
      | exact mul_nonneg h0 (by norm_num)
      | exact le_trans (mul_le_of_le_one_right h0 (by norm_num)) h1

theorem integrate_speed {F : MathOps α} {i : Intent α} {dt : α} {fwd : Vec3 α}
    {s : GState α} :
    0 ≤ (integrate F i dt fwd s).speed ∧
      (integrate F i dt fwd s).speed ≤ 360 * (135 / 100) := by
  unfold integrate
  dsimp only
  rw [pulseKick_speed, boostBurn_speed]
  exact driftBlock_speed_le _ _ _ (le_clamp _ (by norm_num)) (clamp_le _ _ _)

/-- **C3** — amended.  What the arena variant actually bounds is the scalar
`game.speed` (the HUD readout): at the end of every tick, for every
interpretation, input, random draw, frame delta and state,
`0 ≤ speed ≤ maxSpeed × overdriveFactor = 360 × 1.35`.  The velocity vector
`game.vel` that actually moves the car is never clamped, and the
counterexample run drives its magnitude beyond that bound. -/
theorem C3_amended {α : Type} [LinearOrderedField α] [FloorRing α]
    (F : MathOps α) (i : Intent α) (dt : α) (o : TickRands α) (s : GState α) :
    0 ≤ (update F i dt o s).speed ∧
      (update F i dt o s).speed ≤ 360 * (135 / 100) := by
  unfold update
  dsimp only
  rw [updateRivals_speed, updatePickups_speed, comboScore_speed, applyHeat_speed,
    applyBoostPads_speed, applyHazards_speed, playerClamp_speed]
  exact integrate_speed

end Drift.Arena

/-! ## The spline variant (`src/unnamed/part_000`): heat policy and track sampling -/

namespace Drift.Spline

variable {α : Type} [LinearOrderedField α] [FloorRing α]

/-- `applyHeat(dt)` of the spline variant (`CFG.heatCool = 18`,
`CFG.overheatDuration = 2.6`): cool and clamp the heat meter, and when it
reaches 100 with no overheat pending, arm the 2.6 s grip-penalty timer.  The
state it touches is `(game.heat, game.overheat)`; there is no `endRun` call
in this variant.  `coolRate` is `game.mod.coolRate`. -/
def applyHeat (dt coolRate heat overheat : α) : α × α :=
  let overheat1 := if overheat > 0 then max 0 (overheat - dt) else overheat
  let heat1 := clamp (heat - 18 * dt * coolRate) 0 100
  if heat1 ≥ 100 ∧ overheat1 ≤ 0 then (heat1, (26 : α) / 10)
  else (heat1, overheat1)

/-- One entry of `track.samples` as produced by `buildTrack`. -/
structure TSample (α : Type) where
  pos : Vec3 α
  tan : Vec3 α
  normal : Vec3 α
  width : α
  hazard : Bool
  boost : Bool
  u : α
  deriving DecidableEq, Repr

/-- The fields of the `track` object that `sampleTrack` and `wrapS` read. -/
structure Track (α : Type) where
  samples : List (TSample α)
  length : α
  deriving DecidableEq, Repr

/-- Truncation toward zero, the rounding JavaScript's `%` operator uses. -/
def jtrunc (x : α) : α := if x < 0 then ((⌈x⌉ : ℤ) : α) else ((⌊x⌋ : ℤ) : α)

/-- JavaScript's `%` on numbers: the remainder of truncated division. -/
def jsrem (a b : α) : α := a - b * jtrunc (a / b)

/-- `wrapS(track, s)`: wrap an arc position into `[0, len)`. -/
def wrapS (track : Track α) (s : α) : α :=
  let v := jsrem s track.length
  if v < 0 then v + track.length else v

/-- Componentwise `Vector3.lerp`. -/
def vlerp (a b : Vec3 α) (t : α) : Vec3 α :=
  ⟨lerp a.x b.x t, lerp a.y b.y t, lerp a.z b.z t⟩

/-- Out-of-range array access placeholder (never hit for in-range indices). -/
def defaultSample : TSample α :=
  ⟨Vec3.zero, Vec3.zero, Vec3.zero, 0, false, false, 0⟩

/-- `sampleTrack(track, s)`: wrap the arc position, locate the surrounding
pair of samples and interpolate them. -/
def sampleTrack (F : MathOps α) (track : Track α) (s : α) : TSample α :=
  let len := track.length
  let wrapped := wrapS track s
  let u := wrapped / len
  let f := u * ((track.samples.length : α) - 1)
  let i := ⌊f⌋
  let t := f - (i : α)
  let a := track.samples.getD i.toNat defaultSample
  let b := track.samples.getD ((i.toNat + 1) % track.samples.length) defaultSample
  { pos := vlerp a.pos b.pos t
    tan := Vec3.normalize F (vlerp a.tan b.tan t)
    normal := Vec3.normalize F (vlerp a.normal b.normal t)
    width := lerp a.width b.width t
    hazard := a.hazard || b.hazard
    boost := a.boost || b.boost
    u := lerp a.u b.u t }

/-- A two-sample closed course of length 10 used to instantiate the closure
theorem. -/
def wTrack : Track ℚ :=
  { samples :=
      [⟨⟨0, 0, 0⟩, ⟨0, 0, 1⟩, ⟨1, 0, 0⟩, 10, false, false, 0⟩,
       ⟨⟨5, 0, 5⟩, ⟨0, 0, 1⟩, ⟨1, 0, 0⟩, 10, false, false, 1⟩],
    length := 10 }

end Drift.Spline

/-! ## The frame-delta guard of `src/app.js` `tick` -/

namespace Drift.TickG

variable {α : Type} [LinearOrderedField α] [FloorRing α]

/-- A JavaScript number as the tick guard sees it: an ordinary finite value,
an infinity, `NaN`, or `undefined` (the initial value of `game.last`). -/
inductive JNum (α : Type) where
  | undef
  | nan
  | inf
  | ninf
  | num (v : α)
  deriving DecidableEq, Repr

/-- JavaScript truthiness of a number (`undefined`, `NaN` and `0` are falsy),
as ``game.last || t`` tests it. -/
def jtruthy : JNum α → Bool
  | .num v => decide (v ≠ 0)
  | .inf => true
  | .ninf => true
  | _ => false

/-- IEEE subtraction on JavaScript numbers. -/
def jsub : JNum α → JNum α → JNum α
  | .num a, b =>
    match b with
    | .num c => .num (a - c)
    | .inf => .ninf
    | .ninf => .inf
    | _ => .nan
  | .inf, b =>
    match b with
    | .num _ => .inf
    | .ninf => .inf
    | _ => .nan
  | .ninf, b =>
    match b with
    | .num _ => .ninf
    | .inf => .ninf
    | _ => .nan
  | _, _ => .nan

/-- `Math.min` on JavaScript numbers (`NaN` if either argument is not a
number). -/
def jmin : JNum α → JNum α → JNum α
  | .num a, b =>
    match b with
    | .num c => .num (min a c)
    | .inf => .num a
    | .ninf => .ninf
    | _ => .nan
  | .inf, b =>
    match b with
    | .num c => .num c
    | .inf => .inf
    | .ninf => .ninf
    | _ => .nan
  | .ninf, b =>
    match b with
    | .nan => .nan
    | .undef => .nan
    | _ => .ninf
  | _, _ => .nan

/-- `now / 1000` (`undefined / 1000` is `NaN`). -/
def jdiv1000 : JNum α → JNum α
  | .num v => .num (v / 1000)
  | .inf => .inf
  | .ninf => .ninf
  | _ => .nan

/-- The frame delta `tick` computes:
`Math.min(CFG.dtMax, t - (game.last || t))` with `CFG.dtMax = 0.05`. -/
def tickDt (t last : JNum α) : JNum α :=
  jmin (.num (5 / 100)) (jsub t (if jtruthy last then last else t))

/-- The state `tick` touches directly: `game.last` plus the rest of the
mutable state, abstracted as `world` and advanced only through `update`. -/
structure TickState (α σ : Type) where
  last : JNum α
  world : σ
  deriving DecidableEq, Repr

/-- `tick(now)` of `src/app.js`: compute the frame delta from the previous
`game.last`, store `game.last = t` unconditionally, and run `update(dt)` only
when the delta is a finite positive number. -/
def tick {σ : Type} (upd : α → σ → σ) (now : JNum α) (s : TickState α σ) :
    TickState α σ :=
  let t := jdiv1000 now
  match tickDt t s.last with
  | .num d => if d ≤ 0 then ⟨t, s.world⟩ else ⟨t, upd d s.world⟩
  | _ => ⟨t, s.world⟩

end Drift.TickG

/-! ## The drift/score blocks and attract input of `src/app.js` -/

namespace Drift.App

variable {α : Type} [LinearOrderedField α] [FloorRing α]

/-- The record `readInput`/`autoInput` of `src/app.js` return. -/
structure CIntent (α : Type) where
  steer : α
  left : Bool
  right : Bool
  accel : Bool
  brake : Bool
  drift : Bool
  boost : Bool
  deriving DecidableEq, Repr

/-- The car modifier field the drift block reads (`game.mod.boostGain`). -/
structure AMod (α : Type) where
  boostGain : α
  deriving DecidableEq, Repr

/-- The slice of `game` state that the drift, pickup, bump and score lines of
`src/app.js` read and write. -/
structure AGame (α : Type) where
  vel : Vec3 α
  drift : α
  drifting : Bool
  boost : α
  boostPulse : α
  shake : α
  combo : α
  comboTimer : α
  score : α
  speed : α
  mod : AMod α
  deriving DecidableEq, Repr

/-- `addCombo(v)` of `src/app.js`. -/
def addCombo (v : α) (s : AGame α) : AGame α :=
  { s with combo := clamp (s.combo + v) 1 9, comboTimer := 3 }

/-- The drift charge / release block of `src/app.js` `update` (lines with
`if (input.drift) ... else if (game.drifting) ...`; `CFG.driftGain = 34`,
`CFG.boostGain = 1.0`, `CFG.boostImpulse = 55`, `scoreMult = 1`). -/
def driftBlock (i : CIntent α) (dt : α) (fwd : Vec3 α) (s : AGame α) :
    AGame α :=
  if i.drift then
    let s1 := { s with
      drift := clamp (s.drift + 34 * dt) 0 100
      speed := s.speed * (995 / 1000)
      drifting := true }
    if s1.drift > 25 then
      let s2 := addCombo ((5 / 100) * dt) s1
      { s2 with score := s2.score + 3 * dt * 1 }
    else s1
  else if s.drifting then
    let s1 :=
      if s.drift > 5 then
        let release01 := clamp (s.drift / 100) 0 1
        let gain := s.drift * 1 * s.mod.boostGain
        let s2 := { s with
          boost := clamp (s.boost + gain) 0 140
          boostPulse := max s.boostPulse ((22 / 100) + release01 * (55 / 100))
          vel := Vec3.addScaled s.vel fwd (55 * ((3 / 10) + release01))
          shake := max s.shake ((22 / 100) + release01 * (35 / 100)) }
        let s3 := addCombo ((35 / 100) + release01 * (4 / 10)) s2
        { s3 with score := s3.score + (70 + 180 * release01) * s3.combo * 1 }
      else s
    { s1 with drift := 0, drifting := false }
  else s

/-- The combo decay and continuous score accrual lines of `src/app.js`
`update` (`game.comboTimer`/`game.combo`/`game.score`; `scoreMult = 1`). -/
def accrual (i : CIntent α) (dt : α) (s : AGame α) : AGame α :=
  let comboTimer1 := max 0 (s.comboTimer - dt)
  let combo1 := if comboTimer1 ≤ 0 then max 1 (s.combo - (2 / 10) * dt) else s.combo
  { s with
    comboTimer := comboTimer1
    combo := combo1
    score := s.score +
      (s.speed * (6 / 100) + (if i.drift then 3 else 0)) * dt * combo1 * 1 }

/-- `collectPickup(p)` of `src/app.js`: every pickup `spawnPickup` creates has
`type === 'coin'`, so the coin branch always runs. -/
def collectPickup (s : AGame α) : AGame α :=
  addCombo (5 / 10) { s with score := s.score + 180 * s.combo }

/-- `bump()` of `src/app.js`: damp the velocity and shrink the combo; the
score is untouched. -/
def bump (s : AGame α) : AGame α :=
  addCombo (-(5 / 10)) { s with vel := Vec3.smul s.vel (7 / 10), shake := max s.shake (6 / 10) }

/-- `autoInput(dt)` of `src/app.js`: advance `game.autopilotTime` and emit the
attract-mode intent.  `r` is the `Math.random()` draw the boost line
consumes. -/
def autoInput (F : MathOps α) (apt dt r : α) : α × CIntent α :=
  let t := apt + dt
  (t,
   { steer := F.sin (t * (7 / 10)) * (8 / 10)
     left := false
     right := false
     accel := true
     brake := false
     drift := decide (F.sin (t * (13 / 10)) > 65 / 100)
     boost := decide (r > 985 / 1000) })

/-- The drift key held, nothing else pressed. -/
def holdIntent : CIntent ℚ :=
  { steer := 0, left := false, right := false, accel := false, brake := false,
    drift := true, boost := false }

/-- All keys released. -/
def releaseIntent : CIntent ℚ :=
  { steer := 0, left := false, right := false, accel := false, brake := false,
    drift := false, boost := false }

/-- Fresh-run values of the drift-block state (default config: `mod.boostGain
= 1`). -/
def driftStart : AGame ℚ :=
  { vel := Vec3.zero, drift := 0, drifting := false, boost := 0,
    boostPulse := 0, shake := 0, combo := 1, comboTimer := 0, score := 0,
    speed := 0, mod := { boostGain := 1 } }

/-- `n` frames of 50 ms with the drift key held. -/
def iterHold : Nat → AGame ℚ → AGame ℚ
  | 0, s => s
  | Nat.succ n, s => iterHold n (driftBlock holdIntent (1 / 20) ⟨0, 0, 1⟩ s)

end Drift.App

namespace Drift.Arena

variable {α : Type} [LinearOrderedField α] [FloorRing α]

/-- A mid-tick game state with the heat meter past 100 (`boostBurn` and
`bump` add heat before `applyHeat` clamps it), no overheat pending, and the
run still in progress. -/
def cexHeat : GState ℚ :=
  { mode := .playing, pos := Vec3.zero, vel := Vec3.zero, yaw := 0, yawVel := 0,
    speed := 0, drift := 0, boost := 0, boostPulse := 0, heat := 101,
    overheat := 0, combo := 1, comboTimer := 0, score := 0, runTime := 0,
    fps := 0, pickupTimer := 7, rivalTimer := 5, drifting := false,
    mod := defaultMods, map := ⟨520, [], []⟩, pickups := [], rivals := [] }

/-- A small arena used to instantiate the boundary-resolution theorem. -/
def bounceMap : MapDef ℚ := ⟨2, [], []⟩

end Drift.Arena

/-! ## Helper lemmas shared by the remaining claims -/

namespace Drift

variable {α : Type} [LinearOrderedField α] [FloorRing α]

theorem clamp_mono {a b lo hi : α} (h : a ≤ b) : clamp a lo hi ≤ clamp b lo hi :=
  min_le_min le_rfl (max_le_max le_rfl h)

theorem Vec3.lengthSq_smul (a : Vec3 α) (k : α) :
    Vec3.lengthSq (Vec3.smul a k) = Vec3.lengthSq a * (k * k) := by
  unfold Vec3.lengthSq Vec3.smul
  ring

theorem Vec3.lengthSq_reflect (v n : Vec3 α) (h : Vec3.lengthSq n = 1) :
    Vec3.lengthSq (Vec3.reflect v n) = Vec3.lengthSq v := by
  unfold Vec3.lengthSq Vec3.reflect Vec3.sub Vec3.smul Vec3.dot at *
  linear_combination (4 * (v.x * n.x + v.y * n.y + v.z * n.z) ^ 2) * h

theorem Vec3.lengthSq_normalize (F : MathOps α) (a : Vec3 α)
    (hne : Vec3.length F a ≠ 0)
    (hsq : F.sqrt (Vec3.lengthSq a) * F.sqrt (Vec3.lengthSq a) = Vec3.lengthSq a) :
    Vec3.lengthSq (Vec3.normalize F a) = 1 := by
  unfold Vec3.normalize
  rw [if_neg hne]
  rw [Vec3.lengthSq_smul]
  have hl : Vec3.length F a * Vec3.length F a = Vec3.lengthSq a := hsq
  rw [← hl]
  field_simp

end Drift

namespace Drift.TickG

variable {α : Type} [LinearOrderedField α] [FloorRing α]

/-- Whenever the computed frame delta is an ordinary number, it is at most
`CFG.dtMax = 0.05`. -/
theorem tickDt_le (t last : JNum α) (d : α) (h : tickDt t last = JNum.num d) :
    d ≤ 5 / 100 := by
  unfold tickDt at h
  cases he : jsub t (if jtruthy last then last else t) with
  | num b =>
    rw [he] at h
    simp only [jmin] at h
    injection h with h
    rw [← h]
    exact min_le_left _ _
  | undef => rw [he] at h; simp only [jmin] at h; exact absurd h (by simp)
  | nan => rw [he] at h; simp only [jmin] at h; exact absurd h (by simp)
  | inf =>
    rw [he] at h
    simp only [jmin] at h
    injection h with h
    rw [← h]
  | ninf => rw [he] at h; simp only [jmin] at h; exact absurd h (by simp)

end Drift.TickG

namespace Drift.Arena

variable {α : Type} [LinearOrderedField α] [FloorRing α]

/-! ### Score and combo projections through the tick phases -/

theorem boostBurn_score (i : Intent α) (dt : α) (fwd : Vec3 α) (s : GState α) :
    (boostBurn i dt fwd s).score = s.score := by
  unfold boostBurn
  split_ifs <;> rfl

theorem pulseKick_score (dt : α) (fwd : Vec3 α) (s : GState α) :
    (pulseKick dt fwd s).score = s.score := by
  unfold pulseKick
  split_ifs <;> rfl

theorem driftBlock_score (i : Intent α) (dt : α) (s : GState α) :
    (driftBlock i dt s).score = s.score := by
  unfold driftBlock
  dsimp only
  split_ifs <;> rfl

theorem integrate_score (F : MathOps α) (i : Intent α) (dt : α) (fwd : Vec3 α)
    (s : GState α) : (integrate F i dt fwd s).score = s.score := by
  unfold integrate
  dsimp only
  rw [pulseKick_score, boostBurn_score, driftBlock_score]

theorem boostBurn_combo (i : Intent α) (dt : α) (fwd : Vec3 α) (s : GState α) :
    (boostBurn i dt fwd s).combo = s.combo := by
  unfold boostBurn
  split_ifs <;> rfl

theorem pulseKick_combo (dt : α) (fwd : Vec3 α) (s : GState α) :
    (pulseKick dt fwd s).combo = s.combo := by
  unfold pulseKick
  split_ifs <;> rfl

theorem driftBlock_combo (i : Intent α) (dt : α) (s : GState α) :
    (driftBlock i dt s).combo = s.combo := by
  unfold driftBlock
  dsimp only
  split_ifs <;> rfl

theorem integrate_combo (F : MathOps α) (i : Intent α) (dt : α) (fwd : Vec3 α)
    (s : GState α) : (integrate F i dt fwd s).combo = s.combo := by
  unfold integrate
  dsimp only
  rw [pulseKick_combo, boostBurn_combo, driftBlock_combo]

theorem playerClamp_score (F : MathOps α) (s : GState α) :
    (playerClamp F s).score = s.score := rfl

theorem playerClamp_combo (F : MathOps α) (s : GState α) :
    (playerClamp F s).combo = s.combo := rfl

theorem applyHazards_score (dt : α) (s : GState α) :
    (applyHazards dt s).score = s.score := rfl

theorem applyHazards_combo (dt : α) (s : GState α) :
    (applyHazards dt s).combo = s.combo := rfl

theorem applyBoostPads_score (dt : α) (fwd : Vec3 α) (s : GState α) :
    (applyBoostPads dt fwd s).score = s.score := rfl

theorem applyBoostPads_combo (dt : α) (fwd : Vec3 α) (s : GState α) :
    (applyBoostPads dt fwd s).combo = s.combo := rfl

theorem applyHeat_score (dt : α) (s : GState α) :
    (applyHeat dt s).score = s.score := by
  unfold applyHeat
  dsimp only
  split_ifs <;> rfl

theorem applyHeat_combo (dt : α) (s : GState α) :
    (applyHeat dt s).combo = s.combo := by
  unfold applyHeat
  dsimp only
  split_ifs <;> rfl

/-! ### Per-phase score monotonicity -/

theorem comboScore_mono (i : Intent α) (dt : α) (s : GState α)
    (hdt : 0 ≤ dt) (hsp : 0 ≤ s.speed) (hc : 0 ≤ s.combo) :
    s.score ≤ (comboScore i dt s).score ∧ 0 ≤ (comboScore i dt s).combo := by
  unfold comboScore
  dsimp only
  refine ⟨?_, ?_⟩ <;> split_ifs <;>
    first
      | exact hc
      | exact le_trans zero_le_one (le_max_left _ _)
      | exact le_add_of_nonneg_right (mul_nonneg (mul_nonneg
          (add_nonneg (mul_nonneg hsp (by norm_num)) (by norm_num)) hdt)
          (le_trans zero_le_one (le_max_left _ _)))
      | exact le_add_of_nonneg_right (mul_nonneg (mul_nonneg
          (add_nonneg (mul_nonneg hsp (by norm_num)) (by norm_num)) hdt) hc)

theorem collectPickup_mono (p : Pickup α) (s : GState α) (hc : 0 ≤ s.combo) :
    s.score ≤ (collectPickup p s).score ∧ 0 ≤ (collectPickup p s).combo := by
  unfold collectPickup addCombo
  dsimp only
  refine ⟨?_, ?_⟩ <;> split_ifs <;>
    first
      | exact le_refl _
      | exact hc
      | exact le_add_of_nonneg_right (mul_nonneg (by norm_num) hc)
      | exact le_trans zero_le_one (le_clamp _ (by norm_num))

theorem pickupLoop_score {F : MathOps α} {dt : α} (ps : List (Pickup α)) :
    ∀ (idx : Nat) (g : GState α), 0 ≤ g.combo →
      g.score ≤ (pickupLoop F dt idx g ps).1.score ∧
        0 ≤ (pickupLoop F dt idx g ps).1.combo := by
  induction ps with
  | nil =>
    intro idx g hc
    exact ⟨le_refl _, hc⟩
  | cons p rest ih =>
    intro idx g hc
    dsimp only [pickupLoop]
    split_ifs
    · obtain ⟨h1, h2⟩ := ih (idx + 1) g hc
      obtain ⟨h3, h4⟩ := collectPickup_mono p _ h2
      exact ⟨le_trans h1 h3, h4⟩
    · exact ih _ _ hc
    · exact ih _ _ hc

theorem updatePickups_mono (F : MathOps α) (dt : α) (o : TickRands α)
    (s : GState α) (hc : 0 ≤ s.combo) :
    s.score ≤ (updatePickups F dt o s).score ∧
      0 ≤ (updatePickups F dt o s).combo := by
  unfold updatePickups
  dsimp only
  split_ifs
  · exact pickupLoop_score
      (s.pickups ++ [spawnPickup F s.map o.pickupTries o.pickupTypeR]) 0
      { s with pickupTimer := 7 } hc
  · exact pickupLoop_score s.pickups 0
      { s with pickupTimer := s.pickupTimer - dt } hc

theorem rivalUpd_score {F : MathOps α} (dt accelR : α) (idx : Nat)
    (g : GState α) (r : Rival α) (hc : 0 ≤ g.combo) :
    (rivalUpd F dt accelR idx g r).1.score = g.score ∧
      0 ≤ (rivalUpd F dt accelR idx g r).1.combo := by
  unfold rivalUpd bump addCombo clampToArena
  dsimp only
  split_ifs <;>
    first
      | exact ⟨rfl, hc⟩
      | exact ⟨rfl, le_trans zero_le_one (le_clamp _ (by norm_num))⟩

theorem rivalLoop_score {F : MathOps α} {dt : α} {o : TickRands α}
    (rs : List (Rival α)) :
    ∀ (idx : Nat) (g : GState α), 0 ≤ g.combo →
      (rivalLoop F dt o idx g rs).1.score = g.score ∧
        0 ≤ (rivalLoop F dt o idx g rs).1.combo := by
  induction rs with
  | nil =>
    intro idx g hc
    exact ⟨rfl, hc⟩
  | cons r rest ih =>
    intro idx g hc
    dsimp only [rivalLoop]
    obtain ⟨h1, h2⟩ := ih (idx + 1) g hc
    obtain ⟨h3, h4⟩ := rivalUpd_score dt (o.rivalAccel idx) idx _ r h2
    exact ⟨h3.trans h1, h4⟩

theorem updateRivals_score (F : MathOps α) (dt : α) (o : TickRands α)
    (s : GState α) (hc : 0 ≤ s.combo) :
    (updateRivals F dt o s).score = s.score ∧
      0 ≤ (updateRivals F dt o s).combo := by
  unfold updateRivals
  dsimp only
  split_ifs <;> exact rivalLoop_score _ _ _ hc

theorem update_score (F : MathOps α) (i : Intent α) (dt : α) (o : TickRands α)
    (s : GState α) (hdt : 0 ≤ dt) (hc : 0 ≤ s.combo) :
    s.score ≤ (update F i dt o s).score := by
  have h1 : update F i dt o s =
      updateRivals F dt o (updatePickups F dt o (comboScore i dt
        (applyHeat dt (applyBoostPads dt ⟨F.sin s.yaw, 0, F.cos s.yaw⟩
          (applyHazards dt (playerClamp F
            (integrate F i dt ⟨F.sin s.yaw, 0, F.cos s.yaw⟩ s))))))) := rfl
  rw [h1]
  set X := applyHeat dt (applyBoostPads dt ⟨F.sin s.yaw, 0, F.cos s.yaw⟩
    (applyHazards dt (playerClamp F
      (integrate F i dt ⟨F.sin s.yaw, 0, F.cos s.yaw⟩ s)))) with hXdef
  have hXscore : X.score = s.score := by
    rw [hXdef, applyHeat_score, applyBoostPads_score, applyHazards_score,
      playerClamp_score, integrate_score]
  have hXcombo : X.combo = s.combo := by
    rw [hXdef, applyHeat_combo, applyBoostPads_combo, applyHazards_combo,
      playerClamp_combo, integrate_combo]
  have hXspeed : 0 ≤ X.speed := by
    rw [hXdef, applyHeat_speed, applyBoostPads_speed, applyHazards_speed,
      playerClamp_speed]
    exact integrate_speed.1
  obtain ⟨h6, h6c⟩ := comboScore_mono i dt X hdt hXspeed (hXcombo ▸ hc)
  obtain ⟨h7, h7c⟩ := updatePickups_mono F dt o (comboScore i dt X) h6c
  obtain ⟨h8, _⟩ := updateRivals_score F dt o (updatePickups F dt o (comboScore i dt X)) h7c
  calc s.score = X.score := hXscore.symm
    _ ≤ (comboScore i dt X).score := h6
    _ ≤ (updatePickups F dt o (comboScore i dt X)).score := h7
    _ = (updateRivals F dt o (updatePickups F dt o (comboScore i dt X))).score := h8.symm

end Drift.Arena

namespace Drift.App

variable {α : Type} [LinearOrderedField α] [FloorRing α]

theorem accrual_score (i : CIntent α) (dt : α) (s : AGame α)
    (hdt : 0 ≤ dt) (hsp : 0 ≤ s.speed) (hc : 0 ≤ s.combo) :
    s.score ≤ (accrual i dt s).score := by
  unfold accrual
  dsimp only
  split_ifs <;>
    first
      | exact le_add_of_nonneg_right (mul_nonneg (mul_nonneg (mul_nonneg
          (add_nonneg (mul_nonneg hsp (by norm_num)) (by norm_num)) hdt)
          (le_trans zero_le_one (le_max_left _ _))) zero_le_one)
      | exact le_add_of_nonneg_right (mul_nonneg (mul_nonneg (mul_nonneg
          (add_nonneg (mul_nonneg hsp (by norm_num)) (by norm_num)) hdt) hc)
          zero_le_one)

theorem collectPickup_score (s : AGame α) (hc : 0 ≤ s.combo) :
    s.score ≤ (collectPickup s).score := by
  unfold collectPickup addCombo
  exact le_add_of_nonneg_right (mul_nonneg (by norm_num) hc)

theorem bump_score (s : AGame α) : (bump s).score = s.score := rfl

theorem appDriftBlock_score (i : CIntent α) (dt : α) (fwd : Vec3 α)
    (s : AGame α) (hdt : 0 ≤ dt) : s.score ≤ (driftBlock i dt fwd s).score := by
  unfold driftBlock addCombo
  dsimp only
  split_ifs <;>
    first
      | exact le_refl _
      | exact le_add_of_nonneg_right (mul_nonneg (mul_nonneg (by norm_num) hdt)
          zero_le_one)
      | exact le_add_of_nonneg_right (mul_nonneg (mul_nonneg
          (add_nonneg (by norm_num) (mul_nonneg (by norm_num)
            (Arena.le_clamp _ (by norm_num))))
          (le_trans zero_le_one (Arena.le_clamp _ (by norm_num)))) zero_le_one)

end Drift.App

/-! ## The remaining claims -/

namespace Drift.Arena

variable {α : Type} [LinearOrderedField α] [FloorRing α]

/-- **C2** — counterexample.  The arena variant applies BOTH overheat
consequences at once: from a playing state whose heat meter is past 100 with
no overheat pending, one `applyHeat` both arms the 2.8 s grip-penalty timer
(`game.overheat > 0`, the soft policy) and ends the run with reason
"Overheated" (the hard policy). -/
theorem C2_counterexample :
    cexHeat.mode = Mode.playing ∧
    0 < (applyHeat (1 / 20 : ℚ) cexHeat).overheat ∧
    (applyHeat (1 / 20 : ℚ) cexHeat).mode = Mode.over "Overheated" := by
  refine ⟨rfl, by norm_num [applyHeat, cexHeat, defaultMods, clamp, endRun], ?_⟩
  norm_num [applyHeat, cexHeat, defaultMods, clamp, endRun]

/-- **C2** — amended.  The two source variants disagree, and the arena
variant does not pick one policy: whenever the cooled heat value stays at or
above 100 with no overheat timer pending, the arena `applyHeat` applies both
consequences in the same tick — it arms the 2.8 s grip-penalty timer AND ends
the run with reason "Overheated" — while the spline variant
(`src/unnamed/part_000`) applies only the soft policy, arming its 2.6 s timer
and never terminating the run (its `applyHeat` writes nothing but
`(heat, overheat)`). -/
theorem C2_amended :
    (∀ (dt : α) (s : GState α),
      100 ≤ s.heat - 16 * dt * s.mod.coolRate → s.overheat ≤ 0 →
      (applyHeat dt s).heat = 100 ∧
      (applyHeat dt s).overheat = 28 / 10 ∧
      (applyHeat dt s).mode = endRun "Overheated" s.mode) ∧
    (∀ (dt coolRate heat overheat : α),
      100 ≤ heat - 18 * dt * coolRate → overheat ≤ 0 →
      Spline.applyHeat dt coolRate heat overheat = (100, 26 / 10)) := by
  constructor
  · intro dt s h1 h2
    unfold applyHeat
    dsimp only
    have hov : (if s.overheat > 0 then max 0 (s.overheat - dt) else s.overheat)
        = s.overheat := if_neg (not_lt.mpr h2)
    have hht : clamp (s.heat - 16 * dt * s.mod.coolRate) 0 100 = 100 := by
      unfold clamp
      rw [max_eq_right (le_trans (by norm_num) h1), min_eq_left h1]
    rw [hov, hht]
    rw [if_pos ⟨le_refl (100 : α), h2⟩]
    exact ⟨rfl, rfl, rfl⟩
  · intro dt coolRate heat overheat h1 h2
    unfold Spline.applyHeat
    dsimp only
    have hov : (if overheat > 0 then max 0 (overheat - dt) else overheat)
        = overheat := if_neg (not_lt.mpr h2)
    have hht : clamp (heat - 18 * dt * coolRate) 0 100 = 100 := by
      unfold clamp
      rw [max_eq_right (le_trans (by norm_num) h1), min_eq_left h1]
    rw [hov, hht]
    rw [if_pos ⟨le_refl (100 : α), h2⟩]

theorem C2_amended_witness :
    (applyHeat (1 / 20 : ℚ) cexHeat).heat = 100 ∧
    (applyHeat (1 / 20 : ℚ) cexHeat).overheat = 28 / 10 ∧
    (applyHeat (1 / 20 : ℚ) cexHeat).mode = endRun "Overheated" cexHeat.mode :=
  C2_amended.1 (1 / 20) cexHeat (by norm_num [cexHeat, defaultMods])
    (by norm_num [cexHeat])

/-- **C4** — confirmed (squared-norm form, assuming the supplied `Math.sqrt`
squares back on the entry norm).  When `|pos|` exceeds the arena radius, one
`clampToArena` places the position exactly at `radius × 0.995` along the
outward unit direction (so `|pos|² ≤ radius²` afterwards), and the resolved
velocity is the reflection of the incoming velocity about that outward normal
scaled by the bounce coefficient 0.45, so its squared speed is exactly
`0.45²` times the incoming squared speed. -/
theorem C4_arena_bounce (F : MathOps α) (map : MapDef α) (pos vel : Vec3 α)
    (heat : α) (shield : Bool) (hs : 0 ≤ map.size)
    (hgt : Vec3.length F pos > map.size)
    (hsq : F.sqrt (Vec3.lengthSq pos) * F.sqrt (Vec3.lengthSq pos) =
      Vec3.lengthSq pos) :
    Vec3.lengthSq (clampToArena F map pos vel heat shield).1 ≤
      map.size * map.size ∧
    Vec3.lengthSq (clampToArena F map pos vel heat shield).1 =
      (map.size * (995 / 1000)) * (map.size * (995 / 1000)) ∧
    Vec3.lengthSq (clampToArena F map pos vel heat shield).2.1 =
      ((45 / 100) * (45 / 100)) * Vec3.lengthSq vel ∧
    (clampToArena F map pos vel heat shield).2.1 =
      Vec3.smul (Vec3.reflect vel (Vec3.normalize F pos)) (45 / 100) := by
  have hl : (0 : α) < Vec3.length F pos := lt_of_le_of_lt hs hgt
  have hne : Vec3.length F pos ≠ 0 := ne_of_gt hl
  have hdir : Vec3.lengthSq (Vec3.normalize F pos) = 1 :=
    Vec3.lengthSq_normalize F pos hne hsq
  unfold clampToArena
  rw [if_pos hgt]
  dsimp only
  refine ⟨?_, ?_, ?_, rfl⟩
  · rw [Vec3.lengthSq_smul, hdir, one_mul]
    nlinarith [mul_nonneg hs hs]
  · rw [Vec3.lengthSq_smul, hdir, one_mul]
  · rw [Vec3.lengthSq_smul, Vec3.lengthSq_reflect vel _ hdir]
    ring

attribute [local semireducible] Rat.add Rat.mul Rat.inv Rat.sub in
theorem C4_arena_bounce_witness :
    Vec3.lengthSq (clampToArena qOps bounceMap ⟨3, 0, 4⟩ ⟨1, 0, 0⟩ 0 false).1 ≤
      bounceMap.size * bounceMap.size ∧
    Vec3.lengthSq (clampToArena qOps bounceMap ⟨3, 0, 4⟩ ⟨1, 0, 0⟩ 0 false).1 =
      (bounceMap.size * (995 / 1000)) * (bounceMap.size * (995 / 1000)) ∧
    Vec3.lengthSq (clampToArena qOps bounceMap ⟨3, 0, 4⟩ ⟨1, 0, 0⟩ 0 false).2.1 =
      ((45 / 100) * (45 / 100)) * Vec3.lengthSq (⟨1, 0, 0⟩ : Vec3 ℚ) ∧
    (clampToArena qOps bounceMap ⟨3, 0, 4⟩ ⟨1, 0, 0⟩ 0 false).2.1 =
      Vec3.smul (Vec3.reflect ⟨1, 0, 0⟩ (Vec3.normalize qOps ⟨3, 0, 4⟩)) (45 / 100) :=
  C4_arena_bounce qOps bounceMap ⟨3, 0, 4⟩ ⟨1, 0, 0⟩ 0 false
    (by norm_num [bounceMap]) (by decide) (by decide)

/-- **C10** — confirmed.  The score never decreases: over a full arena tick
(with a non-negative frame delta from a state with non-negative combo) the
score is monotone non-decreasing, and in `src/app.js` every accrual site adds
a non-negative amount (the continuous accrual, the coin pickup, the drift
charge/release bonuses) while `bump` leaves the score untouched. -/
theorem C10_score_monotone :
    (∀ (F : MathOps α) (i : Intent α) (dt : α) (o : TickRands α) (s : GState α),
      0 ≤ dt → 0 ≤ s.combo → s.score ≤ (update F i dt o s).score) ∧
    (∀ (i : App.CIntent α) (dt : α) (s : App.AGame α),
      0 ≤ dt → 0 ≤ s.speed → 0 ≤ s.combo → s.score ≤ (App.accrual i dt s).score) ∧
    (∀ s : App.AGame α, 0 ≤ s.combo → s.score ≤ (App.collectPickup s).score) ∧
    (∀ s : App.AGame α, (App.bump s).score = s.score) ∧
    (∀ (i : App.CIntent α) (dt : α) (fwd : Vec3 α) (s : App.AGame α),
      0 ≤ dt → s.score ≤ (App.driftBlock i dt fwd s).score) :=
  ⟨fun F i dt o s hdt hc => update_score F i dt o s hdt hc,
   fun i dt s hdt hsp hc => App.accrual_score i dt s hdt hsp hc,
   fun s hc => App.collectPickup_score s hc,
   fun s => App.bump_score s,
   fun i dt fwd s hdt => App.appDriftBlock_score i dt fwd s hdt⟩

theorem C10_score_monotone_witness :
    hq10.score ≤ (update qOps idleIntent (1 / 20) calmRands hq10).score :=
  C10_score_monotone.1 qOps idleIntent (1 / 20) calmRands hq10 (by norm_num)
    (by norm_num [hq10])

end Drift.Arena

namespace Drift.Spline

variable {α : Type} [LinearOrderedField α] [FloorRing α]

/-- **C8** — confirmed.  On a closed course of positive length, sampling at
arc position 0 (normalized `u = 0`) and at the full track length (`u = 1`)
wraps to the same arc position, so the two samples — positions included —
coincide exactly (ε = 0). -/
theorem C8_closed_track (F : MathOps α) (track : Track α)
    (h : 0 < track.length) :
    sampleTrack F track 0 = sampleTrack F track track.length := by
  have hw0 : wrapS track 0 = 0 := by
    unfold wrapS jsrem jtrunc
    dsimp only
    rw [zero_div]
    norm_num
  have hw1 : wrapS track track.length = 0 := by
    unfold wrapS jsrem jtrunc
    dsimp only
    rw [div_self (ne_of_gt h)]
    norm_num
  unfold sampleTrack
  dsimp only
  rw [hw0, hw1]

theorem C8_closed_track_witness :
    sampleTrack qOps wTrack 0 = sampleTrack qOps wTrack wTrack.length :=
  C8_closed_track qOps wTrack (by norm_num [wTrack])

end Drift.Spline

namespace Drift.TickG

variable {α : Type} [LinearOrderedField α] [FloorRing α]

attribute [local semireducible] Rat.add Rat.mul Rat.inv Rat.sub in
/-- **C6** — counterexample.  A tick whose frame delta is non-positive
(`t = 1` after `game.last = 2`, so `dt = min(0.05, -1) = -1 ≤ 0`) does skip
`update` (the world is untouched), but it does NOT leave the whole game state
unchanged: `game.last` is overwritten before the guard runs. -/
theorem C6_counterexample :
    (tick (fun d w => w + d) (JNum.num (1000 : ℚ)) ⟨JNum.num 2, (0 : ℚ)⟩).world
      = 0 ∧
    tick (fun d w => w + d) (JNum.num (1000 : ℚ)) ⟨JNum.num 2, (0 : ℚ)⟩ ≠
      ⟨JNum.num 2, 0⟩ := by
  decide

/-- **C6** — amended.  In the `src/app.js` `tick`, the frame delta passed to
`update` is always positive and clamped to `CFG.dtMax = 0.05`; when the
computed delta is non-finite or non-positive, `update` is skipped and the
`world` state is unchanged — but `game.last` is rewritten to the new
timestamp on every tick, skipped or not (and the `src/unnamed/part_001` loop
has no skip at all). -/
theorem C6_amended :
    (∀ (t last : JNum α) (d : α), tickDt t last = JNum.num d → d ≤ 5 / 100) ∧
    (∀ (σ : Type) (upd : α → σ → σ) (now : JNum α) (s : TickState α σ),
      (tick upd now s).last = jdiv1000 now ∧
      ((tick upd now s).world = s.world ∨
        ∃ d : α, tickDt (jdiv1000 now) s.last = JNum.num d ∧
          0 < d ∧ d ≤ 5 / 100 ∧ (tick upd now s).world = upd d s.world)) := by
  refine ⟨fun t last d h => tickDt_le t last d h, ?_⟩
  intro σ upd now s
  unfold tick
  dsimp only
  cases h : tickDt (jdiv1000 now) s.last with
  | num d =>
    dsimp only
    split_ifs with hle
    · exact ⟨rfl, Or.inl rfl⟩
    · exact ⟨rfl, Or.inr ⟨d, rfl, lt_of_not_le hle, tickDt_le _ _ _ h, rfl⟩⟩
  | undef => exact ⟨rfl, Or.inl rfl⟩
  | nan => exact ⟨rfl, Or.inl rfl⟩
  | inf => exact ⟨rfl, Or.inl rfl⟩
  | ninf => exact ⟨rfl, Or.inl rfl⟩

attribute [local semireducible] Rat.add Rat.mul Rat.inv Rat.sub in
theorem C6_amended_witness : (1 / 20 : ℚ) ≤ 5 / 100 :=
  C6_amended.1 (JNum.num 1) (JNum.num (19 / 20)) (1 / 20) (by decide)

end Drift.TickG

namespace Drift.App

variable {α : Type} [LinearOrderedField α] [FloorRing α]

attribute [local semireducible] Rat.add Rat.mul Rat.inv Rat.sub in
/-- **C7** — counterexample.  Two attract-mode ticks fed the identical
elapsed time (and even the identical frame delta) can receive different
intents, because the boost field consumes `Math.random()`: with draw 0 the
boost key is up, with draw 1 it is down.  `autoInput` is therefore not a pure
function of elapsed time. -/
theorem C7_counterexample :
    (autoInput qOps 0 1 0).1 = (autoInput qOps 0 1 1).1 ∧
    (autoInput qOps 0 1 0).2 ≠ (autoInput qOps 0 1 1).2 := by
  decide

/-- **C7** — amended.  `autoInput` is a pure function of the elapsed
autopilot time and of one `Math.random()` draw: with the random draw held
fixed it is deterministic, every field except `boost` depends only on the
time, and `boost` is exactly the predicate `draw > 0.985`. -/
theorem C7_amended :
    ∀ (F : MathOps α) (apt dt r rr : α),
      (autoInput F apt dt r).1 = (autoInput F apt dt rr).1 ∧
      (autoInput F apt dt r).2.steer = (autoInput F apt dt rr).2.steer ∧
      (autoInput F apt dt r).2.left = (autoInput F apt dt rr).2.left ∧
      (autoInput F apt dt r).2.right = (autoInput F apt dt rr).2.right ∧
      (autoInput F apt dt r).2.accel = (autoInput F apt dt rr).2.accel ∧
      (autoInput F apt dt r).2.brake = (autoInput F apt dt rr).2.brake ∧
      (autoInput F apt dt r).2.drift = (autoInput F apt dt rr).2.drift ∧
      (autoInput F apt dt r).2.boost = decide (r > 985 / 1000) :=
  fun F apt dt r rr => ⟨rfl, rfl, rfl, rfl, rfl, rfl, rfl, rfl⟩

attribute [local semireducible] Rat.add Rat.mul Rat.inv Rat.sub in
set_option maxRecDepth 100000 in
set_option maxHeartbeats 1000000 in
/-- **C5** — confirmed.  On drift release (drift key up while `drifting`):
the charge always resets to 0 and `drifting` clears; when the accumulated
charge exceeds 5, the boost meter becomes `clamp(boost + charge × 1 ×
mod.boostGain, 0, 140)` and a forward impulse `55 × (0.3 + charge/100)` is
applied; otherwise the boost meter is untouched.  Scenario: holding drift for
1 s (twenty 50 ms frames) from a fresh default-config state and then
releasing yields `boost > 0` and `drift = 0`. -/
theorem C5_drift_release :
    (∀ (i : CIntent α) (dt : α) (fwd : Vec3 α) (s : AGame α),
      i.drift = false → s.drifting = true →
      (driftBlock i dt fwd s).drift = 0 ∧
      (driftBlock i dt fwd s).drifting = false ∧
      (5 < s.drift →
        (driftBlock i dt fwd s).boost =
          clamp (s.boost + s.drift * 1 * s.mod.boostGain) 0 140 ∧
        (driftBlock i dt fwd s).vel =
          Vec3.addScaled s.vel fwd (55 * ((3 / 10) + clamp (s.drift / 100) 0 1))) ∧
      (¬ 5 < s.drift → (driftBlock i dt fwd s).boost = s.boost)) ∧
    ((driftBlock releaseIntent (1 / 20) ⟨0, 0, 1⟩
        (iterHold 20 driftStart)).boost > 0 ∧
      (driftBlock releaseIntent (1 / 20) ⟨0, 0, 1⟩
        (iterHold 20 driftStart)).drift = 0) := by
  constructor
  · intro i dt fwd s hi hd
    unfold driftBlock
    simp only [hi, Bool.false_eq_true, if_false, hd, eq_self_iff_true, if_true]
    split_ifs with h
    · refine ⟨?_, ?_, fun _ => ⟨?_, ?_⟩, fun hn => absurd h hn⟩ <;>
        first | rfl | trivial
    · refine ⟨?_, ?_, fun hy => absurd hy h, fun _ => ?_⟩ <;>
        first | rfl | trivial
  · decide

attribute [local semireducible] Rat.add Rat.mul Rat.inv Rat.sub in
set_option maxRecDepth 100000 in
set_option maxHeartbeats 1000000 in
theorem C5_drift_release_witness :
    (driftBlock releaseIntent (1 / 20) ⟨0, 0, 1⟩
      (iterHold 20 driftStart)).drift = 0 :=
  (C5_drift_release.1 releaseIntent (1 / 20) ⟨0, 0, 1⟩ (iterHold 20 driftStart)
    rfl (by decide)).1

/-- **C9** — confirmed.  With everything else equal (a non-negative
`mod.boostGain` and a boost meter inside its [0, 140] range), the boost meter
obtained by releasing a larger drift charge is at least the one obtained by
releasing a smaller charge: below the release threshold the meter is
untouched, above it the clamped gain `charge × 1 × mod.boostGain` is monotone
in the charge. -/
theorem C9_gain_monotone :
    ∀ (i : CIntent α) (dt : α) (fwd : Vec3 α) (s : AGame α) (c d : α),
      i.drift = false → 0 ≤ s.mod.boostGain → 0 ≤ s.boost → s.boost ≤ 140 →
      0 ≤ c → c < d →
      (driftBlock i dt fwd { s with drift := c, drifting := true }).boost ≤
        (driftBlock i dt fwd { s with drift := d, drifting := true }).boost := by
  intro i dt fwd s c d hi hm hb0 hb140 hc0 hcd
  unfold driftBlock
  simp only [hi, Bool.false_eq_true, if_false, eq_self_iff_true, if_true]
  split_ifs with h1 h2 h2
  · exact clamp_mono (by nlinarith [mul_nonneg (sub_nonneg.mpr (le_of_lt hcd)) hm])
  · exact absurd (lt_trans h1 hcd) h2
  · unfold clamp
    refine le_min hb140 (le_trans ?_ (le_max_right 0 _))
    have h0 : 0 ≤ d * 1 * s.mod.boostGain :=
      mul_nonneg (mul_nonneg (le_trans hc0 (le_of_lt hcd)) zero_le_one) hm
    linarith
  · exact le_refl _

theorem C9_gain_monotone_witness :
    (driftBlock releaseIntent (1 / 20) ⟨0, 0, 1⟩
      { driftStart with drift := 10, drifting := true }).boost ≤
    (driftBlock releaseIntent (1 / 20) ⟨0, 0, 1⟩
      { driftStart with drift := 20, drifting := true }).boost :=
  C9_gain_monotone releaseIntent (1 / 20) ⟨0, 0, 1⟩ driftStart 10 20 rfl
    (by norm_num [driftStart]) (by norm_num [driftStart])
    (by norm_num [driftStart]) (by norm_num) (by norm_num)

end Drift.App
